import Mathlib

/-!
# Joystick calibration controller (QGroundControl, `JoystickConfigController.cc`)

A shallow embedding of the calibration state machine of
`src/VehicleSetup/JoystickConfigController.cc` and theorems about it.

Conventions of the embedding:

* C++ `int` is modelled by `Int`.  Signed overflow is undefined behaviour in
  C++, so the embedding describes the executions in which no `int` operation
  overflows; `/` on `int` truncates toward zero and is modelled by `Int.tdiv`.
  The theorems on the computed midpoint `axisMin + (axisMax - axisMin) / 2` of
  an unassigned axis and on the deadband taken from `abs(value) * 1.1f` name
  that range in their hypotheses (`fitsInt`, `sampleConverts`): outside it the
  source overflows an `int` and the unbounded arithmetic of the embedding says
  nothing about it.
* The arrays `_rgAxisInfo`, `_axisValueSave`, `_axisRawValue` are modelled as
  functions on the index type `Int`; a loop `for (i = 0; i < _axisCount; i++)`
  updates exactly the indices `0 .. _axisCount - 1`.
* Members lose their leading underscore (`_currentStep` is `currentStep`).
* `QElapsedTimer` is modelled by the clock reading at which it was started;
  every function that reads the clock takes the current reading `now`
  (milliseconds) as an argument.
* A failed `Q_ASSERT` is modelled by the result `none`.
* Qt signals (`emit ...`) and log output carry no state and are left out.
-/

namespace JoystickConfigController

/-! ## Declarations of the headers, which are not part of the translated file -/

/-- Modelled from the spec: the enumeration `Joystick::AxisFunction_t` of the
logical control functions; its declaration (`Joystick.h`) is missing.  The
six functions named in the source file are the primary ones, `maxFunction` is
the sentinel "unassigned" and the number of functions. -/
inductive AxisFunction_t where
  | rollFunction
  | pitchFunction
  | yawFunction
  | throttleFunction
  | gimbalPitchFunction
  | gimbalYawFunction
  | maxFunction
  deriving DecidableEq, Repr

/-- Modelled from the spec: the record `Joystick::Calibration_t` kept per axis
by the persisted calibration store (`center, min, max, reversed, deadband`);
its declaration is missing. -/
structure Calibration_t where
  center : Int
  min : Int
  max : Int
  reversed : Bool
  deadband : Int
  deriving DecidableEq, Repr

/-- Modelled from the spec: the active `Joystick` object, i.e. the persisted
calibration store of section 6 (`getCalibration`, `setCalibration`,
`getFunctionAxis`, `setFunctionAxis`, `getTXMode`, `setTXMode`) together with
its deadband toggle and calibration-mode flag; the class is missing. -/
structure Joystick where
  calibration : Int → Calibration_t
  functionAxis : AxisFunction_t → Int
  txMode : Int
  deadband : Bool
  calibrationMode : Bool

/-- Modelled from the spec: the constants of `JoystickConfigController.h`
(missing), taken as configuration inputs. -/
structure Config where
  calCenterPoint : Int
  calValidMinValue : Int
  calValidMaxValue : Int
  calDefaultMinValue : Int
  calDefaultMaxValue : Int
  calRoughCenterDelta : Int
  calMoveDelta : Int
  calSettleDelta : Int
  stickDetectSettleMSecs : Int
  axisMinimum : Int
  axisNoAxis : Int
  deriving DecidableEq, Repr

/-- Modelled from the spec: the stick diagrams `stSticksCentered`, ... of the
header (missing); four display coordinates each, kept here by name only. -/
inductive stickPositions where
  | stSticksCentered
  | stLeftStickUp
  | stLeftStickDown
  | stLeftStickLeft
  | stLeftStickRight
  | stRightStickUp
  | stRightStickDown
  | stRightStickLeft
  | stRightStickRight
  deriving DecidableEq, Repr

/-- Per-axis calibration record `struct AxisInfo`. -/
structure AxisInfo where
  function : AxisFunction_t
  reversed : Bool
  axisMin : Int
  axisMax : Int
  axisTrim : Int
  deadband : Int
  deriving DecidableEq, Repr

/-- The sample handlers a step can name in its `rcInputFn` slot. -/
inductive inputFn where
  | inputCenterWaitBegin
  | inputStickDetect
  | inputStickMin
  | inputCenterWait
  deriving DecidableEq, Repr

/-- The button handlers a step can name in its `nextFn` or `skipFn` slot. -/
inductive buttonFn where
  | saveAllTrims
  | writeCalibration
  deriving DecidableEq, Repr

/-- One row of the table `rgStateMachine`; `none` is `nullptr`. -/
structure stateMachineEntry where
  function : AxisFunction_t
  instructions : String
  stickPositions : stickPositions
  rcInputFn : Option inputFn
  nextFn : Option buttonFn
  skipFn : Option buttonFn
  channelID : Int
  deriving DecidableEq, Repr

end JoystickConfigController

open JoystickConfigController in
/-- The member variables of the class `JoystickConfigController`. -/
structure JoystickConfigController where
  activeJoystick : Joystick
  currentStep : Int
  axisCount : Int
  rgAxisInfo : Int → AxisInfo
  axisValueSave : Int → Int
  axisRawValue : Int → Int
  rgFunctionAxisMapping : AxisFunction_t → Int
  stickDetectAxis : Int
  stickDetectInitialValue : Int
  stickDetectValue : Int
  stickDetectSettleStarted : Bool
  stickDetectSettleElapsed : Int
  transmitterMode : Int
  statusText : String
  currentStickPositions : stickPositions
  sticksCentered : stickPositions
  sticksThrottleUp : stickPositions
  sticksThrottleDown : stickPositions
  sticksYawLeft : stickPositions
  sticksYawRight : stickPositions
  sticksRollLeft : stickPositions
  sticksRollRight : stickPositions
  sticksPitchUp : stickPositions
  sticksPitchDown : stickPositions

namespace JoystickConfigController

open AxisFunction_t

/-! ## The translated member functions -/

/-- Source `_validAxis`: `axis >= 0 && axis < _axisCount`. -/
def validAxis (self : JoystickConfigController) (axis : Int) : Bool :=
  decide (0 ≤ axis) && decide (axis < self.axisCount)

/-- Source `_stickSettleComplete`: the settle detector.  Returns the result
together with the state it leaves. -/
def stickSettleComplete (cfg : Config) (now : Int) (self : JoystickConfigController)
    (axis value : Int) : Bool × JoystickConfigController :=
  if !self.validAxis axis then
    (false, self)
  else if |self.stickDetectValue - value| > cfg.calSettleDelta then
    -- Stick is moving too much to consider stopped
    (false, { self with stickDetectValue := value, stickDetectSettleStarted := false })
  else if self.stickDetectSettleStarted then
    -- We have already started waiting
    if now - self.stickDetectSettleElapsed > cfg.stickDetectSettleMSecs then
      (true, self)
    else
      (false, self)
  else
    -- Start waiting for the stick to stay settled
    (false, { self with stickDetectSettleStarted := true, stickDetectSettleElapsed := now })

/-- The loop `for (int i = 0; i < n; i++) body(i)` acting on a state. -/
def forLoop {σ : Type} (n : Int) (body : Int → σ → σ) (s : σ) : σ :=
  Nat.rec s (fun k acc => body (k : Int) acc) n.toNat

def msgBegin : String := "Allow all sticks to center as shown in diagram.\nClick Next to continue"
def msgThrottleUp : String := "Move the Throttle stick all the way up and hold it there..."
def msgThrottleDown : String := "Move the Throttle stick all the way down and hold it there..."
def msgYawLeft : String := "Move the Yaw stick all the way to the left and hold it there..."
def msgYawRight : String := "Move the Yaw stick all the way to the right and hold it there..."
def msgRollLeft : String := "Move the Roll stick all the way to the left and hold it there..."
def msgRollRight : String := "Move the Roll stick all the way to the right and hold it there..."
def msgPitchDown : String := "Move the Pitch stick all the way down and hold it there..."
def msgPitchUp : String := "Move the Pitch stick all the way up and hold it there..."
def msgPitchCenter : String := "Allow the Pitch stick to move back to center..."
def msgComplete : String := "All settings have been captured.\nClick Next to enable the joystick."

/-- The table `rgStateMachine` of `_getStateMachineEntry`.  In the source it is
a function-local static, so the stick diagrams it holds are those of the
layout in force at its first use; the embedding reads the layout of the
current state, which can differ in the displayed diagram only. -/
def rgStateMachine (self : JoystickConfigController) : List stateMachineEntry :=
  [ ⟨maxFunction, msgBegin, self.sticksCentered, some .inputCenterWaitBegin, some .saveAllTrims, none, 0⟩,
    ⟨throttleFunction, msgThrottleUp, self.sticksThrottleUp, some .inputStickDetect, none, none, 0⟩,
    ⟨throttleFunction, msgThrottleDown, self.sticksThrottleDown, some .inputStickMin, none, none, 0⟩,
    ⟨yawFunction, msgYawRight, self.sticksYawRight, some .inputStickDetect, none, none, 1⟩,
    ⟨yawFunction, msgYawLeft, self.sticksYawLeft, some .inputStickMin, none, none, 1⟩,
    ⟨rollFunction, msgRollRight, self.sticksRollRight, some .inputStickDetect, none, none, 2⟩,
    ⟨rollFunction, msgRollLeft, self.sticksRollLeft, some .inputStickMin, none, none, 2⟩,
    ⟨pitchFunction, msgPitchUp, self.sticksPitchUp, some .inputStickDetect, none, none, 3⟩,
    ⟨pitchFunction, msgPitchDown, self.sticksPitchDown, some .inputStickMin, none, none, 3⟩,
    ⟨pitchFunction, msgPitchCenter, self.sticksCentered, some .inputCenterWait, none, none, 3⟩,
    ⟨maxFunction, msgComplete, self.sticksCentered, none, some .writeCalibration, none, -1⟩ ]

/-- Source `_getStateMachineEntry`: the row of the table for `step`; `none`
when the bounds assertion `step >= 0 && step < size` fails. -/
def getStateMachineEntry (self : JoystickConfigController) (step : Int) :
    Option stateMachineEntry :=
  if 0 ≤ step ∧ step < (self.rgStateMachine.length : Int) then
    self.rgStateMachine[step.toNat]?
  else
    none

/-- Source `_calSaveCurrentValues`: snapshot the raw value of every axis. -/
def calSaveCurrentValues (self : JoystickConfigController) : JoystickConfigController :=
  forLoop self.axisCount
    (fun i st => { st with axisValueSave := Function.update st.axisValueSave i (st.axisRawValue i) })
    self

/-- Source `_setupCurrentState`: enter the step `_currentStep`. -/
def setupCurrentState (cfg : Config) (self : JoystickConfigController) :
    Option JoystickConfigController :=
  match self.getStateMachineEntry self.currentStep with
  | none => none
  | some state =>
    let s1 := { self with statusText := state.instructions,
                          stickDetectAxis := cfg.axisNoAxis,
                          stickDetectSettleStarted := false }
    let s2 := s1.calSaveCurrentValues
    some { s2 with currentStickPositions := state.stickPositions }

/-- Source `_advanceState`: `_currentStep++; _setupCurrentState();`. -/
def advanceState (cfg : Config) (self : JoystickConfigController) :
    Option JoystickConfigController :=
  setupCurrentState cfg { self with currentStep := self.currentStep + 1 }

/-- Source `_axisDeadbandChanged`: store `min(|value|, _calValidMaxValue)` as
the deadband of `axis`. -/
def axisDeadbandChanged (cfg : Config) (self : JoystickConfigController) (axis value : Int) :
    JoystickConfigController :=
  let value := if |value| < cfg.calValidMaxValue then |value| else cfg.calValidMaxValue
  { self with rgAxisInfo :=
      Function.update self.rgAxisInfo axis { self.rgAxisInfo axis with deadband := value } }

/-- The number of binary digits of `m`, counted with at most `fuel` halvings. -/
def bitLengthAux : Nat → Nat → Nat
  | 0, _ => 0
  | fuel + 1, m => if m = 0 then 0 else bitLengthAux fuel (m / 2) + 1

/-- The number of binary digits of `m` (0 for 0). -/
def bitLength (m : Nat) : Nat :=
  bitLengthAux m m

/-- The nearest natural number with at most 24 significant bits (ties to
even): rounding of a non-negative significand to IEEE binary32 precision. -/
def roundSignificand (m : Nat) : Nat :=
  let bits := bitLength m
  if bits ≤ 24 then m
  else
    let d := bits - 24
    let q := m / 2 ^ d
    let r := m % 2 ^ d
    let half := 2 ^ (d - 1)
    (if half < r ∨ (r = half ∧ q % 2 = 1) then q + 1 else q) * 2 ^ d

/-- The binary32 value of an `int` after conversion to `float` (an integer). -/
def intToFloat (i : Int) : Int :=
  if i < 0 then -(roundSignificand i.natAbs : Int) else (roundSignificand i.natAbs : Int)

/-- The binary32 product `abs(value) * 1.1f`, as a numerator over `2 ^ 23`
(`1.1f` is `9227469 / 2 ^ 23`), evaluated in single precision. -/
def absTimes1_1f (value : Int) : Nat :=
  roundSignificand (roundSignificand value.natAbs * 9227469)

/-- The values an `int` holds (32 bits, two's complement). -/
def fitsInt (x : Int) : Prop :=
  -2 ^ 31 ≤ x ∧ x < 2 ^ 31

instance (x : Int) : Decidable (fitsInt x) :=
  inferInstanceAs (Decidable (-2 ^ 31 ≤ x ∧ x < 2 ^ 31))

/-- The samples on which `abs(value)` and `static_cast<int>(abs(value) * 1.1f)`
are defined: `value` is an `int` other than the least one, and the product
truncated to an integer is below `2 ^ 31`. -/
def sampleConverts (value : Int) : Prop :=
  -2 ^ 31 < value ∧ value < 2 ^ 31 ∧ absTimes1_1f value / 2 ^ 23 < 2 ^ 31

instance (value : Int) : Decidable (sampleConverts value) :=
  inferInstanceAs
    (Decidable (-2 ^ 31 < value ∧ value < 2 ^ 31 ∧ absTimes1_1f value / 2 ^ 23 < 2 ^ 31))

/-- Source `_inputCenterWaitBegin`: deadband sensing while waiting for the
sticks to centre.  The comparison `abs(value) * 1.1f > deadband` is a
comparison of binary32 values and the new deadband is the product truncated
to `int`.  The magnitude and the truncated product are computed on unbounded
integers; they are those of the source for the samples of `sampleConverts`,
outside of which `abs` or the conversion to `int` overflows in the source. -/
def inputCenterWaitBegin (cfg : Config) (self : JoystickConfigController)
    (_function : AxisFunction_t) (axis value : Int) : JoystickConfigController :=
  if (absTimes1_1f value : Int) > intToFloat (self.rgAxisInfo axis).deadband * 2 ^ 23
      ∧ self.activeJoystick.deadband = true then
    axisDeadbandChanged cfg self axis ((absTimes1_1f value / 2 ^ 23 : Nat) : Int)
  else
    self

/-- Source `_inputStickDetect`: the axis classifier of a detect-axis step. -/
def inputStickDetect (cfg : Config) (now : Int) (self : JoystickConfigController)
    (function : AxisFunction_t) (axis value : Int) : Option JoystickConfigController :=
  if !self.validAxis axis then
    some self
  -- If this axis is already used in a mapping we can't use it again
  else if (self.rgAxisInfo axis).function ≠ maxFunction then
    some self
  else if self.stickDetectAxis = cfg.axisNoAxis then
    -- We have not detected enough movement on a axis yet
    if |self.axisValueSave axis - value| > cfg.calMoveDelta then
      some { self with stickDetectAxis := axis,
                       stickDetectInitialValue := value,
                       stickDetectValue := value }
    else
      some self
  else if axis = self.stickDetectAxis then
    match stickSettleComplete cfg now self axis value with
    | (true, s1) =>
      -- Map the axis to the function
      let s2 := { s1 with rgFunctionAxisMapping :=
                    Function.update s1.rgFunctionAxisMapping function axis }
      let s3 := { s2 with rgAxisInfo :=
                    Function.update s2.rgAxisInfo axis { s2.rgAxisInfo axis with function := function } }
      -- If it is below the initial set point the axis is reversed
      let reversed := decide (value < s3.axisValueSave axis)
      let s4 := { s3 with rgAxisInfo :=
                    Function.update s3.rgAxisInfo axis { s3.rgAxisInfo axis with reversed := reversed } }
      let s5 :=
        if reversed then
          { s4 with rgAxisInfo :=
              Function.update s4.rgAxisInfo axis { s4.rgAxisInfo axis with axisMin := value } }
        else
          { s4 with rgAxisInfo :=
              Function.update s4.rgAxisInfo axis { s4.rgAxisInfo axis with axisMax := value } }
      advanceState cfg s5
    | (false, s1) => some s1
  else
    some self

/-- Source `_inputStickMin`: wait for the mapped axis to settle at its other
extreme. -/
def inputStickMin (cfg : Config) (now : Int) (self : JoystickConfigController)
    (function : AxisFunction_t) (axis value : Int) : Option JoystickConfigController :=
  if !self.validAxis axis then
    some self
  -- We only care about the axis mapped to the function we are working on
  else if self.rgFunctionAxisMapping function ≠ axis then
    some self
  else if self.stickDetectAxis = cfg.axisNoAxis then
    -- Setup up to detect stick being pegged to extreme position
    if (self.rgAxisInfo axis).reversed then
      if value > cfg.calCenterPoint + cfg.calMoveDelta then
        some { self with stickDetectAxis := axis,
                         stickDetectInitialValue := value,
                         stickDetectValue := value }
      else
        some self
    else
      if value < cfg.calCenterPoint - cfg.calMoveDelta then
        some { self with stickDetectAxis := axis,
                         stickDetectInitialValue := value,
                         stickDetectValue := value }
      else
        some self
  else
    -- We are waiting for the selected axis to settle out
    match stickSettleComplete cfg now self axis value with
    | (true, s1) =>
      let s2 :=
        if (s1.rgAxisInfo axis).reversed then
          { s1 with rgAxisInfo :=
              Function.update s1.rgAxisInfo axis { s1.rgAxisInfo axis with axisMax := value } }
        else
          { s1 with rgAxisInfo :=
              Function.update s1.rgAxisInfo axis { s1.rgAxisInfo axis with axisMin := value } }
      advanceState cfg s2
    | (false, s1) => some s1

/-- Source `_inputCenterWait`: wait for the mapped axis to come back to the
centre and settle there. -/
def inputCenterWait (cfg : Config) (now : Int) (self : JoystickConfigController)
    (function : AxisFunction_t) (axis value : Int) : Option JoystickConfigController :=
  if !self.validAxis axis then
    some self
  else if self.rgFunctionAxisMapping function ≠ axis then
    some self
  else if self.stickDetectAxis = cfg.axisNoAxis then
    -- Sticks have not yet moved close enough to center
    let roughCenter :=
      if self.activeJoystick.deadband then max (self.rgAxisInfo axis).deadband cfg.calRoughCenterDelta
      else cfg.calRoughCenterDelta
    if |cfg.calCenterPoint - value| < roughCenter then
      some { self with stickDetectAxis := axis,
                       stickDetectInitialValue := value,
                       stickDetectValue := value }
    else
      some self
  else
    match stickSettleComplete cfg now self axis value with
    | (true, s1) => advanceState cfg s1
    | (false, s1) => some s1

/-- Source `_axisValueChanged`: the entry point for one raw sample. -/
def axisValueChanged (cfg : Config) (now : Int) (self : JoystickConfigController)
    (axis value : Int) : Option JoystickConfigController :=
  if self.validAxis axis then
    -- We always update raw values
    let s1 := { self with axisRawValue := Function.update self.axisRawValue axis value }
    -- Track the axis count by keeping track of how many axes we see
    let s2 :=
      if s1.currentStep = -1 ∧ axis + 1 > s1.axisCount then { s1 with axisCount := axis + 1 }
      else s1
    if s2.currentStep ≠ -1 then
      match s2.getStateMachineEntry s2.currentStep with
      | none => none
      | some state =>
        match state.rcInputFn with
        | none => some s2
        | some .inputCenterWaitBegin => some (inputCenterWaitBegin cfg s2 state.function axis value)
        | some .inputStickDetect => inputStickDetect cfg now s2 state.function axis value
        | some .inputStickMin => inputStickMin cfg now s2 state.function axis value
        | some .inputCenterWait => inputCenterWait cfg now s2 state.function axis value
    else
      some s2
  else
    some self

/-- The body of the loop of `_validateCalibration` for one channel, acting
on `info = &_rgAxisInfo[chan]`.  The midpoint `axisMin + (axisMax - axisMin) / 2`
is computed on unbounded integers; it is that of the source when the extremes
and their difference are values of `int` (`fitsInt`), outside of which the
subtraction overflows in the source. -/
def validateAxis (cfg : Config) (info : AxisInfo) : AxisInfo :=
  -- Validate Min/Max values.  Set to defaults if needed.
  let info :=
    if info.axisMin < cfg.calValidMinValue ∨ info.axisMax > cfg.calValidMaxValue then
      let info := { info with axisMin := cfg.calDefaultMinValue }
      let info := { info with axisMax := cfg.calDefaultMaxValue }
      { info with axisTrim := info.axisMin + Int.tdiv (info.axisMax - info.axisMin) 2 }
    else
      info
  match info.function with
  | throttleFunction | yawFunction | rollFunction | pitchFunction
  | gimbalPitchFunction | gimbalYawFunction =>
    -- Make sure trim is within min/max
    if info.axisTrim < info.axisMin then
      { info with axisTrim := info.axisMin }
    else if info.axisTrim > info.axisMax then
      { info with axisTrim := info.axisMax }
    else
      info
  | _ =>
    -- Non-attitude control axis have calculated trim
    { info with axisTrim := info.axisMin + Int.tdiv (info.axisMax - info.axisMin) 2 }

/-- Source `_validateCalibration`: validate every channel in turn. -/
def validateCalibration (cfg : Config) (self : JoystickConfigController) :
    JoystickConfigController :=
  forLoop self.axisCount
    (fun chan st =>
      { st with rgAxisInfo := Function.update st.rgAxisInfo chan (validateAxis cfg (st.rgAxisInfo chan)) })
    self

/-! ## The persisted store and the member functions that use it -/

/-- The logical functions in the order of the enumeration: the range of a
loop `for (function = 0; function < Joystick::maxFunction; function++)`. -/
def allFunctions : List AxisFunction_t :=
  [rollFunction, pitchFunction, yawFunction, throttleFunction,
   gimbalPitchFunction, gimbalYawFunction]

/-- The loop `for (f = 0; f < Joystick::maxFunction; f++) body(f)` acting on a
state. -/
def forFunctions {σ : Type} (body : AxisFunction_t → σ → σ) (s : σ) : σ :=
  allFunctions.foldl (fun st f => body f st) s

/-- Modelled from the spec: `Joystick::getCalibration`, the `get(axis)` of the
persisted calibration store; the class `Joystick` is missing. -/
def Joystick.getCalibration (j : Joystick) (axis : Int) : Calibration_t :=
  j.calibration axis

/-- Modelled from the spec: `Joystick::setCalibration`, the `set(axis, record)`
of the persisted calibration store; a later `get` returns what was set. -/
def Joystick.setCalibration (j : Joystick) (axis : Int) (c : Calibration_t) : Joystick :=
  { j with calibration := Function.update j.calibration axis c }

/-- Modelled from the spec: `Joystick::getFunctionAxis`, the assigned axis of a
function or "unassigned". -/
def Joystick.getFunctionAxis (j : Joystick) (f : AxisFunction_t) : Int :=
  j.functionAxis f

/-- Modelled from the spec: `Joystick::setFunctionAxis`; a later
`getFunctionAxis` returns what was set. -/
def Joystick.setFunctionAxis (j : Joystick) (f : AxisFunction_t) (axis : Int) : Joystick :=
  { j with functionAxis := Function.update j.functionAxis f axis }

/-- Modelled from the spec: `Joystick::getTXMode`, the persisted transmitter
mode. -/
def Joystick.getTXMode (j : Joystick) : Int :=
  j.txMode

/-- Modelled from the spec: `Joystick::setTXMode`; a later `getTXMode` returns
what was set. -/
def Joystick.setTXMode (j : Joystick) (mode : Int) : Joystick :=
  { j with txMode := mode }

/-- Modelled from the spec: `Joystick::setCalibrationMode`; it switches the
polling mode of the device and leaves the persisted store alone. -/
def Joystick.setCalibrationMode (j : Joystick) (calibrating : Bool) : Joystick :=
  { j with calibrationMode := calibrating }

/-- Modelled from the spec: `Joystick::setDeadband`, the deadband-sensing
toggle read back by `Joystick::deadband`. -/
def Joystick.setDeadband (j : Joystick) (deadband : Bool) : Joystick :=
  { j with deadband := deadband }

/-- Source `nextEnabled`: the current step has a `nextFn`. -/
def nextEnabled (self : JoystickConfigController) : Option Bool :=
  if self.currentStep ≥ 0 then
    match self.getStateMachineEntry self.currentStep with
    | none => none
    | some state => some state.nextFn.isSome
  else
    some false

/-- Source `skipEnabled`: the current step has a `skipFn`. -/
def skipEnabled (self : JoystickConfigController) : Option Bool :=
  if self.currentStep ≥ 0 then
    match self.getStateMachineEntry self.currentStep with
    | none => none
    | some state => some state.skipFn.isSome
  else
    some false

/-- Source `_saveAllTrims`: the `nextFn` of step 0.  Every axis takes its raw
value as trim, then the state machine advances. -/
def saveAllTrims (cfg : Config) (self : JoystickConfigController) :
    Option JoystickConfigController :=
  let s1 := forLoop self.axisCount
    (fun i st =>
      let info := { st.rgAxisInfo i with axisTrim := st.axisRawValue i }
      { st with rgAxisInfo := Function.update st.rgAxisInfo i info })
    self
  advanceState cfg s1

/-- Source `_resetInternalCalibrationValues`: every axis unassigned, not
reversed, without deadband, with min, max and trim at the centre point; every
function unmapped. -/
def resetInternalCalibrationValues (cfg : Config) (self : JoystickConfigController) :
    JoystickConfigController :=
  let s1 := forLoop self.axisCount
    (fun i st =>
      let info : AxisInfo :=
        { function := maxFunction
          reversed := false
          axisMin := cfg.calCenterPoint
          axisMax := cfg.calCenterPoint
          axisTrim := cfg.calCenterPoint
          deadband := 0 }
      { st with rgAxisInfo := Function.update st.rgAxisInfo i info })
    self
  -- Initialize attitude function mapping to function axis not set
  forFunctions
    (fun f st =>
      { st with rgFunctionAxisMapping := Function.update st.rgFunctionAxisMapping f cfg.axisNoAxis })
    s1

/-- The body of the last loop of `_setInternalCalibrationValuesFromSettings`
for one function: when the store assigns the function to an axis of the
device, map the function to it and give the axis the function. -/
def loadFunctionAxis (joystick : Joystick) (function : AxisFunction_t)
    (st : JoystickConfigController) : JoystickConfigController :=
  let paramAxis := joystick.getFunctionAxis function
  if 0 ≤ paramAxis ∧ paramAxis < st.axisCount then
    let mapping := Function.update st.rgFunctionAxisMapping function paramAxis
    let info := { st.rgAxisInfo paramAxis with function := function }
    { st with rgFunctionAxisMapping := mapping
              rgAxisInfo := Function.update st.rgAxisInfo paramAxis info }
  else
    st

/-- Source `_setInternalCalibrationValuesFromSettings`: reload the AxisInfo
table, the function mapping and the transmitter mode from the store. -/
def setInternalCalibrationValuesFromSettings (cfg : Config) (self : JoystickConfigController) :
    JoystickConfigController :=
  let joystick := self.activeJoystick
  -- Initialize all function mappings to not set
  let s1 := forLoop self.axisCount
    (fun i st =>
      let info := { st.rgAxisInfo i with function := maxFunction }
      { st with rgAxisInfo := Function.update st.rgAxisInfo i info })
    self
  let s2 := forFunctions
    (fun f st =>
      { st with rgFunctionAxisMapping := Function.update st.rgFunctionAxisMapping f cfg.axisNoAxis })
    s1
  let s3 := forLoop s2.axisCount
    (fun axis st =>
      let calibration := joystick.getCalibration axis
      let info :=
        { st.rgAxisInfo axis with
          axisTrim := calibration.center
          axisMin := calibration.min
          axisMax := calibration.max
          reversed := calibration.reversed
          deadband := calibration.deadband }
      { st with rgAxisInfo := Function.update st.rgAxisInfo axis info })
    s2
  let s4 := forFunctions (loadFunctionAxis joystick) s3
  { s4 with transmitterMode := joystick.getTXMode }

/-- Source `_stopCalibration`: back to idle, with the in-memory values reloaded
from the store. -/
def stopCalibration (cfg : Config) (self : JoystickConfigController) :
    JoystickConfigController :=
  let s1 := { self with currentStep := -1 }
  let s2 := { s1 with activeJoystick := s1.activeJoystick.setCalibrationMode false }
  let s3 := setInternalCalibrationValuesFromSettings cfg s2
  let s4 := { s3 with statusText := "" }
  { s4 with currentStickPositions := s4.sticksCentered }

/-- Source `_startCalibration`: reset the in-memory values and enter step 0. -/
def startCalibration (cfg : Config) (self : JoystickConfigController) :
    Option JoystickConfigController :=
  let s1 := { self with activeJoystick := self.activeJoystick.setCalibrationMode true }
  let s2 := resetInternalCalibrationValues cfg s1
  setupCurrentState cfg { s2 with currentStep := 0 }

/-- Source `_writeCalibration`: the `nextFn` of the last step.  Validate, write
every axis and every function assignment to the store, stop, and reload from
the store.  The notification of the vehicle at the end leaves the controller
alone and is left out. -/
def writeCalibration (cfg : Config) (self : JoystickConfigController) :
    JoystickConfigController :=
  let s1 := validateCalibration cfg self
  let s2 := forLoop s1.axisCount
    (fun axis st =>
      let info := st.rgAxisInfo axis
      let calibration : Calibration_t :=
        { center := info.axisTrim
          min := info.axisMin
          max := info.axisMax
          reversed := info.reversed
          deadband := info.deadband }
      { st with activeJoystick := st.activeJoystick.setCalibration axis calibration })
    s1
  -- Write function mapping parameters
  let s3 := forFunctions
    (fun function st =>
      { st with activeJoystick :=
          st.activeJoystick.setFunctionAxis function (st.rgFunctionAxisMapping function) })
    s2
  let s4 := stopCalibration cfg s3
  setInternalCalibrationValuesFromSettings cfg s4

/-- Source `nextButtonClicked`: start the calibration when idle (given enough
axes), otherwise run the `nextFn` of the current step; `none` when the step
has no `nextFn` (the assertion `Q_ASSERT(state->nextFn)`). -/
def nextButtonClicked (cfg : Config) (self : JoystickConfigController) :
    Option JoystickConfigController :=
  if self.currentStep = -1 then
    -- Need to have enough channels
    if self.axisCount < cfg.axisMinimum then
      some self
    else
      startCalibration cfg self
  else
    match self.getStateMachineEntry self.currentStep with
    | none => none
    | some state =>
      match state.nextFn with
      | none => none
      | some .saveAllTrims => saveAllTrims cfg self
      | some .writeCalibration => some (writeCalibration cfg self)

/-- Source `cancelButtonClicked`. -/
def cancelButtonClicked (cfg : Config) (self : JoystickConfigController) :
    JoystickConfigController :=
  stopCalibration cfg self

/-- Source `setDeadbandValue`: set the deadband of an axis in memory and in the
store. -/
def setDeadbandValue (cfg : Config) (self : JoystickConfigController) (axis value : Int) :
    JoystickConfigController :=
  let s1 := axisDeadbandChanged cfg self axis value
  let joystick := s1.activeJoystick
  let calibration := joystick.getCalibration axis
  let calibration := { calibration with deadband := value }
  { s1 with activeJoystick := joystick.setCalibration axis calibration }

/-- Source `_setStickPositions`: the stick diagrams of the four transmitter
modes; `none` for the `Q_ASSERT(false)` of any other mode. -/
def setStickPositions (self : JoystickConfigController) : Option JoystickConfigController :=
  let s := { self with sticksCentered := .stSticksCentered }
  if s.transmitterMode = 1 then
    some { s with sticksThrottleUp := .stRightStickUp
                  sticksThrottleDown := .stRightStickDown
                  sticksYawLeft := .stLeftStickLeft
                  sticksYawRight := .stLeftStickRight
                  sticksRollLeft := .stRightStickLeft
                  sticksRollRight := .stRightStickRight
                  sticksPitchUp := .stLeftStickUp
                  sticksPitchDown := .stLeftStickDown }
  else if s.transmitterMode = 2 then
    some { s with sticksThrottleUp := .stLeftStickUp
                  sticksThrottleDown := .stLeftStickDown
                  sticksYawLeft := .stLeftStickLeft
                  sticksYawRight := .stLeftStickRight
                  sticksRollLeft := .stRightStickLeft
                  sticksRollRight := .stRightStickRight
                  sticksPitchUp := .stRightStickUp
                  sticksPitchDown := .stRightStickDown }
  else if s.transmitterMode = 3 then
    some { s with sticksThrottleUp := .stRightStickUp
                  sticksThrottleDown := .stRightStickDown
                  sticksYawLeft := .stRightStickLeft
                  sticksYawRight := .stRightStickRight
                  sticksRollLeft := .stLeftStickLeft
                  sticksRollRight := .stLeftStickRight
                  sticksPitchUp := .stLeftStickUp
                  sticksPitchDown := .stLeftStickDown }
  else if s.transmitterMode = 4 then
    some { s with sticksThrottleUp := .stLeftStickUp
                  sticksThrottleDown := .stLeftStickDown
                  sticksYawLeft := .stRightStickLeft
                  sticksYawRight := .stRightStickRight
                  sticksRollLeft := .stLeftStickLeft
                  sticksRollRight := .stLeftStickRight
                  sticksPitchUp := .stRightStickUp
                  sticksPitchDown := .stRightStickDown }
  else
    none

/-- Source `setTransmitterMode`: mode selection, disabled during calibration. -/
def setTransmitterMode (cfg : Config) (self : JoystickConfigController) (mode : Int) :
    Option JoystickConfigController :=
  if mode > 0 ∧ mode ≤ 4 ∧ self.currentStep = -1 then
    match setStickPositions { self with transmitterMode := mode } with
    | none => none
    | some s1 =>
      let s2 := { s1 with activeJoystick := s1.activeJoystick.setTXMode mode }
      some (setInternalCalibrationValuesFromSettings cfg s2)
  else
    some self

/-- Source `rollAxisReversed`. -/
def rollAxisReversed (cfg : Config) (self : JoystickConfigController) : Bool :=
  if self.rgFunctionAxisMapping rollFunction ≠ cfg.axisNoAxis then
    (self.rgAxisInfo (self.rgFunctionAxisMapping rollFunction)).reversed
  else
    false

/-- Source `pitchAxisReversed`. -/
def pitchAxisReversed (cfg : Config) (self : JoystickConfigController) : Bool :=
  if self.rgFunctionAxisMapping pitchFunction ≠ cfg.axisNoAxis then
    (self.rgAxisInfo (self.rgFunctionAxisMapping pitchFunction)).reversed
  else
    false

/-- Source `yawAxisReversed`. -/
def yawAxisReversed (cfg : Config) (self : JoystickConfigController) : Bool :=
  if self.rgFunctionAxisMapping yawFunction ≠ cfg.axisNoAxis then
    (self.rgAxisInfo (self.rgFunctionAxisMapping yawFunction)).reversed
  else
    false

/-- Source `throttleAxisReversed`. -/
def throttleAxisReversed (cfg : Config) (self : JoystickConfigController) : Bool :=
  if self.rgFunctionAxisMapping throttleFunction ≠ cfg.axisNoAxis then
    (self.rgAxisInfo (self.rgFunctionAxisMapping throttleFunction)).reversed
  else
    false

/-! ## Concrete data used to exercise the definitions -/

/-- A configuration with the customary constants: raw values in
`-32768 .. 32767` around the centre `0`. -/
def sampleConfig : Config where
  calCenterPoint := 0
  calValidMinValue := -32768
  calValidMaxValue := 32767
  calDefaultMinValue := -32768
  calDefaultMaxValue := 32767
  calRoughCenterDelta := 700
  calMoveDelta := 16384
  calSettleDelta := 600
  stickDetectSettleMSecs := 500
  axisMinimum := 4
  axisNoAxis := -1

/-- A controller with `axisCount` axes, every axis unassigned with
min, max and trim at `0`, idle, nothing locked. -/
def sampleController (axisCount : Int) : JoystickConfigController where
  activeJoystick :=
    { calibration := fun _ => ⟨0, 0, 0, false, 0⟩
      functionAxis := fun _ => -1
      txMode := 2
      deadband := false
      calibrationMode := false }
  currentStep := -1
  axisCount := axisCount
  rgAxisInfo := fun _ => ⟨maxFunction, false, 0, 0, 0, 0⟩
  axisValueSave := fun _ => 0
  axisRawValue := fun _ => 0
  rgFunctionAxisMapping := fun _ => -1
  stickDetectAxis := -1
  stickDetectInitialValue := 0
  stickDetectValue := 0
  stickDetectSettleStarted := false
  stickDetectSettleElapsed := 0
  transmitterMode := 2
  statusText := ""
  currentStickPositions := .stSticksCentered
  sticksCentered := .stSticksCentered
  sticksThrottleUp := .stLeftStickUp
  sticksThrottleDown := .stLeftStickDown
  sticksYawLeft := .stLeftStickLeft
  sticksYawRight := .stLeftStickRight
  sticksRollLeft := .stRightStickLeft
  sticksRollRight := .stRightStickRight
  sticksPitchUp := .stRightStickUp
  sticksPitchDown := .stRightStickDown

/-- A controller in step 1 (throttle up, a detect-axis step): axis 2 is
locked, its baseline is 1024, the detector holds the reference 1800 and its
dwell timer was started at clock reading 0. -/
def detectController : JoystickConfigController :=
  { sampleController 4 with
    currentStep := 1
    stickDetectAxis := 2
    stickDetectInitialValue := 1800
    stickDetectValue := 1800
    stickDetectSettleStarted := true
    stickDetectSettleElapsed := 0
    axisValueSave := fun _ => 1024
    axisRawValue := fun _ => 1024 }

/-- The table row of step 1 for the layout of `sampleController`. -/
def detectEntry : stateMachineEntry :=
  ⟨throttleFunction, msgThrottleUp, .stLeftStickUp, some .inputStickDetect, none, none, 0⟩

/-- A controller in step 2 (throttle down, a min-detect step): throttle is
mapped to axis 2, not reversed, with maximum 1810; axis 2 is locked, the
detector holds the reference -32000 and its dwell timer was started at 0. -/
def minController : JoystickConfigController :=
  { sampleController 4 with
    currentStep := 2
    rgAxisInfo := fun i => if i = 2 then ⟨throttleFunction, false, 0, 1810, 0, 0⟩
                           else ⟨maxFunction, false, 0, 0, 0, 0⟩
    rgFunctionAxisMapping := fun f => if f = throttleFunction then 2 else -1
    stickDetectAxis := 2
    stickDetectInitialValue := -20000
    stickDetectValue := -32000
    stickDetectSettleStarted := true
    stickDetectSettleElapsed := 0 }

/-- The table row of step 2 for the layout of `sampleController`. -/
def minEntry : stateMachineEntry :=
  ⟨throttleFunction, msgThrottleDown, .stLeftStickDown, some .inputStickMin, none, none, 0⟩

/-- A controller at the last step whose four axes all fulfil
`axisMin <= axisTrim <= axisMax`: throttle on axis 0, yaw (reversed) on axis 1,
axes 2 and 3 unassigned. -/
def commitController : JoystickConfigController :=
  { sampleController 4 with
    currentStep := 10
    rgAxisInfo := fun i =>
      if i = 0 then ⟨throttleFunction, false, -32000, 32000, -31000, 0⟩
      else if i = 1 then ⟨yawFunction, true, -30000, 30000, 12, 0⟩
      else if i = 3 then ⟨maxFunction, false, -100, 300, 7, 10⟩
      else ⟨maxFunction, false, 0, 0, 0, 0⟩
    rgFunctionAxisMapping := fun f =>
      if f = throttleFunction then 0 else if f = yawFunction then 1 else -1 }

/-- A controller at the last step whose throttle axis 0 holds the inverted
range `axisMin = 100`, `axisMax = 50` (both inside the envelope of
`sampleConfig`), and whose unassigned axis 1 holds the same range. -/
def invertedController : JoystickConfigController :=
  { sampleController 4 with
    currentStep := 10
    rgAxisInfo := fun i =>
      if i = 0 then ⟨throttleFunction, false, 100, 50, 0, 0⟩
      else if i = 1 then ⟨maxFunction, false, 100, 50, 0, 0⟩
      else ⟨maxFunction, false, 0, 0, 0, 0⟩
    rgFunctionAxisMapping := fun f => if f = throttleFunction then 0 else -1 }

/-- A controller at the last step whose throttle axis 0 holds `axisMin = -40000`,
below the valid minimum of `sampleConfig`, and the trim 5. -/
def outsideController : JoystickConfigController :=
  { sampleController 4 with
    currentStep := 10
    rgAxisInfo := fun i =>
      if i = 0 then ⟨throttleFunction, false, -40000, 50, 5, 0⟩
      else ⟨maxFunction, false, 0, 0, 0, 0⟩
    rgFunctionAxisMapping := fun f => if f = throttleFunction then 0 else -1 }

/-- A controller in step 0 (centering) with the raw values 5, -3, 7 and 0 last
observed on its four axes; the trims still hold the centre point 0. -/
def centerController : JoystickConfigController :=
  { sampleController 4 with
    currentStep := 0
    axisRawValue := fun i => if i = 0 then 5 else if i = 1 then -3 else if i = 2 then 7 else 0
    axisValueSave := fun i => if i = 0 then 5 else if i = 1 then -3 else if i = 2 then 7 else 0 }

/-! ## Sample sequences fed to the settle detector -/

/-- Feed the samples `(now, value)` of one axis to the settle detector in
order; the results of the calls and the final state. -/
def settleRun (cfg : Config) (axis : Int) :
    JoystickConfigController → List (Int × Int) → List Bool × JoystickConfigController
  | self, [] => ([], self)
  | self, (now, value) :: rest =>
    let r := stickSettleComplete cfg now self axis value
    let rr := settleRun cfg axis r.2 rest
    (r.1 :: rr.1, rr.2)

/-- Every sample of the sequence differs from the reference value the
detector holds when the sample arrives by more than the settle delta. -/
def stillMoving (cfg : Config) (axis : Int) :
    JoystickConfigController → List (Int × Int) → Prop
  | _, [] => True
  | self, (now, value) :: rest =>
    |self.stickDetectValue - value| > cfg.calSettleDelta ∧
      stillMoving cfg axis (stickSettleComplete cfg now self axis value).2 rest

/-- Feed the samples `(now, function, axis, value)` to `_inputStickDetect` in
order. -/
def detectRun (cfg : Config) :
    JoystickConfigController → List (Int × AxisFunction_t × Int × Int) →
      Option JoystickConfigController
  | self, [] => some self
  | self, (now, function, axis, value) :: rest =>
    match inputStickDetect cfg now self function axis value with
    | none => none
    | some s => detectRun cfg s rest

/-! ## What a reload from the store yields -/

/-- The function a reload gives axis `a`: the last function, in the order of
the enumeration, that the store assigns to `a`; `maxFunction` when there is
none. -/
def loadedFunction (j : Joystick) (a : Int) : AxisFunction_t :=
  allFunctions.foldl (fun acc f => if j.getFunctionAxis f = a then f else acc) maxFunction

/-- The AxisInfo table a reload yields: for an axis below the axis count the
calibration record of the store (`center` as trim) with `loadedFunction`; the
entries beyond the axis count are not touched. -/
def loadedAxisInfo (self : JoystickConfigController) (a : Int) : AxisInfo :=
  if 0 ≤ a ∧ a < self.axisCount then
    { function := loadedFunction self.activeJoystick a
      reversed := (self.activeJoystick.getCalibration a).reversed
      axisMin := (self.activeJoystick.getCalibration a).min
      axisMax := (self.activeJoystick.getCalibration a).max
      axisTrim := (self.activeJoystick.getCalibration a).center
      deadband := (self.activeJoystick.getCalibration a).deadband }
  else
    self.rgAxisInfo a

/-- The function-to-axis mapping a reload yields: the stored axis of a
function when it is an axis of the device, "unassigned" otherwise. -/
def loadedMapping (cfg : Config) (self : JoystickConfigController) (f : AxisFunction_t) : Int :=
  if f = maxFunction then self.rgFunctionAxisMapping f
  else if 0 ≤ self.activeJoystick.getFunctionAxis f
      ∧ self.activeJoystick.getFunctionAxis f < self.axisCount then
    self.activeJoystick.getFunctionAxis f
  else cfg.axisNoAxis

/-! ## Calibration sessions -/

/-- One event of a calibration session: a raw sample `(axis, value)` arriving
at clock reading `now`, or a click on Next. -/
inductive Action where
  | sample (now axis value : Int)
  | next
  deriving DecidableEq, Repr

/-- The Next click would commit: the `nextFn` of the current step is
`_writeCalibration`. -/
def atCommit (self : JoystickConfigController) : Bool :=
  match self.getStateMachineEntry self.currentStep with
  | some state => state.nextFn == some buttonFn.writeCalibration
  | none => false

/-- Process one event of a session before the commit: a sample goes through
`_axisValueChanged`, a Next click through `nextButtonClicked`; the committing
click is not part of such a session. -/
def calibrationAct (cfg : Config) (self : JoystickConfigController) :
    Action → Option JoystickConfigController
  | .sample now axis value => axisValueChanged cfg now self axis value
  | .next => if self.atCommit then none else nextButtonClicked cfg self

/-- Process the events of a session in order. -/
def calibrationActs (cfg : Config) :
    JoystickConfigController → List Action → Option JoystickConfigController
  | self, [] => some self
  | self, a :: rest =>
    match calibrationAct cfg self a with
    | none => none
    | some s => calibrationActs cfg s rest

/-- A session: start the calibration in `self`, then process the events.  The
states it returns are the states reachable from a start of calibration through
samples and Next clicks, up to but excluding the commit. -/
def calibrationRun (cfg : Config) (self : JoystickConfigController) (actions : List Action) :
    Option JoystickConfigController :=
  match startCalibration cfg self with
  | none => none
  | some s => calibrationActs cfg s actions

/-- The step in which a function is detected and mapped; 10 for the functions
that no step detects. -/
def detectStep : AxisFunction_t → Int
  | throttleFunction => 1
  | yawFunction => 3
  | rollFunction => 5
  | pitchFunction => 7
  | _ => 10

/-- The AxisInfo table and the mapping agree during a session: the step is
in the table, an axis of the device has a function exactly when the mapping of
the function points back at it, and a mapped function points at an axis of
the device and was mapped in an earlier step. -/
structure Consistent (cfg : Config) (s : JoystickConfigController) : Prop where
  stepLo : 0 ≤ s.currentStep
  stepHi : s.currentStep ≤ 10
  inverse : ∀ (a : Int) (f : AxisFunction_t), 0 ≤ a → a < s.axisCount → f ≠ maxFunction →
    ((s.rgAxisInfo a).function = f ↔ s.rgFunctionAxisMapping f = a)
  mapped : ∀ f : AxisFunction_t, f ≠ maxFunction →
    s.rgFunctionAxisMapping f ≠ cfg.axisNoAxis →
    (0 ≤ s.rgFunctionAxisMapping f ∧ s.rgFunctionAxisMapping f < s.axisCount) ∧
      detectStep f < s.currentStep

/-- Two states with the same axis count, the same mapping and the same
function on every axis. -/
def SameCore (s s' : JoystickConfigController) : Prop :=
  s'.axisCount = s.axisCount ∧
  s'.rgFunctionAxisMapping = s.rgFunctionAxisMapping ∧
  ∀ a : Int, (s'.rgAxisInfo a).function = (s.rgAxisInfo a).function

/-- The calibration record written for an axis at the commit:
`center = axisTrim`, `min`, `max`, `reversed`, `deadband`. -/
def calibrationOf (info : AxisInfo) : Calibration_t :=
  { center := info.axisTrim
    min := info.axisMin
    max := info.axisMax
    reversed := info.reversed
    deadband := info.deadband }

/-- The store after the commit of the state `self`: for every axis below the
axis count the record of the validated entry, for every function its mapped
axis; the device is no longer in calibration mode. -/
def committedStore (cfg : Config) (self : JoystickConfigController) : Joystick :=
  { self.activeJoystick with
    calibration := fun a =>
      if 0 ≤ a ∧ a < self.axisCount then calibrationOf (validateAxis cfg (self.rgAxisInfo a))
      else self.activeJoystick.calibration a
    functionAxis := fun f =>
      if f = maxFunction then self.activeJoystick.functionAxis f
      else self.rgFunctionAxisMapping f
    calibrationMode := false }

/-- A session that maps throttle to axis 2: the trims are taken with Next,
then axis 2 moves up and settles at 32100. -/
def throttleSession : List Action :=
  [ .sample 0 0 5, .next,
    .sample 10 2 20000, .sample 20 2 32000, .sample 30 2 32100, .sample 600 2 32100 ]

/-- A complete session on four axes: the trims are taken with Next, then
throttle is found on axis 2, yaw on axis 3, roll on axis 0 and pitch on axis 1,
each stick being held at 32000 and then at -32000 for longer than the dwell
duration, and the pitch stick is let back to the centre. -/
def fullSession : List Action :=
  [ .next,
    .sample 10 2 32000, .sample 20 2 32000, .sample 600 2 32000,
    .sample 700 2 (-32000), .sample 710 2 (-32000), .sample 1300 2 (-32000),
    .sample 1400 3 32000, .sample 1410 3 32000, .sample 2000 3 32000,
    .sample 2100 3 (-32000), .sample 2110 3 (-32000), .sample 2700 3 (-32000),
    .sample 2800 0 32000, .sample 2810 0 32000, .sample 3400 0 32000,
    .sample 3500 0 (-32000), .sample 3510 0 (-32000), .sample 4100 0 (-32000),
    .sample 4200 1 32000, .sample 4210 1 32000, .sample 4800 1 32000,
    .sample 4900 1 (-32000), .sample 4910 1 (-32000), .sample 5500 1 (-32000),
    .sample 5600 1 100, .sample 5610 1 50, .sample 6200 1 50 ]

/-- The state `fullSession` leads to on a four-axis controller. -/
def fullSessionState : JoystickConfigController :=
  (calibrationRun sampleConfig (sampleController 4) fullSession).getD (sampleController 4)

/-- An idle four-axis controller whose sticks rest at the raw values 5, -3, 7
and 0. -/
def restingController : JoystickConfigController :=
  { sampleController 4 with
    axisRawValue := fun i => if i = 0 then 5 else if i = 1 then -3 else if i = 2 then 7 else 0 }

/-- Samples of axis 3 staying at the centre point 0 from clock reading 0 to
clock reading 1200, longer than the dwell duration of 500. -/
def centeredSamples : List Action :=
  [ .sample 0 3 0, .sample 300 3 0, .sample 600 3 0, .sample 1200 3 0 ]

/-- The state in which a calibration started on `restingController` is after
`centeredSamples`. -/
def centeredState : JoystickConfigController :=
  (calibrationRun sampleConfig restingController centeredSamples).getD restingController

/-- A controller in step 0 with deadband sensing enabled whose axis 0 has the
deadband 100. -/
def sensingController : JoystickConfigController :=
  { sampleController 4 with
    currentStep := 0
    activeJoystick := (sampleController 4).activeJoystick.setDeadband true
    rgAxisInfo := fun i =>
      if i = 0 then ⟨maxFunction, false, 0, 0, 0, 100⟩ else ⟨maxFunction, false, 0, 0, 0, 0⟩ }

/-- The state `throttleSession` leads to on a four-axis controller. -/
def throttleSessionState : JoystickConfigController :=
  (calibrationRun sampleConfig (sampleController 4) throttleSession).getD (sampleController 4)

/-! ## Notions used to state the validation theorems -/

/-- The primary functions: throttle, yaw, roll, pitch, gimbal pitch and
gimbal yaw. -/
def isPrimary : AxisFunction_t → Bool
  | throttleFunction | yawFunction | rollFunction | pitchFunction
  | gimbalPitchFunction | gimbalYawFunction => true
  | _ => false

/-- The recorded extremes of an axis fall outside the valid envelope:
`axisMin` below the valid minimum or `axisMax` above the valid maximum. -/
def outsideEnvelope (cfg : Config) (info : AxisInfo) : Prop :=
  info.axisMin < cfg.calValidMinValue ∨ info.axisMax > cfg.calValidMaxValue

instance (cfg : Config) (info : AxisInfo) : Decidable (outsideEnvelope cfg info) :=
  inferInstanceAs
    (Decidable (info.axisMin < cfg.calValidMinValue ∨ info.axisMax > cfg.calValidMaxValue))

/-- The value `t` clamped into `[lo, hi]`, as `std::clamp(t, lo, hi)` gives it. -/
def clampTrim (lo hi t : Int) : Int :=
  if t < lo then lo else if hi < t then hi else t

/-- An axis fulfils the invariant `axisMin <= axisTrim <= axisMax`. -/
def trimInRange (info : AxisInfo) : Prop :=
  info.axisMin ≤ info.axisTrim ∧ info.axisTrim ≤ info.axisMax

instance (info : AxisInfo) : Decidable (trimInRange info) :=
  inferInstanceAs (Decidable (info.axisMin ≤ info.axisTrim ∧ info.axisTrim ≤ info.axisMax))

/-! ## Notions used to state the session theorems -/

/-- The persisted store of `j'` holds what the store of `j` holds: the same
calibration records, the same function assignments and the same transmitter
mode.  The deadband toggle and the calibration-mode flag of the device are
not part of the store. -/
def sameStore (j j' : Joystick) : Prop :=
  j'.calibration = j.calibration ∧ j'.functionAxis = j.functionAxis ∧ j'.txMode = j.txMode

/-- The state a step entry leaves behind: no axis is locked, the dwell timer
is marked not started, and the baseline of every axis below the axis count is
the current raw value of the axis. -/
def stepEntered (cfg : Config) (s : JoystickConfigController) : Prop :=
  s.stickDetectAxis = cfg.axisNoAxis ∧
  s.stickDetectSettleStarted = false ∧
  ∀ i : Int, 0 ≤ i → i < s.axisCount → s.axisValueSave i = s.axisRawValue i

/-- One event at the controller: a raw sample `(axis, value)` arriving at clock
reading `now`, a click on Next, or a click on Cancel. -/
inductive Event where
  | sample (now axis value : Int)
  | next
  | cancel
  deriving DecidableEq, Repr

/-- Process one event: a sample goes through `_axisValueChanged`, a Next click
through `nextButtonClicked`, a Cancel click through `cancelButtonClicked`;
`none` when an assertion of the source fails. -/
def controllerAct (cfg : Config) (self : JoystickConfigController) :
    Event → Option JoystickConfigController
  | .sample now axis value => axisValueChanged cfg now self axis value
  | .next => nextButtonClicked cfg self
  | .cancel => some (cancelButtonClicked cfg self)

/-- Process the events in order; `none` when an assertion of the source fails
on the way. -/
def controllerActs (cfg : Config) :
    JoystickConfigController → List Event → Option JoystickConfigController
  | self, [] => some self
  | self, e :: rest =>
    match controllerAct cfg self e with
    | none => none
    | some s => controllerActs cfg s rest

/-- Next may be clicked: the controller is idle, or `nextEnabled()` is true. -/
def nextPermitted (self : JoystickConfigController) : Bool :=
  decide (self.currentStep = -1) || (self.nextEnabled == some true)

/-- Every Next click among the events is issued while Next may be clicked.
Nothing is asked of the events that follow a failed assertion. -/
def nextOnlyWhenPermitted (cfg : Config) : JoystickConfigController → List Event → Bool
  | _, [] => true
  | self, e :: rest =>
    (if e = Event.next then nextPermitted self else true) &&
      match controllerAct cfg self e with
      | none => true
      | some s => nextOnlyWhenPermitted cfg s rest

/-- Events of every kind on a four-axis controller: samples while idle (axis 7
is not an axis of the device), a start, a sample in step 0, a cancel, a
second start, the trims taken with Next, throttle found on axis 2, and a
cancel in step 2. -/
def eventSession : List Event :=
  [ .sample 0 0 5, .sample 0 7 5, .next, .sample 5 1 40000, .cancel, .next, .next,
    .sample 10 2 32000, .sample 20 2 32000, .sample 600 2 32000, .cancel ]

/-- A complete calibration on four axes, as `fullSession` after a start, that
is committed with the last Next click. -/
def commitSession : List Event :=
  [ .next, .next,
    .sample 10 2 32000, .sample 20 2 32000, .sample 600 2 32000,
    .sample 700 2 (-32000), .sample 710 2 (-32000), .sample 1300 2 (-32000),
    .sample 1400 3 32000, .sample 1410 3 32000, .sample 2000 3 32000,
    .sample 2100 3 (-32000), .sample 2110 3 (-32000), .sample 2700 3 (-32000),
    .sample 2800 0 32000, .sample 2810 0 32000, .sample 3400 0 32000,
    .sample 3500 0 (-32000), .sample 3510 0 (-32000), .sample 4100 0 (-32000),
    .sample 4200 1 32000, .sample 4210 1 32000, .sample 4800 1 32000,
    .sample 4900 1 (-32000), .sample 4910 1 (-32000), .sample 5500 1 (-32000),
    .sample 5600 1 100, .sample 5610 1 50, .sample 6200 1 50,
    .next ]

/-- Every function whose detect step lies behind the current step is mapped. -/
def Progress (cfg : Config) (s : JoystickConfigController) : Prop :=
  ∀ f : AxisFunction_t, detectStep f < s.currentStep →
    s.rgFunctionAxisMapping f ≠ cfg.axisNoAxis

/-- The sample of an event, if it is one, is a sample of `sampleConverts`. -/
def Action.converts : Action → Bool
  | .sample _ _ value => decide (sampleConverts value)
  | .next => true

/-- The deadband of every axis of the device lies in `[0, valid maximum]`. -/
def DeadbandInRange (cfg : Config) (s : JoystickConfigController) : Prop :=
  ∀ i : Int, 0 ≤ i → i < s.axisCount →
    0 ≤ (s.rgAxisInfo i).deadband ∧ (s.rgAxisInfo i).deadband ≤ cfg.calValidMaxValue

/-- An idle four-axis controller with deadband sensing enabled. -/
def sensingIdleController : JoystickConfigController :=
  { sampleController 4 with
    activeJoystick := (sampleController 4).activeJoystick.setDeadband true }

/-- Two samples of axis 0 for step 0: 95, then 50. -/
def widenSamples : List Action :=
  [ .sample 0 0 95, .sample 10 0 50 ]

/-- The state in which a calibration started on `sensingIdleController` is
after `widenSamples`. -/
def widenedState : JoystickConfigController :=
  (calibrationRun sampleConfig sensingIdleController widenSamples).getD sensingIdleController

/-- A controller in step 1 (throttle up, a detect-axis step) right after the
step entry: no axis is locked and every baseline is 0. -/
def unlockedController : JoystickConfigController :=
  { sampleController 4 with currentStep := 1 }

/-! ## Theorems -/

/-- The detector answers true exactly on a valid axis, within the settle
delta, with the timer started and more than the dwell duration elapsed. -/
theorem stickSettleComplete_fst_iff (cfg : Config) (now : Int)
    (self : JoystickConfigController) (axis value : Int) :
    (stickSettleComplete cfg now self axis value).1 = true ↔
      (self.validAxis axis = true ∧
        |self.stickDetectValue - value| ≤ cfg.calSettleDelta ∧
        self.stickDetectSettleStarted = true ∧
        now - self.stickDetectSettleElapsed > cfg.stickDetectSettleMSecs) := by
  unfold stickSettleComplete
  by_cases hv : self.validAxis axis = true
  · by_cases hd : |self.stickDetectValue - value| > cfg.calSettleDelta
    · have hd' : ¬ |self.stickDetectValue - value| ≤ cfg.calSettleDelta := not_le.mpr hd
      simp [hv, hd, hd']
    · have hd' : |self.stickDetectValue - value| ≤ cfg.calSettleDelta := not_lt.mp hd
      by_cases hs : self.stickDetectSettleStarted = true
      · by_cases ht : now - self.stickDetectSettleElapsed > cfg.stickDetectSettleMSecs
        · simp [hv, hd, hd', hs, ht]
        · simp [hv, hd, hd', hs, ht]
      · simp [hv, hd, hs]
  · simp [hv]

/-- A sample beyond the settle delta on a valid axis: the detector answers
false, takes the sample as its new reference and clears the timer flag. -/
theorem stickSettleComplete_moving (cfg : Config) (now : Int)
    (self : JoystickConfigController) (axis value : Int)
    (hv : self.validAxis axis = true)
    (hd : |self.stickDetectValue - value| > cfg.calSettleDelta) :
    stickSettleComplete cfg now self axis value =
      (false, { self with stickDetectValue := value, stickDetectSettleStarted := false }) := by
  unfold stickSettleComplete
  simp [hv, hd]

/-- A sample beyond the settle delta is never answered with true, whether
the axis is valid or not. -/
theorem stickSettleComplete_moving_false (cfg : Config) (now : Int)
    (self : JoystickConfigController) (axis value : Int)
    (hd : |self.stickDetectValue - value| > cfg.calSettleDelta) :
    (stickSettleComplete cfg now self axis value).1 = false := by
  unfold stickSettleComplete
  by_cases hv : self.validAxis axis = true
  · simp [hv, hd]
  · simp [hv]

theorem settleRun_length (cfg : Config) (axis : Int) (samples : List (Int × Int)) :
    ∀ self : JoystickConfigController,
      (settleRun cfg axis self samples).1.length = samples.length := by
  induction samples with
  | nil => intro self; simp [settleRun]
  | cons p rest ih =>
    intro self
    obtain ⟨now, value⟩ := p
    simp [settleRun, ih]

theorem settleRun_stillMoving (cfg : Config) (axis : Int) (samples : List (Int × Int)) :
    ∀ self : JoystickConfigController, stillMoving cfg axis self samples →
      ∀ b ∈ (settleRun cfg axis self samples).1, b = false := by
  induction samples with
  | nil => intro self _ b hb; simp [settleRun] at hb
  | cons p rest ih =>
    intro self hmov b hb
    obtain ⟨now, value⟩ := p
    obtain ⟨hd, hrest⟩ := hmov
    simp only [settleRun, List.mem_cons] at hb
    rcases hb with hb | hb
    · rw [hb]; exact stickSettleComplete_moving_false cfg now self axis value hd
    · exact ih _ hrest b hb

/-- A loop leaves unchanged every observation that its body leaves unchanged. -/
theorem forLoop_proj {σ β : Type} (g : σ → β) (n : Int) (body : Int → σ → σ) (s : σ)
    (h : ∀ i st, g (body i st) = g st) : g (forLoop n body s) = g s := by
  unfold forLoop
  generalize n.toNat = m
  induction m with
  | zero => rfl
  | succ k ih => simp only [h, ih]

/-- A loop whose body rewrites entry `i` of an array from the entry itself and
from data the loop does not change: the entries below `n` are rewritten, the
others are untouched. -/
theorem forLoop_update {σ α : Type} (arr : σ → Int → α) (f : σ → Int → α)
    (n : Int) (body : Int → σ → σ) (s : σ)
    (harr : ∀ i st, arr (body i st) = Function.update (arr st) i (f st i))
    (hf : ∀ i st j, i ≠ j → f (body i st) j = f st j) (j : Int) :
    arr (forLoop n body s) j = if 0 ≤ j ∧ j < n then f s j else arr s j := by
  unfold forLoop
  have key : ∀ m : Nat,
      arr (Nat.rec s (fun k acc => body (k : Int) acc) m) j
          = (if 0 ≤ j ∧ j < (m : Int) then f s j else arr s j) ∧
      (¬ (0 ≤ j ∧ j < (m : Int)) →
        f (Nat.rec s (fun k acc => body (k : Int) acc) m) j = f s j) := by
    intro m
    induction m with
    | zero =>
      refine ⟨?_, fun _ => rfl⟩
      have : ¬ (0 ≤ j ∧ j < ((0 : Nat) : Int)) := by omega
      rw [if_neg this]
      rfl
    | succ k ih =>
      obtain ⟨ih1, ih2⟩ := ih
      refine ⟨?_, ?_⟩
      · show arr (body (k : Int) _) j = _
        rw [harr]
        by_cases hjk : j = (k : Int)
        · subst hjk
          have h1 : ¬ (0 ≤ (k : Int) ∧ (k : Int) < (k : Int)) := by omega
          have h2 : 0 ≤ (k : Int) ∧ (k : Int) < ((k + 1 : Nat) : Int) := by omega
          rw [Function.update_same, ih2 h1, if_pos h2]
        · rw [Function.update_noteq hjk, ih1]
          by_cases hlt : 0 ≤ j ∧ j < (k : Int)
          · have h2 : 0 ≤ j ∧ j < ((k + 1 : Nat) : Int) := by omega
            rw [if_pos hlt, if_pos h2]
          · have h2 : ¬ (0 ≤ j ∧ j < ((k + 1 : Nat) : Int)) := by omega
            rw [if_neg hlt, if_neg h2]
      · intro hnot
        show f (body (k : Int) _) j = _
        have hne : (k : Int) ≠ j := by omega
        have hnot' : ¬ (0 ≤ j ∧ j < (k : Int)) := by omega
        rw [hf _ _ _ hne, ih2 hnot']
  have hn : (0 ≤ j ∧ j < ((n.toNat : Nat) : Int)) ↔ (0 ≤ j ∧ j < n) := by omega
  rw [(key n.toNat).1]
  simp only [hn]

theorem rgStateMachine_length (self : JoystickConfigController) :
    self.rgStateMachine.length = 11 := rfl

/-- The table has a row for every step `0 .. 10`. -/
theorem getStateMachineEntry_isSome (self : JoystickConfigController) (step : Int)
    (h0 : 0 ≤ step) (h1 : step < 11) :
    ∃ e, self.getStateMachineEntry step = some e := by
  unfold getStateMachineEntry
  have hlt : step.toNat < self.rgStateMachine.length := by
    rw [rgStateMachine_length]; omega
  refine ⟨self.rgStateMachine[step.toNat], ?_⟩
  rw [if_pos ⟨h0, by rw [rgStateMachine_length]; exact_mod_cast h1⟩]
  exact List.getElem?_eq_getElem hlt

/-- A step that has a sample handler is not the last step of the table. -/
theorem getStateMachineEntry_rcInputFn_range (self : JoystickConfigController) (step : Int)
    (e : stateMachineEntry) (fn : inputFn)
    (h : self.getStateMachineEntry step = some e) (hfn : e.rcInputFn = some fn) :
    0 ≤ step ∧ step < 10 := by
  unfold getStateMachineEntry at h
  split at h
  · rename_i hr
    rw [rgStateMachine_length] at hr
    obtain ⟨h0, h1⟩ := hr
    have h1' : step < 11 := by exact_mod_cast h1
    refine ⟨h0, ?_⟩
    by_contra hge
    have h10 : step = 10 := by omega
    subst h10
    simp [rgStateMachine] at h
    subst h
    simp at hfn
  · simp at h

theorem calSaveCurrentValues_currentStep (self : JoystickConfigController) :
    self.calSaveCurrentValues.currentStep = self.currentStep :=
  forLoop_proj (fun st : JoystickConfigController => st.currentStep) _ _ _ (fun _ _ => rfl)

theorem calSaveCurrentValues_rgAxisInfo (self : JoystickConfigController) :
    self.calSaveCurrentValues.rgAxisInfo = self.rgAxisInfo :=
  forLoop_proj (fun st : JoystickConfigController => st.rgAxisInfo) _ _ _ (fun _ _ => rfl)

theorem calSaveCurrentValues_rgFunctionAxisMapping (self : JoystickConfigController) :
    self.calSaveCurrentValues.rgFunctionAxisMapping = self.rgFunctionAxisMapping :=
  forLoop_proj (fun st : JoystickConfigController => st.rgFunctionAxisMapping) _ _ _
    (fun _ _ => rfl)

theorem calSaveCurrentValues_axisCount (self : JoystickConfigController) :
    self.calSaveCurrentValues.axisCount = self.axisCount :=
  forLoop_proj (fun st : JoystickConfigController => st.axisCount) _ _ _ (fun _ _ => rfl)

theorem calSaveCurrentValues_axisRawValue (self : JoystickConfigController) :
    self.calSaveCurrentValues.axisRawValue = self.axisRawValue :=
  forLoop_proj (fun st : JoystickConfigController => st.axisRawValue) _ _ _ (fun _ _ => rfl)

theorem calSaveCurrentValues_activeJoystick (self : JoystickConfigController) :
    self.calSaveCurrentValues.activeJoystick = self.activeJoystick :=
  forLoop_proj (fun st : JoystickConfigController => st.activeJoystick) _ _ _ (fun _ _ => rfl)

theorem calSaveCurrentValues_stickDetectAxis (self : JoystickConfigController) :
    self.calSaveCurrentValues.stickDetectAxis = self.stickDetectAxis :=
  forLoop_proj (fun st : JoystickConfigController => st.stickDetectAxis) _ _ _ (fun _ _ => rfl)

theorem calSaveCurrentValues_stickDetectSettleStarted (self : JoystickConfigController) :
    self.calSaveCurrentValues.stickDetectSettleStarted = self.stickDetectSettleStarted :=
  forLoop_proj (fun st : JoystickConfigController => st.stickDetectSettleStarted) _ _ _
    (fun _ _ => rfl)

/-- What `_advanceState` leaves when the next step is in the table. -/
theorem advanceState_spec (cfg : Config) (self : JoystickConfigController)
    (h0 : 0 ≤ self.currentStep + 1) (h1 : self.currentStep + 1 < 11) :
    ∃ s, advanceState cfg self = some s ∧
      s.currentStep = self.currentStep + 1 ∧
      s.rgAxisInfo = self.rgAxisInfo ∧
      s.rgFunctionAxisMapping = self.rgFunctionAxisMapping ∧
      s.axisCount = self.axisCount ∧
      s.axisRawValue = self.axisRawValue ∧
      s.activeJoystick = self.activeJoystick ∧
      s.stickDetectAxis = cfg.axisNoAxis ∧
      s.stickDetectSettleStarted = false := by
  obtain ⟨e, he⟩ := getStateMachineEntry_isSome self (self.currentStep + 1) h0 h1
  have he' : getStateMachineEntry { self with currentStep := self.currentStep + 1 }
      (self.currentStep + 1) = some e := he
  unfold advanceState setupCurrentState
  simp only [he']
  refine ⟨_, rfl, ?_, ?_, ?_, ?_, ?_, ?_, ?_, ?_⟩
  · simp only [calSaveCurrentValues_currentStep]
  · simp only [calSaveCurrentValues_rgAxisInfo]
  · simp only [calSaveCurrentValues_rgFunctionAxisMapping]
  · simp only [calSaveCurrentValues_axisCount]
  · simp only [calSaveCurrentValues_axisRawValue]
  · simp only [calSaveCurrentValues_activeJoystick]
  · simp only [calSaveCurrentValues_stickDetectAxis]
  · simp only [calSaveCurrentValues_stickDetectSettleStarted]

/-! ### Axis classification -/

/-- When the detector answers true it leaves the state as it found it. -/
theorem stickSettleComplete_true_state (cfg : Config) (now : Int)
    (self : JoystickConfigController) (axis value : Int)
    (h : (stickSettleComplete cfg now self axis value).1 = true) :
    stickSettleComplete cfg now self axis value = (true, self) := by
  unfold stickSettleComplete at h ⊢
  by_cases hv : self.validAxis axis = true
  · by_cases hd : |self.stickDetectValue - value| > cfg.calSettleDelta
    · simp [hv, hd] at h
    · by_cases hs : self.stickDetectSettleStarted = true
      · by_cases ht : now - self.stickDetectSettleElapsed > cfg.stickDetectSettleMSecs
        · simp [hv, hd, hs, ht]
        · simp [hv, hd, hs, ht] at h
      · simp [hv, hd, hs] at h
  · simp [hv] at h

/-- C3: in a detect-axis step (its table row `e` names the function
`f = e.function`) with the valid, still unassigned axis `a` locked, a sample `(a, v)` on which the settle detector
reports completion makes `_inputStickDetect` return with `mapping[f] = a`,
`AxisInfo[a].function = f`, `AxisInfo[a].reversed = (v < baseline[a])` for
the baseline held at step entry, `axisMin = v` and `axisMax` unchanged when
reversed, `axisMax = v` and `axisMin` unchanged when not reversed, and the
step index increased by exactly one. -/
theorem inputStickDetect_settled (cfg : Config) (now : Int)
    (self : JoystickConfigController) (e : stateMachineEntry) (a v : Int)
    (hstep : self.getStateMachineEntry self.currentStep = some e)
    (hfn : e.rcInputFn = some inputFn.inputStickDetect)
    (hvalid : self.validAxis a = true)
    (hun : (self.rgAxisInfo a).function = maxFunction)
    (hlock : self.stickDetectAxis = a)
    (hne : self.stickDetectAxis ≠ cfg.axisNoAxis)
    (hsettle : (stickSettleComplete cfg now self a v).1 = true) :
    ∃ s, inputStickDetect cfg now self e.function a v = some s ∧
      s.rgFunctionAxisMapping e.function = a ∧
      (s.rgAxisInfo a).function = e.function ∧
      (s.rgAxisInfo a).reversed = decide (v < self.axisValueSave a) ∧
      (v < self.axisValueSave a →
        (s.rgAxisInfo a).axisMin = v ∧ (s.rgAxisInfo a).axisMax = (self.rgAxisInfo a).axisMax) ∧
      (¬ v < self.axisValueSave a →
        (s.rgAxisInfo a).axisMax = v ∧ (s.rgAxisInfo a).axisMin = (self.rgAxisInfo a).axisMin) ∧
      s.currentStep = self.currentStep + 1 := by
  obtain ⟨hk0, hk1⟩ := getStateMachineEntry_rcInputFn_range self _ e _ hstep hfn
  have hst := stickSettleComplete_true_state cfg now self a v hsettle
  have hlock' : a = self.stickDetectAxis := hlock.symm
  unfold inputStickDetect
  simp only [hvalid, hun, hne, hst, Bool.not_true, Bool.false_eq_true, if_false, ne_eq,
    not_true_eq_false, if_true]
  rw [if_pos hlock']
  by_cases hrev : v < self.axisValueSave a
  · simp only [hrev, decide_True, if_true]
    obtain ⟨s, hs, hcs, hinfo, hmap, -⟩ := advanceState_spec cfg
      { self with
        rgFunctionAxisMapping := Function.update self.rgFunctionAxisMapping e.function a
        rgAxisInfo := Function.update (Function.update (Function.update self.rgAxisInfo a
          { self.rgAxisInfo a with function := e.function }) a
          { function := e.function, reversed := true, axisMin := (self.rgAxisInfo a).axisMin,
            axisMax := (self.rgAxisInfo a).axisMax, axisTrim := (self.rgAxisInfo a).axisTrim,
            deadband := (self.rgAxisInfo a).deadband }) a
          { function := e.function, reversed := true, axisMin := v,
            axisMax := (self.rgAxisInfo a).axisMax, axisTrim := (self.rgAxisInfo a).axisTrim,
            deadband := (self.rgAxisInfo a).deadband } }
      (by show 0 ≤ self.currentStep + 1; omega) (by show self.currentStep + 1 < 11; omega)
    refine ⟨s, ?_, ?_, ?_, ?_, ?_, ?_, hcs⟩
    · rw [← hs]; simp [Function.update_same]
    · rw [hmap]; simp
    · rw [hinfo]; simp
    · rw [hinfo]; simp
    · intro _; rw [hinfo]; simp
    · intro h; exact absurd trivial h
  · simp only [hrev, decide_False, Bool.false_eq_true, if_false]
    obtain ⟨s, hs, hcs, hinfo, hmap, -⟩ := advanceState_spec cfg
      { self with
        rgFunctionAxisMapping := Function.update self.rgFunctionAxisMapping e.function a
        rgAxisInfo := Function.update (Function.update (Function.update self.rgAxisInfo a
          { self.rgAxisInfo a with function := e.function }) a
          { function := e.function, reversed := false, axisMin := (self.rgAxisInfo a).axisMin,
            axisMax := (self.rgAxisInfo a).axisMax, axisTrim := (self.rgAxisInfo a).axisTrim,
            deadband := (self.rgAxisInfo a).deadband }) a
          { function := e.function, reversed := false, axisMin := (self.rgAxisInfo a).axisMin,
            axisMax := v, axisTrim := (self.rgAxisInfo a).axisTrim,
            deadband := (self.rgAxisInfo a).deadband } }
      (by show 0 ≤ self.currentStep + 1; omega) (by show self.currentStep + 1 < 11; omega)
    refine ⟨s, ?_, ?_, ?_, ?_, ?_, ?_, hcs⟩
    · rw [← hs]; simp [Function.update_same]
    · rw [hmap]; simp
    · rw [hinfo]; simp
    · rw [hinfo]; simp
    · intro h; exact h.elim
    · intro _; rw [hinfo]; simp

/-- Witness for C3: in step 1 with axis 2 locked (baseline 1024, reference 1800,
timer started at 0) the sample 1810 at clock reading 501 completes the
detection: axis 2 becomes the throttle axis, not reversed, with maximum 1810. -/
theorem inputStickDetect_settled_witness :
    detectController.getStateMachineEntry detectController.currentStep = some detectEntry ∧
    (stickSettleComplete sampleConfig 501 detectController 2 1810).1 = true ∧
    ∃ s, inputStickDetect sampleConfig 501 detectController throttleFunction 2 1810 = some s ∧
      s.rgFunctionAxisMapping throttleFunction = 2 ∧
      (s.rgAxisInfo 2).function = throttleFunction ∧
      (s.rgAxisInfo 2).reversed = decide ((1810 : Int) < detectController.axisValueSave 2) ∧
      ((1810 : Int) < detectController.axisValueSave 2 →
        (s.rgAxisInfo 2).axisMin = 1810 ∧
        (s.rgAxisInfo 2).axisMax = (detectController.rgAxisInfo 2).axisMax) ∧
      (¬ (1810 : Int) < detectController.axisValueSave 2 →
        (s.rgAxisInfo 2).axisMax = 1810 ∧
        (s.rgAxisInfo 2).axisMin = (detectController.rgAxisInfo 2).axisMin) ∧
      s.currentStep = detectController.currentStep + 1 :=
  ⟨rfl, by decide,
    inputStickDetect_settled sampleConfig 501 detectController detectEntry 2 1810
      rfl rfl (by decide) rfl rfl (by decide) (by decide)⟩

/-- C4: a sample on an axis whose `AxisInfo.function` is already assigned
leaves the whole controller state as it was (AxisInfo table, mapping, locked
axis, settle reference and timer, step index), and so does any sequence of
such samples. -/
theorem inputStickDetect_claimed_axis (cfg : Config) (self : JoystickConfigController) :
    (∀ (now : Int) (f : AxisFunction_t) (axis value : Int),
      (self.rgAxisInfo axis).function ≠ maxFunction →
      inputStickDetect cfg now self f axis value = some self) ∧
    (∀ samples : List (Int × AxisFunction_t × Int × Int),
      (∀ p ∈ samples, (self.rgAxisInfo p.2.2.1).function ≠ maxFunction) →
      detectRun cfg self samples = some self) := by
  have h1 : ∀ (now : Int) (f : AxisFunction_t) (axis value : Int),
      (self.rgAxisInfo axis).function ≠ maxFunction →
      inputStickDetect cfg now self f axis value = some self := by
    intro now f axis value hfun
    unfold inputStickDetect
    by_cases hv : self.validAxis axis = true
    · simp [hv, hfun]
    · simp [hv]
  refine ⟨h1, ?_⟩
  intro samples
  induction samples with
  | nil => intro _; rfl
  | cons p rest ih =>
    intro hall
    obtain ⟨now, f, axis, value⟩ := p
    have hp : (self.rgAxisInfo axis).function ≠ maxFunction :=
      hall (now, f, axis, value) (List.mem_cons_self _ _)
    simp only [detectRun, h1 now f axis value hp]
    exact ih (fun q hq => hall q (List.mem_cons_of_mem _ hq))

/-- Witness for C4: axis 2 of `minController` is the throttle axis; samples on
it during a yaw detection leave the controller as it was. -/
theorem inputStickDetect_claimed_axis_witness :
    (minController.rgAxisInfo 2).function ≠ maxFunction ∧
    inputStickDetect sampleConfig 10 minController yawFunction 2 30000 = some minController ∧
    detectRun sampleConfig minController
      [(10, yawFunction, 2, 30000), (700, yawFunction, 2, 30001)] = some minController :=
  ⟨by decide,
    (inputStickDetect_claimed_axis sampleConfig minController).1 10 yawFunction 2 30000
      (by decide),
    (inputStickDetect_claimed_axis sampleConfig minController).2
      [(10, yawFunction, 2, 30000), (700, yawFunction, 2, 30001)]
      (by intro p hp; simp at hp; rcases hp with rfl | rfl <;> decide)⟩

/-- C5: in a min-detect step (its table row `e` names the function
`f = e.function`) whose mapped axis is `a`: a sample on any other axis goes
through `_axisValueChanged` changing nothing but the raw value of that axis
(nothing at all when the axis is invalid); and when the settle detector
reports completion for a sample `(a, v)`, `_inputStickMin` sets `axisMin = v`
if the axis is not reversed (`axisMax = v` if it is), leaves the other of the
two, the function-to-axis mapping, `AxisInfo[a].function` and
`AxisInfo[a].reversed` unchanged, and increases the step index by exactly
one. -/
theorem inputStickMin_step (cfg : Config) (self : JoystickConfigController)
    (e : stateMachineEntry) (a : Int)
    (hstep : self.getStateMachineEntry self.currentStep = some e)
    (hfn : e.rcInputFn = some inputFn.inputStickMin)
    (hmap : self.rgFunctionAxisMapping e.function = a) :
    (∀ now b v : Int, b ≠ a →
      axisValueChanged cfg now self b v =
        some (if self.validAxis b = true then
                { self with axisRawValue := Function.update self.axisRawValue b v }
              else self)) ∧
    (∀ now v : Int, self.stickDetectAxis ≠ cfg.axisNoAxis →
      (stickSettleComplete cfg now self a v).1 = true →
      ∃ s, inputStickMin cfg now self e.function a v = some s ∧
        (s.rgAxisInfo a).axisMin =
          (if (self.rgAxisInfo a).reversed = true then (self.rgAxisInfo a).axisMin else v) ∧
        (s.rgAxisInfo a).axisMax =
          (if (self.rgAxisInfo a).reversed = true then v else (self.rgAxisInfo a).axisMax) ∧
        s.rgFunctionAxisMapping = self.rgFunctionAxisMapping ∧
        (s.rgAxisInfo a).function = (self.rgAxisInfo a).function ∧
        (s.rgAxisInfo a).reversed = (self.rgAxisInfo a).reversed ∧
        s.currentStep = self.currentStep + 1) := by
  obtain ⟨hk0, hk1⟩ := getStateMachineEntry_rcInputFn_range self _ e _ hstep hfn
  refine ⟨?_, ?_⟩
  · intro now b v hb
    have hstepne : self.currentStep ≠ -1 := by omega
    have hmapne : self.rgFunctionAxisMapping e.function ≠ b := by
      rw [hmap]; exact fun h => hb h.symm
    unfold axisValueChanged
    by_cases hv : self.validAxis b = true
    · have hstep' : getStateMachineEntry
          { self with axisRawValue := Function.update self.axisRawValue b v }
          self.currentStep = some e := hstep
      have hv' : validAxis { self with axisRawValue := Function.update self.axisRawValue b v } b
          = true := hv
      simp only [hv, if_true, hstepne, false_and, if_false, ne_eq, not_false_eq_true, hstep',
        hfn]
      unfold inputStickMin
      simp only [hv', Bool.not_true, Bool.false_eq_true, if_false, ne_eq, hmapne,
        not_false_eq_true, if_true]
    · simp only [hv, if_false, Bool.false_eq_true]
  · intro now v hne hsettle
    have hst := stickSettleComplete_true_state cfg now self a v hsettle
    have hvalid : self.validAxis a = true :=
      ((stickSettleComplete_fst_iff cfg now self a v).mp hsettle).1
    unfold inputStickMin
    simp only [hvalid, hmap, hne, hst, Bool.not_true, Bool.false_eq_true, if_false, ne_eq,
      not_true_eq_false]
    by_cases hrev : (self.rgAxisInfo a).reversed = true
    · simp only [hrev, if_true]
      obtain ⟨s, hs, hcs, hinfo, hmp, -⟩ := advanceState_spec cfg
        { self with
          rgAxisInfo := Function.update self.rgAxisInfo a
            { self.rgAxisInfo a with axisMax := v } }
        (by show 0 ≤ self.currentStep + 1; omega) (by show self.currentStep + 1 < 11; omega)
      refine ⟨s, ?_, ?_, ?_, hmp, ?_, ?_, hcs⟩
      · rw [← hs]; simp [hrev]
      · rw [hinfo]; simp [hrev]
      · rw [hinfo]; simp [hrev]
      · rw [hinfo]; simp [hrev]
      · rw [hinfo]; simp [hrev]
    · simp only [hrev, if_false, Bool.false_eq_true]
      obtain ⟨s, hs, hcs, hinfo, hmp, -⟩ := advanceState_spec cfg
        { self with
          rgAxisInfo := Function.update self.rgAxisInfo a
            { self.rgAxisInfo a with axisMin := v } }
        (by show 0 ≤ self.currentStep + 1; omega) (by show self.currentStep + 1 < 11; omega)
      refine ⟨s, ?_, ?_, ?_, hmp, ?_, ?_, hcs⟩
      · rw [← hs]; simp [hrev]
      · rw [hinfo]; simp [hrev]
      · rw [hinfo]; simp [hrev]
      · rw [hinfo]; simp [hrev]
      · rw [hinfo]; simp [hrev]

/-- Witness for C5: in step 2 with throttle on axis 2 (not reversed), a sample
on axis 1 only stores its raw value, and the sample -32100 on axis 2 at clock
reading 501 completes the step with `axisMin = -32100`. -/
theorem inputStickMin_step_witness :
    minController.getStateMachineEntry minController.currentStep = some minEntry ∧
    minEntry.rcInputFn = some inputFn.inputStickMin ∧
    minController.rgFunctionAxisMapping minEntry.function = 2 ∧
    axisValueChanged sampleConfig 100 minController 1 (-5) =
      some (if minController.validAxis 1 = true then
              { minController with axisRawValue := Function.update minController.axisRawValue 1 (-5) }
            else minController) ∧
    (stickSettleComplete sampleConfig 501 minController 2 (-32100)).1 = true ∧
    ∃ s, inputStickMin sampleConfig 501 minController minEntry.function 2 (-32100) = some s ∧
      (s.rgAxisInfo 2).axisMin =
        (if (minController.rgAxisInfo 2).reversed = true then (minController.rgAxisInfo 2).axisMin
         else -32100) ∧
      (s.rgAxisInfo 2).axisMax =
        (if (minController.rgAxisInfo 2).reversed = true then -32100
         else (minController.rgAxisInfo 2).axisMax) ∧
      s.rgFunctionAxisMapping = minController.rgFunctionAxisMapping ∧
      (s.rgAxisInfo 2).function = (minController.rgAxisInfo 2).function ∧
      (s.rgAxisInfo 2).reversed = (minController.rgAxisInfo 2).reversed ∧
      s.currentStep = minController.currentStep + 1 :=
  ⟨rfl, rfl, rfl,
    (inputStickMin_step sampleConfig minController minEntry 2 rfl rfl rfl).1 100 1 (-5)
      (by decide),
    by decide,
    (inputStickMin_step sampleConfig minController minEntry 2 rfl rfl rfl).2 501 (-32100)
      (by decide) (by decide)⟩

/-! ### Validation -/

/-- A loop keeps every property that its body keeps. -/
theorem forLoop_inv {σ : Type} (P : σ → Prop) (n : Int) (body : Int → σ → σ) (s : σ)
    (h0 : P s) (hstep : ∀ i st, P st → P (body i st)) : P (forLoop n body s) := by
  unfold forLoop
  generalize n.toNat = m
  induction m with
  | zero => exact h0
  | succ k ih => exact hstep _ _ ih

/-- Truncating halving of a non-negative width stays inside the width. -/
theorem tdiv_two_bounds (d : Int) (h : 0 ≤ d) : 0 ≤ Int.tdiv d 2 ∧ Int.tdiv d 2 ≤ d := by
  rw [Int.tdiv_eq_ediv h (by norm_num)]
  omega

/-- The loop body in closed form: the extremes are the defaults when the axis
is outside the envelope and the recorded ones otherwise; the trim is clamped
for a primary function and the midpoint of the extremes otherwise. -/
theorem validateAxis_eq (cfg : Config) (info : AxisInfo) :
    validateAxis cfg info =
      { function := info.function
        reversed := info.reversed
        axisMin := if outsideEnvelope cfg info then cfg.calDefaultMinValue else info.axisMin
        axisMax := if outsideEnvelope cfg info then cfg.calDefaultMaxValue else info.axisMax
        axisTrim :=
          if isPrimary info.function = true then
            clampTrim
              (if outsideEnvelope cfg info then cfg.calDefaultMinValue else info.axisMin)
              (if outsideEnvelope cfg info then cfg.calDefaultMaxValue else info.axisMax)
              (if outsideEnvelope cfg info then
                cfg.calDefaultMinValue
                  + Int.tdiv (cfg.calDefaultMaxValue - cfg.calDefaultMinValue) 2
               else info.axisTrim)
          else
            (if outsideEnvelope cfg info then cfg.calDefaultMinValue else info.axisMin)
              + Int.tdiv
                  ((if outsideEnvelope cfg info then cfg.calDefaultMaxValue else info.axisMax)
                    - (if outsideEnvelope cfg info then cfg.calDefaultMinValue
                       else info.axisMin)) 2
        deadband := info.deadband } := by
  obtain ⟨f, r, mn, mx, t, d⟩ := info
  unfold validateAxis outsideEnvelope clampTrim
  by_cases hr : mn < cfg.calValidMinValue ∨ mx > cfg.calValidMaxValue
  · simp only [hr, if_true]
    cases f <;> simp only [isPrimary, if_true, Bool.false_eq_true, if_false] <;>
      first | rfl | (split_ifs <;> rfl)
  · simp only [hr, if_false]
    cases f <;> simp only [isPrimary, if_true, Bool.false_eq_true, if_false] <;>
      first | rfl | (split_ifs <;> rfl)

/-- Apart from the AxisInfo table, `_validateCalibration` changes nothing;
in the table it rewrites the entries of the axes `0 .. axisCount - 1`. -/
theorem validateCalibration_eq (cfg : Config) (self : JoystickConfigController) :
    validateCalibration cfg self =
      { self with rgAxisInfo := fun j =>
          if 0 ≤ j ∧ j < self.axisCount then validateAxis cfg (self.rgAxisInfo j)
          else self.rgAxisInfo j } := by
  have hframe : validateCalibration cfg self =
      { self with rgAxisInfo := (validateCalibration cfg self).rgAxisInfo } := by
    unfold validateCalibration
    exact forLoop_inv
      (fun st : JoystickConfigController => st = { self with rgAxisInfo := st.rgAxisInfo })
      _ _ _ rfl (fun i st hst => by rw [hst])
  have htable : (validateCalibration cfg self).rgAxisInfo = fun j =>
      if 0 ≤ j ∧ j < self.axisCount then validateAxis cfg (self.rgAxisInfo j)
      else self.rgAxisInfo j := by
    funext j
    unfold validateCalibration
    exact forLoop_update (fun st : JoystickConfigController => st.rgAxisInfo)
      (fun st i => validateAxis cfg (st.rgAxisInfo i)) _ _ _
      (fun _ _ => rfl)
      (fun i st k hik => by
        show validateAxis cfg (Function.update st.rgAxisInfo i _ k) = _
        rw [Function.update_noteq (Ne.symm hik)]) j
  rw [hframe, htable]

/-- The entry of an axis below the axis count after validation. -/
theorem validateCalibration_rgAxisInfo (cfg : Config) (self : JoystickConfigController)
    (i : Int) (h0 : 0 ≤ i) (h1 : i < self.axisCount) :
    (validateCalibration cfg self).rgAxisInfo i = validateAxis cfg (self.rgAxisInfo i) := by
  rw [validateCalibration_eq]
  show (if 0 ≤ i ∧ i < self.axisCount then _ else _) = _
  rw [if_pos ⟨h0, h1⟩]

/-- Validating an axis with `axisMin <= axisMax` twice is validating it once. -/
theorem validateAxis_idem (cfg : Config) (info : AxisInfo)
    (hcfg : cfg.calDefaultMinValue ≤ cfg.calDefaultMaxValue)
    (h : info.axisMin ≤ info.axisMax) :
    validateAxis cfg (validateAxis cfg info) = validateAxis cfg info := by
  obtain ⟨f, r, mn, mx, t, d⟩ := info
  have hd := tdiv_two_bounds (cfg.calDefaultMaxValue - cfg.calDefaultMinValue) (by omega)
  have hm := tdiv_two_bounds (mx - mn) (by simpa using sub_nonneg.mpr h)
  rw [validateAxis_eq cfg (validateAxis cfg _), validateAxis_eq cfg ⟨f, r, mn, mx, t, d⟩]
  simp only [outsideEnvelope, clampTrim]
  generalize Int.tdiv (cfg.calDefaultMaxValue - cfg.calDefaultMinValue) 2 = md at hd ⊢
  generalize Int.tdiv (mx - mn) 2 = mm at hm ⊢
  simp only [AxisInfo.mk.injEq, true_and, and_true]
  by_cases hp : isPrimary f = true
  · simp only [hp, if_true]
    split_ifs <;> omega
  · simp only [hp, if_false, Bool.false_eq_true]
    split_ifs <;> omega

/-- C6: validation is idempotent on already-valid data.  For a table in
which every axis below the axis count satisfies
`axisMin <= axisTrim <= axisMax`, and default constants with
`default minimum <= default maximum`, running `_validateCalibration` a second
time changes nothing: `validate (validate t) = validate t`. -/
theorem validateCalibration_idempotent (cfg : Config) (self : JoystickConfigController)
    (hcfg : cfg.calDefaultMinValue ≤ cfg.calDefaultMaxValue)
    (hvalid : ∀ i : Int, 0 ≤ i → i < self.axisCount → trimInRange (self.rgAxisInfo i)) :
    validateCalibration cfg (validateCalibration cfg self) = validateCalibration cfg self := by
  rw [validateCalibration_eq cfg (validateCalibration cfg self), validateCalibration_eq cfg self]
  have htable : (fun j : Int =>
        if 0 ≤ j ∧ j < self.axisCount then
          validateAxis cfg
            (if 0 ≤ j ∧ j < self.axisCount then validateAxis cfg (self.rgAxisInfo j)
             else self.rgAxisInfo j)
        else
          (if 0 ≤ j ∧ j < self.axisCount then validateAxis cfg (self.rgAxisInfo j)
           else self.rgAxisInfo j))
      = fun j : Int =>
        if 0 ≤ j ∧ j < self.axisCount then validateAxis cfg (self.rgAxisInfo j)
        else self.rgAxisInfo j := by
    funext j
    by_cases hj : 0 ≤ j ∧ j < self.axisCount
    · have hr := hvalid j hj.1 hj.2
      simp only [hj, and_self, if_true]
      exact validateAxis_idem cfg _ hcfg (le_trans hr.1 hr.2)
    · simp only [hj, if_false]
  show ({ self with rgAxisInfo := _ } : JoystickConfigController) = _
  rw [htable]

/-- Witness for C6: the table of `commitController` fulfils the invariant on
its four axes and is left unchanged by a second validation. -/
theorem validateCalibration_idempotent_witness :
    sampleConfig.calDefaultMinValue ≤ sampleConfig.calDefaultMaxValue ∧
    (∀ i : Int, 0 ≤ i → i < commitController.axisCount →
      trimInRange (commitController.rgAxisInfo i)) ∧
    validateCalibration sampleConfig (validateCalibration sampleConfig commitController)
      = validateCalibration sampleConfig commitController :=
  have hv : ∀ i : Int, 0 ≤ i → i < commitController.axisCount →
      trimInRange (commitController.rgAxisInfo i) := by
    intro i h0 h1
    have h1' : i < 4 := h1
    interval_cases i <;> decide
  ⟨by decide, hv, validateCalibration_idempotent sampleConfig commitController (by decide) hv⟩

/-- Counterexample to C7 as stated: the throttle axis of `invertedController`
holds `axisMin = 100 > axisMax = 50` inside the envelope; validation leaves
the range and sets the trim to 100, above `axisMax`. -/
theorem validateCalibration_trimInRange_counterexample :
    ¬ ∀ (cfg : Config) (self : JoystickConfigController) (i : Int),
        0 ≤ i → i < self.axisCount →
        trimInRange ((validateCalibration cfg self).rgAxisInfo i) := by
  intro h
  have h0 := h sampleConfig invertedController 0 (by decide) (by decide)
  revert h0
  decide

/-- With `default minimum <= default maximum`, an axis below the axis count
satisfies `axisMin <= axisTrim <= axisMax` after validation exactly when it
was outside the valid envelope or held `axisMin <= axisMax`. -/
theorem validateCalibration_trimInRange_iff (cfg : Config) (self : JoystickConfigController)
    (i : Int) (hcfg : cfg.calDefaultMinValue ≤ cfg.calDefaultMaxValue)
    (h0 : 0 ≤ i) (h1 : i < self.axisCount) :
    trimInRange ((validateCalibration cfg self).rgAxisInfo i) ↔
      (outsideEnvelope cfg (self.rgAxisInfo i) ∨
        (self.rgAxisInfo i).axisMin ≤ (self.rgAxisInfo i).axisMax) := by
  rw [validateCalibration_rgAxisInfo cfg self i h0 h1, validateAxis_eq]
  generalize self.rgAxisInfo i = info
  obtain ⟨f, r, mn, mx, t, d⟩ := info
  have hd := tdiv_two_bounds (cfg.calDefaultMaxValue - cfg.calDefaultMinValue) (by omega)
  simp only [trimInRange, outsideEnvelope, clampTrim]
  by_cases ho : mn < cfg.calValidMinValue ∨ mx > cfg.calValidMaxValue
  · simp only [ho, if_true, true_or, iff_true]
    generalize Int.tdiv (cfg.calDefaultMaxValue - cfg.calDefaultMinValue) 2 = md at hd ⊢
    by_cases hp : isPrimary f = true
    · simp only [hp, if_true]
      split_ifs <;> omega
    · simp only [hp, if_false, Bool.false_eq_true]
      omega
  · simp only [ho, if_false, false_or]
    by_cases hle : mn ≤ mx
    · have hm := tdiv_two_bounds (mx - mn) (by omega)
      generalize Int.tdiv (mx - mn) 2 = mm at hm ⊢
      by_cases hp : isPrimary f = true
      · simp only [hp, if_true]
        split_ifs <;> omega
      · simp only [hp, if_false, Bool.false_eq_true]
        omega
    · constructor
      · intro h; omega
      · intro h; exact absurd h hle

/-- C7 (amended): with `default minimum <= default maximum`, every axis
below the axis count that is outside the valid envelope (and so reset to the
defaults) or holds `axisMin <= axisMax` satisfies
`axisMin <= axisTrim <= axisMax` after `_validateCalibration`, whatever trim
and function it holds before.  Hence the invariant holds after validation for
every table whose axes inside the envelope have `axisMin <= axisMax`. -/
theorem validateCalibration_trimInRange (cfg : Config) (self : JoystickConfigController)
    (i : Int) (hcfg : cfg.calDefaultMinValue ≤ cfg.calDefaultMaxValue)
    (h0 : 0 ≤ i) (h1 : i < self.axisCount)
    (hord : outsideEnvelope cfg (self.rgAxisInfo i) ∨
      (self.rgAxisInfo i).axisMin ≤ (self.rgAxisInfo i).axisMax) :
    trimInRange ((validateCalibration cfg self).rgAxisInfo i) :=
  (validateCalibration_trimInRange_iff cfg self i hcfg h0 h1).mpr hord

/-- Witness for C7 (amended): axis 3 of `commitController` is inside the
envelope with `axisMin <= axisMax`, axis 0 of `outsideController` is outside
the envelope; both satisfy the invariant after validation. -/
theorem validateCalibration_trimInRange_witness :
    sampleConfig.calDefaultMinValue ≤ sampleConfig.calDefaultMaxValue ∧
    (0 : Int) ≤ 3 ∧ (3 : Int) < commitController.axisCount ∧
    (commitController.rgAxisInfo 3).axisMin ≤ (commitController.rgAxisInfo 3).axisMax ∧
    trimInRange ((validateCalibration sampleConfig commitController).rgAxisInfo 3) ∧
    outsideEnvelope sampleConfig (outsideController.rgAxisInfo 0) ∧
    trimInRange ((validateCalibration sampleConfig outsideController).rgAxisInfo 0) :=
  ⟨by decide, by decide, by decide, by decide,
    validateCalibration_trimInRange sampleConfig commitController 3
      (by decide) (by decide) (by decide) (Or.inr (by decide)),
    by decide,
    validateCalibration_trimInRange sampleConfig outsideController 0
      (by decide) (by decide) (by decide) (Or.inl (by decide))⟩

/-- C8: for every axis below the axis count, `_validateCalibration` sets
`axisMin` and `axisMax` to the default minimum and maximum when `axisMin` is
below the valid minimum or `axisMax` above the valid maximum, and leaves both
unchanged otherwise.  `validateCalibration` is a total function: it returns a
table for every input table, none is rejected. -/
theorem validateCalibration_min_max (cfg : Config) (self : JoystickConfigController)
    (i : Int) (h0 : 0 ≤ i) (h1 : i < self.axisCount) :
    (outsideEnvelope cfg (self.rgAxisInfo i) →
      ((validateCalibration cfg self).rgAxisInfo i).axisMin = cfg.calDefaultMinValue ∧
      ((validateCalibration cfg self).rgAxisInfo i).axisMax = cfg.calDefaultMaxValue) ∧
    (¬ outsideEnvelope cfg (self.rgAxisInfo i) →
      ((validateCalibration cfg self).rgAxisInfo i).axisMin = (self.rgAxisInfo i).axisMin ∧
      ((validateCalibration cfg self).rgAxisInfo i).axisMax = (self.rgAxisInfo i).axisMax) := by
  rw [validateCalibration_rgAxisInfo cfg self i h0 h1, validateAxis_eq]
  refine ⟨fun ho => ?_, fun ho => ?_⟩
  · simp only [ho, if_true, and_self]
  · simp only [ho, if_false, and_self]

/-- Witness for C8: axis 0 of `outsideController` is outside the envelope and
is reset to the defaults; axis 1 is inside and keeps its extremes. -/
theorem validateCalibration_min_max_witness :
    outsideEnvelope sampleConfig (outsideController.rgAxisInfo 0) ∧
    (((validateCalibration sampleConfig outsideController).rgAxisInfo 0).axisMin
        = sampleConfig.calDefaultMinValue ∧
      ((validateCalibration sampleConfig outsideController).rgAxisInfo 0).axisMax
        = sampleConfig.calDefaultMaxValue) ∧
    ¬ outsideEnvelope sampleConfig (outsideController.rgAxisInfo 1) ∧
    (((validateCalibration sampleConfig outsideController).rgAxisInfo 1).axisMin
        = (outsideController.rgAxisInfo 1).axisMin ∧
      ((validateCalibration sampleConfig outsideController).rgAxisInfo 1).axisMax
        = (outsideController.rgAxisInfo 1).axisMax) :=
  ⟨by decide,
    (validateCalibration_min_max sampleConfig outsideController 0 (by decide) (by decide)).1
      (by decide),
    by decide,
    (validateCalibration_min_max sampleConfig outsideController 1 (by decide) (by decide)).2
      (by decide)⟩

/-- Counterexample to C9 as stated: the throttle axis of `outsideController`
has trim 5 and `axisMin` below the valid minimum; validation resets it and
leaves the trim -1, the computed midpoint of the defaults, not the trim 5
clamped into the resulting range. -/
theorem validateCalibration_primary_trim_counterexample :
    ¬ ∀ (cfg : Config) (self : JoystickConfigController) (i : Int),
        0 ≤ i → i < self.axisCount → isPrimary (self.rgAxisInfo i).function = true →
        ((validateCalibration cfg self).rgAxisInfo i).axisTrim =
          clampTrim ((validateCalibration cfg self).rgAxisInfo i).axisMin
            ((validateCalibration cfg self).rgAxisInfo i).axisMax
            (self.rgAxisInfo i).axisTrim := by
  intro h
  have h0 := h sampleConfig outsideController 0 (by decide) (by decide) (by decide)
  revert h0
  decide

/-- C9 (amended): for an axis below the axis count that is assigned to one of
the primary functions.  If its `axisMin` and `axisMax` lie inside the valid
envelope, the extremes are kept and the trim after `_validateCalibration` is
the trim from before clamped into `[axisMin, axisMax]` (for
`axisMin <= axisMax` this is `max axisMin (min axisTrim axisMax)`); it is not
replaced by a computed midpoint.  If the axis is outside the envelope, the
trim is the midpoint of the default extremes, clamped into them. -/
theorem validateCalibration_primary_trim (cfg : Config) (self : JoystickConfigController)
    (i : Int) (h0 : 0 ≤ i) (h1 : i < self.axisCount)
    (hp : isPrimary (self.rgAxisInfo i).function = true) :
    (¬ outsideEnvelope cfg (self.rgAxisInfo i) →
      ((validateCalibration cfg self).rgAxisInfo i).axisMin = (self.rgAxisInfo i).axisMin ∧
      ((validateCalibration cfg self).rgAxisInfo i).axisMax = (self.rgAxisInfo i).axisMax ∧
      ((validateCalibration cfg self).rgAxisInfo i).axisTrim =
        clampTrim (self.rgAxisInfo i).axisMin (self.rgAxisInfo i).axisMax
          (self.rgAxisInfo i).axisTrim ∧
      ((self.rgAxisInfo i).axisMin ≤ (self.rgAxisInfo i).axisMax →
        ((validateCalibration cfg self).rgAxisInfo i).axisTrim =
          max (self.rgAxisInfo i).axisMin
            (min (self.rgAxisInfo i).axisTrim (self.rgAxisInfo i).axisMax))) ∧
    (outsideEnvelope cfg (self.rgAxisInfo i) →
      ((validateCalibration cfg self).rgAxisInfo i).axisTrim =
        clampTrim cfg.calDefaultMinValue cfg.calDefaultMaxValue
          (cfg.calDefaultMinValue
            + Int.tdiv (cfg.calDefaultMaxValue - cfg.calDefaultMinValue) 2)) := by
  rw [validateCalibration_rgAxisInfo cfg self i h0 h1, validateAxis_eq]
  refine ⟨fun ho => ?_, fun ho => ?_⟩
  · simp only [ho, if_false, hp, if_true, true_and]
    intro hle
    unfold clampTrim
    split_ifs <;> omega
  · simp only [ho, if_true, hp]

/-- Witness for C9 (amended): the throttle axis 0 of `commitController` is
inside the envelope; its trim -31000 lies in `[-32000, 32000]` and is kept. -/
theorem validateCalibration_primary_trim_witness :
    isPrimary (commitController.rgAxisInfo 0).function = true ∧
    ¬ outsideEnvelope sampleConfig (commitController.rgAxisInfo 0) ∧
    (((validateCalibration sampleConfig commitController).rgAxisInfo 0).axisMin
        = (commitController.rgAxisInfo 0).axisMin ∧
      ((validateCalibration sampleConfig commitController).rgAxisInfo 0).axisMax
        = (commitController.rgAxisInfo 0).axisMax ∧
      ((validateCalibration sampleConfig commitController).rgAxisInfo 0).axisTrim =
        clampTrim (commitController.rgAxisInfo 0).axisMin (commitController.rgAxisInfo 0).axisMax
          (commitController.rgAxisInfo 0).axisTrim ∧
      ((commitController.rgAxisInfo 0).axisMin ≤ (commitController.rgAxisInfo 0).axisMax →
        ((validateCalibration sampleConfig commitController).rgAxisInfo 0).axisTrim =
          max (commitController.rgAxisInfo 0).axisMin
            (min (commitController.rgAxisInfo 0).axisTrim
              (commitController.rgAxisInfo 0).axisMax))) ∧
    ((validateCalibration sampleConfig commitController).rgAxisInfo 0).axisTrim = -31000 :=
  ⟨by decide, by decide,
    (validateCalibration_primary_trim sampleConfig commitController 0
      (by decide) (by decide) (by decide)).1 (by decide),
    by decide⟩

/-- Truncating halving of a width of either sign stays between 0 and the
width. -/
theorem tdiv_two_between (d : Int) :
    (0 ≤ d → 0 ≤ Int.tdiv d 2 ∧ Int.tdiv d 2 ≤ d) ∧
    (d ≤ 0 → d ≤ Int.tdiv d 2 ∧ Int.tdiv d 2 ≤ 0) := by
  refine ⟨tdiv_two_bounds d, fun h => ?_⟩
  have hb := tdiv_two_bounds (-d) (by omega)
  rw [Int.neg_tdiv] at hb
  omega

/-- What `_setupCurrentState` leaves when the current step is in the table. -/
theorem setupCurrentState_spec (cfg : Config) (self : JoystickConfigController)
    (h0 : 0 ≤ self.currentStep) (h1 : self.currentStep < 11) :
    ∃ s, setupCurrentState cfg self = some s ∧
      s.currentStep = self.currentStep ∧
      s.rgAxisInfo = self.rgAxisInfo ∧
      s.rgFunctionAxisMapping = self.rgFunctionAxisMapping ∧
      s.axisCount = self.axisCount ∧
      s.axisRawValue = self.axisRawValue ∧
      s.activeJoystick = self.activeJoystick ∧
      s.stickDetectAxis = cfg.axisNoAxis ∧
      s.stickDetectSettleStarted = false := by
  obtain ⟨e, he⟩ := getStateMachineEntry_isSome self self.currentStep h0 h1
  unfold setupCurrentState
  simp only [he]
  refine ⟨_, rfl, ?_, ?_, ?_, ?_, ?_, ?_, ?_, ?_⟩
  · simp only [calSaveCurrentValues_currentStep]
  · simp only [calSaveCurrentValues_rgAxisInfo]
  · simp only [calSaveCurrentValues_rgFunctionAxisMapping]
  · simp only [calSaveCurrentValues_axisCount]
  · simp only [calSaveCurrentValues_axisRawValue]
  · simp only [calSaveCurrentValues_activeJoystick]
  · simp only [calSaveCurrentValues_stickDetectAxis]
  · simp only [calSaveCurrentValues_stickDetectSettleStarted]

/-- The function loop, unrolled. -/
theorem forFunctions_eq {σ : Type} (body : AxisFunction_t → σ → σ) (s : σ) :
    forFunctions body s =
      body gimbalYawFunction (body gimbalPitchFunction (body throttleFunction
        (body yawFunction (body pitchFunction (body rollFunction s))))) := rfl

/-- A function loop leaves unchanged every observation that its body leaves
unchanged. -/
theorem forFunctions_proj {σ β : Type} (g : σ → β) (body : AxisFunction_t → σ → σ) (s : σ)
    (h : ∀ f st, g (body f st) = g st) : g (forFunctions body s) = g s := by
  rw [forFunctions_eq]
  simp only [h]

/-- A loop that rewrites the AxisInfo entry of every axis from the entry
itself changes nothing else, and rewrites exactly the entries below `n`. -/
theorem forLoop_mapAxisInfo (n : Int) (g : Int → AxisInfo → AxisInfo)
    (s : JoystickConfigController) :
    forLoop n
        (fun i st => { st with rgAxisInfo := Function.update st.rgAxisInfo i (g i (st.rgAxisInfo i)) })
        s =
      { s with rgAxisInfo := fun j =>
          if 0 ≤ j ∧ j < n then g j (s.rgAxisInfo j) else s.rgAxisInfo j } := by
  have hframe := forLoop_inv
    (fun st : JoystickConfigController => st = { s with rgAxisInfo := st.rgAxisInfo })
    n (fun i st => { st with rgAxisInfo := Function.update st.rgAxisInfo i (g i (st.rgAxisInfo i)) })
    s rfl (fun i st hst => by rw [hst])
  have htable : (forLoop n
      (fun i st => { st with rgAxisInfo := Function.update st.rgAxisInfo i (g i (st.rgAxisInfo i)) })
      s).rgAxisInfo = fun j => if 0 ≤ j ∧ j < n then g j (s.rgAxisInfo j) else s.rgAxisInfo j := by
    funext j
    exact forLoop_update (fun st : JoystickConfigController => st.rgAxisInfo)
      (fun st i => g i (st.rgAxisInfo i)) _ _ _
      (fun _ _ => rfl)
      (fun i st k hik => by
        show g k (Function.update st.rgAxisInfo i _ k) = _
        rw [Function.update_noteq (Ne.symm hik)]) j
  simp only [] at hframe
  rw [hframe, htable]

/-- Writing the same axis into the mapping of every function in turn. -/
theorem clearMapping_eq (m : AxisFunction_t → Int) (v : Int) :
    Function.update (Function.update (Function.update (Function.update (Function.update
      (Function.update m rollFunction v) pitchFunction v) yawFunction v) throttleFunction v)
      gimbalPitchFunction v) gimbalYawFunction v
      = fun f => if f = maxFunction then m f else v := by
  funext f
  cases f <;> simp [Function.update]

/-- The loop that unmaps every function, in closed form. -/
theorem forFunctions_clearMapping (v : Int) (s : JoystickConfigController) :
    forFunctions
        (fun f (st : JoystickConfigController) =>
          { st with rgFunctionAxisMapping := Function.update st.rgFunctionAxisMapping f v })
        s =
      { s with rgFunctionAxisMapping := fun f =>
          if f = maxFunction then s.rgFunctionAxisMapping f else v } := by
  rw [forFunctions_eq]
  simp only [clearMapping_eq]

/-- `_resetInternalCalibrationValues` in closed form: the axes below the axis
count are unassigned with min, max and trim at the centre point, the six
functions are unmapped, nothing else changes. -/
theorem resetInternalCalibrationValues_eq (cfg : Config) (self : JoystickConfigController) :
    resetInternalCalibrationValues cfg self =
      { self with
        rgAxisInfo := fun j =>
          if 0 ≤ j ∧ j < self.axisCount then
            { function := maxFunction, reversed := false, axisMin := cfg.calCenterPoint,
              axisMax := cfg.calCenterPoint, axisTrim := cfg.calCenterPoint, deadband := 0 }
          else self.rgAxisInfo j
        rgFunctionAxisMapping := fun f =>
          if f = maxFunction then self.rgFunctionAxisMapping f else cfg.axisNoAxis } := by
  unfold resetInternalCalibrationValues
  simp only []
  rw [forLoop_mapAxisInfo self.axisCount (fun _ _ =>
      { function := maxFunction, reversed := false, axisMin := cfg.calCenterPoint,
        axisMax := cfg.calCenterPoint, axisTrim := cfg.calCenterPoint, deadband := 0 }) self,
    forFunctions_eq]
  simp only [clearMapping_eq]

/-- `_resetInternalCalibrationValues` keeps the axis count. -/
theorem resetInternalCalibrationValues_axisCount (cfg : Config)
    (self : JoystickConfigController) :
    (resetInternalCalibrationValues cfg self).axisCount = self.axisCount := by
  rw [resetInternalCalibrationValues_eq]

/-- `_startCalibration` always enters step 0. -/
theorem startCalibration_spec (cfg : Config) (self : JoystickConfigController) :
    ∃ s, startCalibration cfg self = some s ∧ s.currentStep = 0 ∧
      s.axisCount = self.axisCount ∧
      s.rgAxisInfo = (resetInternalCalibrationValues cfg
        { self with activeJoystick := self.activeJoystick.setCalibrationMode true }).rgAxisInfo ∧
      s.rgFunctionAxisMapping = (resetInternalCalibrationValues cfg
        { self with activeJoystick :=
            self.activeJoystick.setCalibrationMode true }).rgFunctionAxisMapping := by
  unfold startCalibration
  obtain ⟨s, hs, hstep, hinfo, hmap, hcount, -⟩ := setupCurrentState_spec cfg
    { resetInternalCalibrationValues cfg
        { self with activeJoystick := self.activeJoystick.setCalibrationMode true } with
      currentStep := 0 }
    (by show (0 : Int) ≤ 0; omega) (by show (0 : Int) < 11; omega)
  refine ⟨s, hs, hstep, ?_, hinfo, hmap⟩
  rw [hcount]
  exact resetInternalCalibrationValues_axisCount cfg _

/-- C13: in an idle state (step = -1) `nextButtonClicked` starts the
calibration, the step becoming 0, if and only if the axis count is at least
the configured minimum; with fewer axes the whole controller state is
returned unchanged and the step stays -1. -/
theorem nextButtonClicked_idle (cfg : Config) (self : JoystickConfigController)
    (hidle : self.currentStep = -1) :
    (cfg.axisMinimum ≤ self.axisCount →
      ∃ s, nextButtonClicked cfg self = some s ∧ s.currentStep = 0) ∧
    (self.axisCount < cfg.axisMinimum → nextButtonClicked cfg self = some self) ∧
    (∀ s, nextButtonClicked cfg self = some s →
      (s.currentStep = 0 ↔ cfg.axisMinimum ≤ self.axisCount)) := by
  have hge : cfg.axisMinimum ≤ self.axisCount →
      ∃ s, nextButtonClicked cfg self = some s ∧ s.currentStep = 0 := by
    intro h
    obtain ⟨s, hs, hstep, -⟩ := startCalibration_spec cfg self
    refine ⟨s, ?_, hstep⟩
    unfold nextButtonClicked
    rw [if_pos hidle, if_neg (by omega)]
    exact hs
  have hlt : self.axisCount < cfg.axisMinimum → nextButtonClicked cfg self = some self := by
    intro h
    unfold nextButtonClicked
    rw [if_pos hidle, if_pos h]
  refine ⟨hge, hlt, ?_⟩
  intro s hs
  by_cases h : cfg.axisMinimum ≤ self.axisCount
  · obtain ⟨s1, hs1, hstep⟩ := hge h
    rw [hs] at hs1
    cases hs1
    exact ⟨fun _ => h, fun _ => hstep⟩
  · have hs2 := hlt (by omega)
    rw [hs] at hs2
    cases hs2
    constructor
    · intro h0; rw [hidle] at h0; omega
    · intro h1; exact absurd h1 h

/-- Witness for C13: with the minimum of four axes, the idle controller with
four axes starts the calibration and the one with three axes is left as it
was. -/
theorem nextButtonClicked_idle_witness :
    (sampleController 4).currentStep = -1 ∧
    sampleConfig.axisMinimum ≤ (sampleController 4).axisCount ∧
    (∃ s, nextButtonClicked sampleConfig (sampleController 4) = some s ∧ s.currentStep = 0) ∧
    (sampleController 3).currentStep = -1 ∧
    (sampleController 3).axisCount < sampleConfig.axisMinimum ∧
    nextButtonClicked sampleConfig (sampleController 3) = some (sampleController 3) :=
  ⟨rfl, by decide,
    (nextButtonClicked_idle sampleConfig (sampleController 4) rfl).1 (by decide),
    rfl, by decide,
    (nextButtonClicked_idle sampleConfig (sampleController 3) rfl).2.1 (by decide)⟩

/-- C16: each of the reversed queries for roll, pitch, yaw and throttle
returns false when the function is unassigned in the mapping, and otherwise
the reversed flag of the axis the function is mapped to. -/
theorem axisReversed_queries (cfg : Config) (self : JoystickConfigController) :
    (self.rgFunctionAxisMapping rollFunction = cfg.axisNoAxis →
      rollAxisReversed cfg self = false) ∧
    (self.rgFunctionAxisMapping rollFunction ≠ cfg.axisNoAxis →
      rollAxisReversed cfg self
        = (self.rgAxisInfo (self.rgFunctionAxisMapping rollFunction)).reversed) ∧
    (self.rgFunctionAxisMapping pitchFunction = cfg.axisNoAxis →
      pitchAxisReversed cfg self = false) ∧
    (self.rgFunctionAxisMapping pitchFunction ≠ cfg.axisNoAxis →
      pitchAxisReversed cfg self
        = (self.rgAxisInfo (self.rgFunctionAxisMapping pitchFunction)).reversed) ∧
    (self.rgFunctionAxisMapping yawFunction = cfg.axisNoAxis →
      yawAxisReversed cfg self = false) ∧
    (self.rgFunctionAxisMapping yawFunction ≠ cfg.axisNoAxis →
      yawAxisReversed cfg self
        = (self.rgAxisInfo (self.rgFunctionAxisMapping yawFunction)).reversed) ∧
    (self.rgFunctionAxisMapping throttleFunction = cfg.axisNoAxis →
      throttleAxisReversed cfg self = false) ∧
    (self.rgFunctionAxisMapping throttleFunction ≠ cfg.axisNoAxis →
      throttleAxisReversed cfg self
        = (self.rgAxisInfo (self.rgFunctionAxisMapping throttleFunction)).reversed) := by
  unfold rollAxisReversed pitchAxisReversed yawAxisReversed throttleAxisReversed
  refine ⟨?_, ?_, ?_, ?_, ?_, ?_, ?_, ?_⟩ <;> intro h <;> simp [h]

/-- Witness for C16: in `commitController` throttle is on axis 0 (not
reversed), yaw on axis 1 (reversed), roll and pitch are unassigned. -/
theorem axisReversed_queries_witness :
    commitController.rgFunctionAxisMapping rollFunction = sampleConfig.axisNoAxis ∧
    rollAxisReversed sampleConfig commitController = false ∧
    commitController.rgFunctionAxisMapping pitchFunction = sampleConfig.axisNoAxis ∧
    pitchAxisReversed sampleConfig commitController = false ∧
    commitController.rgFunctionAxisMapping yawFunction ≠ sampleConfig.axisNoAxis ∧
    yawAxisReversed sampleConfig commitController
      = (commitController.rgAxisInfo (commitController.rgFunctionAxisMapping yawFunction)).reversed ∧
    yawAxisReversed sampleConfig commitController = true ∧
    commitController.rgFunctionAxisMapping throttleFunction ≠ sampleConfig.axisNoAxis ∧
    throttleAxisReversed sampleConfig commitController
      = (commitController.rgAxisInfo
          (commitController.rgFunctionAxisMapping throttleFunction)).reversed ∧
    throttleAxisReversed sampleConfig commitController = false :=
  ⟨by decide,
    (axisReversed_queries sampleConfig commitController).1 (by decide),
    by decide,
    (axisReversed_queries sampleConfig commitController).2.2.1 (by decide),
    by decide,
    (axisReversed_queries sampleConfig commitController).2.2.2.2.2.1 (by decide),
    by decide, by decide,
    (axisReversed_queries sampleConfig commitController).2.2.2.2.2.2.2 (by decide),
    by decide⟩

/-- C17: a sample whose axis index is negative or not below the axis count is
dropped by `_axisValueChanged`, in the idle state and at every step: the
controller state is returned as it was (raw values, AxisInfo table, mapping,
detection and settle state, axis count, step index). -/
theorem axisValueChanged_invalid_axis (cfg : Config) (now : Int)
    (self : JoystickConfigController) (axis value : Int)
    (h : axis < 0 ∨ self.axisCount ≤ axis) :
    axisValueChanged cfg now self axis value = some self := by
  have hv : self.validAxis axis = false := by
    unfold validAxis
    rcases h with h | h
    · have : ¬ (0 ≤ axis) := by omega
      simp [this]
    · have : ¬ (axis < self.axisCount) := by omega
      simp [this]
  unfold axisValueChanged
  simp [hv]

/-- Witness for C17: samples on the axes -1 and 4 of a four-axis controller,
idle and in step 2. -/
theorem axisValueChanged_invalid_axis_witness :
    ((-1 : Int) < 0 ∨ (sampleController 4).axisCount ≤ -1) ∧
    axisValueChanged sampleConfig 0 (sampleController 4) (-1) 500 = some (sampleController 4) ∧
    ((4 : Int) < 0 ∨ minController.axisCount ≤ 4) ∧
    axisValueChanged sampleConfig 0 minController 4 (-32100) = some minController :=
  ⟨Or.inl (by decide),
    axisValueChanged_invalid_axis sampleConfig 0 (sampleController 4) (-1) 500
      (Or.inl (by decide)),
    Or.inr (by decide),
    axisValueChanged_invalid_axis sampleConfig 0 minController 4 (-32100) (Or.inr (by decide))⟩

/-- The table row of step 0. -/
theorem getStateMachineEntry_zero (self : JoystickConfigController) :
    self.getStateMachineEntry 0 =
      some ⟨maxFunction, msgBegin, self.sticksCentered, some .inputCenterWaitBegin,
        some .saveAllTrims, none, 0⟩ := rfl

/-- `_saveAllTrims` in a step that is not the last: every axis below the axis
count takes its raw value as trim, nothing else in the AxisInfo table and
nothing in the mapping changes, and the step index grows by one. -/
theorem saveAllTrims_spec (cfg : Config) (self : JoystickConfigController)
    (h0 : 0 ≤ self.currentStep + 1) (h1 : self.currentStep + 1 < 11) :
    ∃ s, saveAllTrims cfg self = some s ∧
      s.currentStep = self.currentStep + 1 ∧
      s.rgAxisInfo = (fun j =>
        if 0 ≤ j ∧ j < self.axisCount then
          { self.rgAxisInfo j with axisTrim := self.axisRawValue j }
        else self.rgAxisInfo j) ∧
      s.rgFunctionAxisMapping = self.rgFunctionAxisMapping ∧
      s.axisCount = self.axisCount ∧
      s.axisRawValue = self.axisRawValue ∧
      s.activeJoystick = self.activeJoystick := by
  have hframe := forLoop_inv
    (fun st : JoystickConfigController => st = { self with rgAxisInfo := st.rgAxisInfo })
    self.axisCount
    (fun i st =>
      { st with rgAxisInfo :=
          Function.update st.rgAxisInfo i { st.rgAxisInfo i with axisTrim := st.axisRawValue i } })
    self rfl (fun i st hst => by rw [hst])
  have htable : (forLoop self.axisCount
      (fun i st =>
        { st with rgAxisInfo :=
            Function.update st.rgAxisInfo i { st.rgAxisInfo i with axisTrim := st.axisRawValue i } })
      self).rgAxisInfo = fun j =>
        if 0 ≤ j ∧ j < self.axisCount then
          { self.rgAxisInfo j with axisTrim := self.axisRawValue j }
        else self.rgAxisInfo j := by
    funext j
    exact forLoop_update (fun st : JoystickConfigController => st.rgAxisInfo)
      (fun st i => { st.rgAxisInfo i with axisTrim := st.axisRawValue i }) _ _ _
      (fun _ _ => rfl)
      (fun i st k hik => by
        show ({ Function.update st.rgAxisInfo i _ k with axisTrim := st.axisRawValue k } : AxisInfo)
          = _
        rw [Function.update_noteq (Ne.symm hik)]) j
  simp only [] at hframe
  unfold saveAllTrims
  simp only []
  rw [hframe, htable]
  obtain ⟨s, hs, hstep, hinfo, hmap, hcount, hraw, hjoy, -⟩ := advanceState_spec cfg
    { self with rgAxisInfo := fun j =>
        if 0 ≤ j ∧ j < self.axisCount then
          { self.rgAxisInfo j with axisTrim := self.axisRawValue j }
        else self.rgAxisInfo j } h0 h1
  exact ⟨s, hs, hstep, hinfo, hmap, hcount, hraw, hjoy⟩

/-- C18: at step 0 the Next action runs `_saveAllTrims`: for every axis index
below the axis count the trim becomes the last observed raw value of the axis,
while function, reversed, axisMin, axisMax and deadband of every axis and the
function-to-axis mapping are unchanged (no axis is classified), and the step
index becomes 1. -/
theorem nextButtonClicked_step_zero (cfg : Config) (self : JoystickConfigController)
    (hstep : self.currentStep = 0) :
    ∃ s, nextButtonClicked cfg self = some s ∧
      saveAllTrims cfg self = some s ∧
      (∀ i : Int, 0 ≤ i → i < self.axisCount →
        s.rgAxisInfo i = { self.rgAxisInfo i with axisTrim := self.axisRawValue i }) ∧
      (∀ i : Int, ¬ (0 ≤ i ∧ i < self.axisCount) → s.rgAxisInfo i = self.rgAxisInfo i) ∧
      s.rgFunctionAxisMapping = self.rgFunctionAxisMapping ∧
      s.currentStep = 1 := by
  obtain ⟨s, hs, hcs, hinfo, hmap, -⟩ := saveAllTrims_spec cfg self
    (by rw [hstep]; omega) (by rw [hstep]; omega)
  refine ⟨s, ?_, hs, ?_, ?_, hmap, ?_⟩
  · unfold nextButtonClicked
    have hne : ¬ self.currentStep = -1 := by rw [hstep]; omega
    rw [if_neg hne, hstep, getStateMachineEntry_zero]
    exact hs
  · intro i hi0 hi1
    rw [hinfo]
    simp only [hi0, hi1, and_self, if_true]
  · intro i hi
    rw [hinfo]
    simp only [hi, if_false]
  · rw [hcs, hstep]; rfl

/-- Witness for C18: in `centerController` the Next action gives the four axes
the trims 5, -3, 7 and 0 and leads to step 1. -/
theorem nextButtonClicked_step_zero_witness :
    centerController.currentStep = 0 ∧
    ∃ s, nextButtonClicked sampleConfig centerController = some s ∧
      saveAllTrims sampleConfig centerController = some s ∧
      (∀ i : Int, 0 ≤ i → i < centerController.axisCount →
        s.rgAxisInfo i
          = { centerController.rgAxisInfo i with axisTrim := centerController.axisRawValue i }) ∧
      (∀ i : Int, ¬ (0 ≤ i ∧ i < centerController.axisCount) →
        s.rgAxisInfo i = centerController.rgAxisInfo i) ∧
      s.rgFunctionAxisMapping = centerController.rgFunctionAxisMapping ∧
      s.currentStep = 1 :=
  ⟨rfl, nextButtonClicked_step_zero sampleConfig centerController rfl⟩

/-! ### Reload from the store -/

/-- The function loop of the reload over any list of functions: the axis
count and everything but the AxisInfo table and the mapping are kept; an
entry of the table changes in its function only. -/
theorem loadFunctionAxis_foldl (j : Joystick) (fs : List AxisFunction_t) :
    ∀ st : JoystickConfigController,
      fs.foldl (fun st f => loadFunctionAxis j f st) st =
        { st with
          rgAxisInfo := fun a =>
            { st.rgAxisInfo a with
              function := fs.foldl
                (fun acc f =>
                  if (0 ≤ j.getFunctionAxis f ∧ j.getFunctionAxis f < st.axisCount)
                      ∧ j.getFunctionAxis f = a then f else acc)
                (st.rgAxisInfo a).function }
          rgFunctionAxisMapping := fun f =>
            if f ∈ fs ∧ (0 ≤ j.getFunctionAxis f ∧ j.getFunctionAxis f < st.axisCount) then
              j.getFunctionAxis f
            else st.rgFunctionAxisMapping f } := by
  induction fs with
  | nil => intro st; simp
  | cons f rest ih =>
    intro st
    rw [List.foldl_cons, ih]
    unfold loadFunctionAxis
    by_cases hv : 0 ≤ j.getFunctionAxis f ∧ j.getFunctionAxis f < st.axisCount
    · simp only [hv, and_self, if_true, true_and, List.foldl_cons, List.mem_cons, and_true]
      congr 1
      · funext a
        by_cases ha : j.getFunctionAxis f = a
        · subst ha
          simp [Function.update_same]
        · have ha' : a ≠ j.getFunctionAxis f := fun h => ha h.symm
          simp [Function.update_noteq ha', ha]
      · funext g
        by_cases hg : g = f
        · subst hg
          by_cases hm : g ∈ rest
          · simp [hm, hv]
          · simp [hm, hv, Function.update_same]
        · simp [hg, Function.update_noteq hg]
    · simp only [hv, if_false, false_and, List.foldl_cons, List.mem_cons]
      congr 1
      funext g
      by_cases hg : g = f
      · subst hg
        simp [hv]
      · simp [hg]

/-- `_setInternalCalibrationValuesFromSettings` in closed form: the AxisInfo
table becomes `loadedAxisInfo`, the mapping `loadedMapping`, the transmitter
mode the stored one; nothing else changes, the store least of all. -/
theorem setInternalCalibrationValuesFromSettings_eq (cfg : Config)
    (self : JoystickConfigController) :
    setInternalCalibrationValuesFromSettings cfg self =
      { self with
        rgAxisInfo := loadedAxisInfo self
        rgFunctionAxisMapping := loadedMapping cfg self
        transmitterMode := self.activeJoystick.getTXMode } := by
  unfold setInternalCalibrationValuesFromSettings
  simp only []
  rw [forLoop_mapAxisInfo self.axisCount (fun _ info => { info with function := maxFunction }) self,
    forFunctions_clearMapping]
  simp only []
  rw [forLoop_mapAxisInfo self.axisCount (fun axis info =>
      { info with
        axisTrim := (self.activeJoystick.getCalibration axis).center
        axisMin := (self.activeJoystick.getCalibration axis).min
        axisMax := (self.activeJoystick.getCalibration axis).max
        reversed := (self.activeJoystick.getCalibration axis).reversed
        deadband := (self.activeJoystick.getCalibration axis).deadband })]
  unfold forFunctions
  rw [loadFunctionAxis_foldl]
  simp only []
  congr 1
  · funext a
    unfold loadedAxisInfo loadedFunction
    by_cases ha : 0 ≤ a ∧ a < self.axisCount
    · have hfun : (fun (acc : AxisFunction_t) (f : AxisFunction_t) =>
          if (0 ≤ self.activeJoystick.getFunctionAxis f
              ∧ self.activeJoystick.getFunctionAxis f < self.axisCount)
              ∧ self.activeJoystick.getFunctionAxis f = a then f else acc)
          = fun acc f => if self.activeJoystick.getFunctionAxis f = a then f else acc := by
        funext acc f
        by_cases hf : self.activeJoystick.getFunctionAxis f = a
        · have : 0 ≤ self.activeJoystick.getFunctionAxis f
              ∧ self.activeJoystick.getFunctionAxis f < self.axisCount := by rw [hf]; exact ha
          simp [hf, ha]
        · simp [hf]
      simp only [ha, and_self, if_true, hfun]
    · have hfun : (fun (acc : AxisFunction_t) (f : AxisFunction_t) =>
          if (0 ≤ self.activeJoystick.getFunctionAxis f
              ∧ self.activeJoystick.getFunctionAxis f < self.axisCount)
              ∧ self.activeJoystick.getFunctionAxis f = a then f else acc)
          = fun acc _ => acc := by
        funext acc f
        by_cases hf : self.activeJoystick.getFunctionAxis f = a
        · have : ¬ (0 ≤ self.activeJoystick.getFunctionAxis f
              ∧ self.activeJoystick.getFunctionAxis f < self.axisCount) := by rw [hf]; exact ha
          simp [this]
        · simp [hf]
      simp only [ha, if_false, hfun]
      rfl
  · funext f
    unfold loadedMapping
    cases f <;> simp [allFunctions]

/-- `_stopCalibration` in closed form. -/
theorem stopCalibration_eq (cfg : Config) (self : JoystickConfigController) :
    stopCalibration cfg self =
      { self with
        currentStep := -1
        activeJoystick := self.activeJoystick.setCalibrationMode false
        rgAxisInfo := loadedAxisInfo self
        rgFunctionAxisMapping := loadedMapping cfg self
        transmitterMode := self.activeJoystick.getTXMode
        statusText := ""
        currentStickPositions := self.sticksCentered } := by
  unfold stopCalibration
  simp only []
  rw [setInternalCalibrationValuesFromSettings_eq]
  rfl

/-- C12: at any step index (idle, 0, an intermediate step or the last step)
`cancelButtonClicked` leaves the step index at -1, the AxisInfo table and the
function-to-axis mapping equal to what loading from the persisted store
yields, and the persisted store (per-axis calibrations, function-axis
assignments, transmitter mode) unchanged. -/
theorem cancelButtonClicked_spec (cfg : Config) (self : JoystickConfigController) :
    (cancelButtonClicked cfg self).currentStep = -1 ∧
    (cancelButtonClicked cfg self).rgAxisInfo
      = (setInternalCalibrationValuesFromSettings cfg self).rgAxisInfo ∧
    (cancelButtonClicked cfg self).rgFunctionAxisMapping
      = (setInternalCalibrationValuesFromSettings cfg self).rgFunctionAxisMapping ∧
    (cancelButtonClicked cfg self).rgAxisInfo = loadedAxisInfo self ∧
    (cancelButtonClicked cfg self).rgFunctionAxisMapping = loadedMapping cfg self ∧
    (cancelButtonClicked cfg self).activeJoystick.calibration
      = self.activeJoystick.calibration ∧
    (cancelButtonClicked cfg self).activeJoystick.functionAxis
      = self.activeJoystick.functionAxis ∧
    (cancelButtonClicked cfg self).activeJoystick.txMode = self.activeJoystick.txMode := by
  unfold cancelButtonClicked
  rw [stopCalibration_eq, setInternalCalibrationValuesFromSettings_eq]
  exact ⟨rfl, rfl, rfl, rfl, rfl, rfl, rfl, rfl⟩

/-- `_setStickPositions` succeeds for the four transmitter modes and touches
the stick diagrams only. -/
theorem setStickPositions_spec (self : JoystickConfigController)
    (h1 : 1 ≤ self.transmitterMode) (h4 : self.transmitterMode ≤ 4) :
    ∃ s, setStickPositions self = some s ∧
      s.activeJoystick = self.activeJoystick ∧
      s.currentStep = self.currentStep ∧
      s.axisCount = self.axisCount ∧
      s.rgAxisInfo = self.rgAxisInfo ∧
      s.rgFunctionAxisMapping = self.rgFunctionAxisMapping ∧
      s.transmitterMode = self.transmitterMode := by
  unfold setStickPositions
  simp only []
  by_cases m1 : self.transmitterMode = 1
  · rw [if_pos m1]; exact ⟨_, rfl, rfl, rfl, rfl, rfl, rfl, rfl⟩
  · rw [if_neg m1]
    by_cases m2 : self.transmitterMode = 2
    · rw [if_pos m2]; exact ⟨_, rfl, rfl, rfl, rfl, rfl, rfl, rfl⟩
    · rw [if_neg m2]
      by_cases m3 : self.transmitterMode = 3
      · rw [if_pos m3]; exact ⟨_, rfl, rfl, rfl, rfl, rfl, rfl, rfl⟩
      · rw [if_neg m3]
        have m4 : self.transmitterMode = 4 := by omega
        rw [if_pos m4]; exact ⟨_, rfl, rfl, rfl, rfl, rfl, rfl, rfl⟩

/-- C15: `setTransmitterMode(mode)` returns the controller unchanged
(in-memory state, stick-position layout and persisted transmitter mode)
whenever a calibration is in progress (step != -1) or `mode` is outside
`{1, 2, 3, 4}`; when idle with `mode` in `{1, 2, 3, 4}` the current
transmitter mode becomes `mode` and `mode` is written to the store, whose
calibrations and function assignments are not touched. -/
theorem setTransmitterMode_spec (cfg : Config) (self : JoystickConfigController) (mode : Int) :
    (self.currentStep ≠ -1 ∨ mode < 1 ∨ 4 < mode →
      setTransmitterMode cfg self mode = some self) ∧
    (self.currentStep = -1 → 1 ≤ mode → mode ≤ 4 →
      ∃ s, setTransmitterMode cfg self mode = some s ∧
        s.transmitterMode = mode ∧
        s.activeJoystick.getTXMode = mode ∧
        s.currentStep = -1 ∧
        s.activeJoystick.calibration = self.activeJoystick.calibration ∧
        s.activeJoystick.functionAxis = self.activeJoystick.functionAxis) := by
  refine ⟨?_, ?_⟩
  · intro h
    unfold setTransmitterMode
    have hc : ¬ (mode > 0 ∧ mode ≤ 4 ∧ self.currentStep = -1) := by
      rintro ⟨h0, h4, hs⟩
      rcases h with h | h | h
      · exact h hs
      · omega
      · omega
    rw [if_neg hc]
  · intro hs h1 h4
    obtain ⟨s1, hs1, hjoy, hstep, -⟩ := setStickPositions_spec
      { self with transmitterMode := mode } h1 h4
    unfold setTransmitterMode
    have hc : mode > 0 ∧ mode ≤ 4 ∧ self.currentStep = -1 := ⟨by omega, h4, hs⟩
    rw [if_pos hc]
    simp only [hs1]
    rw [setInternalCalibrationValuesFromSettings_eq]
    refine ⟨_, rfl, rfl, rfl, ?_, ?_, ?_⟩
    · show s1.currentStep = -1
      rw [hstep]; exact hs
    · show (s1.activeJoystick.setTXMode mode).calibration = _
      rw [hjoy]; rfl
    · show (s1.activeJoystick.setTXMode mode).functionAxis = _
      rw [hjoy]; rfl

/-- Witness for C15: mode 3 is taken by the idle `sampleController 4` and
refused by `minController` (step 2); mode 5 is refused when idle. -/
theorem setTransmitterMode_spec_witness :
    (minController.currentStep ≠ -1 ∨ (3 : Int) < 1 ∨ (4 : Int) < 3) ∧
    setTransmitterMode sampleConfig minController 3 = some minController ∧
    ((sampleController 4).currentStep ≠ -1 ∨ (5 : Int) < 1 ∨ (4 : Int) < 5) ∧
    setTransmitterMode sampleConfig (sampleController 4) 5 = some (sampleController 4) ∧
    (sampleController 4).currentStep = -1 ∧ (1 : Int) ≤ 3 ∧ (3 : Int) ≤ 4 ∧
    ∃ s, setTransmitterMode sampleConfig (sampleController 4) 3 = some s ∧
      s.transmitterMode = 3 ∧
      s.activeJoystick.getTXMode = 3 ∧
      s.currentStep = -1 ∧
      s.activeJoystick.calibration = (sampleController 4).activeJoystick.calibration ∧
      s.activeJoystick.functionAxis = (sampleController 4).activeJoystick.functionAxis :=
  ⟨Or.inl (by decide),
    (setTransmitterMode_spec sampleConfig minController 3).1 (Or.inl (by decide)),
    Or.inr (Or.inr (by decide)),
    (setTransmitterMode_spec sampleConfig (sampleController 4) 5).1
      (Or.inr (Or.inr (by decide))),
    rfl, by decide, by decide,
    (setTransmitterMode_spec sampleConfig (sampleController 4) 3).2 rfl (by decide) (by decide)⟩

/-! ### The invariant of a calibration session -/

theorem SameCore.refl (s : JoystickConfigController) : SameCore s s :=
  ⟨rfl, rfl, fun _ => rfl⟩

theorem SameCore.trans {s1 s2 s3 : JoystickConfigController}
    (h12 : SameCore s1 s2) (h23 : SameCore s2 s3) : SameCore s1 s3 :=
  ⟨h23.1.trans h12.1, h23.2.1.trans h12.2.1, fun a => (h23.2.2 a).trans (h12.2.2 a)⟩

/-- The invariant only looks at the step, the axis count, the mapping and the
functions of the axes; it survives a step forward inside the table. -/
theorem Consistent.of_sameCore {cfg : Config} {s s' : JoystickConfigController}
    (h : Consistent cfg s) (hc : SameCore s s')
    (hstep : s.currentStep ≤ s'.currentStep) (hhi : s'.currentStep ≤ 10) :
    Consistent cfg s' := by
  obtain ⟨hcount, hmap, hfun⟩ := hc
  refine ⟨le_trans h.stepLo hstep, hhi, ?_, ?_⟩
  · intro a f ha0 ha1 hf
    rw [hfun a, hmap]
    exact h.inverse a f ha0 (by rw [← hcount]; exact ha1) hf
  · intro f hf hne
    rw [hmap] at hne ⊢
    rw [hcount]
    obtain ⟨hr, hd⟩ := h.mapped f hf hne
    exact ⟨hr, lt_of_lt_of_le hd hstep⟩

/-- When `_advanceState` returns, the new step is in the table and only the
step bookkeeping has changed. -/
theorem advanceState_some (cfg : Config) (s s' : JoystickConfigController)
    (h : advanceState cfg s = some s') :
    s'.currentStep = s.currentStep + 1 ∧ 0 ≤ s'.currentStep ∧ s'.currentStep ≤ 10 ∧
    s'.rgAxisInfo = s.rgAxisInfo ∧
    s'.rgFunctionAxisMapping = s.rgFunctionAxisMapping ∧
    s'.axisCount = s.axisCount ∧
    s'.axisRawValue = s.axisRawValue ∧
    s'.activeJoystick = s.activeJoystick := by
  by_cases hr : 0 ≤ s.currentStep + 1 ∧ s.currentStep + 1 < 11
  · obtain ⟨t, ht, hstep, hinfo, hmap, hcount, hraw, hjoy, -⟩ :=
      advanceState_spec cfg s hr.1 hr.2
    rw [h] at ht
    cases ht
    exact ⟨hstep, by omega, by omega, hinfo, hmap, hcount, hraw, hjoy⟩
  · exfalso
    unfold advanceState setupCurrentState getStateMachineEntry at h
    have hr' : ¬ (0 ≤ s.currentStep + 1 ∧
        s.currentStep + 1 < ((rgStateMachine { s with currentStep := s.currentStep + 1 }).length : Int)) := by
      rw [rgStateMachine_length]
      exact hr
    simp only [hr', if_false] at h
    cases h

/-- The settle detector touches its reference and its timer only. -/
theorem stickSettleComplete_core (cfg : Config) (now : Int) (s : JoystickConfigController)
    (axis value : Int) :
    (stickSettleComplete cfg now s axis value).2.axisCount = s.axisCount ∧
    (stickSettleComplete cfg now s axis value).2.rgFunctionAxisMapping = s.rgFunctionAxisMapping ∧
    (stickSettleComplete cfg now s axis value).2.rgAxisInfo = s.rgAxisInfo ∧
    (stickSettleComplete cfg now s axis value).2.currentStep = s.currentStep ∧
    (stickSettleComplete cfg now s axis value).2.axisValueSave = s.axisValueSave ∧
    (stickSettleComplete cfg now s axis value).2.axisRawValue = s.axisRawValue ∧
    (stickSettleComplete cfg now s axis value).2.activeJoystick = s.activeJoystick := by
  unfold stickSettleComplete
  split_ifs <;> exact ⟨rfl, rfl, rfl, rfl, rfl, rfl, rfl⟩

/-- `_inputCenterWaitBegin` changes at most the deadband of the sampled axis. -/
theorem inputCenterWaitBegin_frame (cfg : Config) (s : JoystickConfigController)
    (f : AxisFunction_t) (axis value : Int) :
    inputCenterWaitBegin cfg s f axis value =
        { s with rgAxisInfo := (inputCenterWaitBegin cfg s f axis value).rgAxisInfo } ∧
    (∀ i : Int, (inputCenterWaitBegin cfg s f axis value).rgAxisInfo i =
      { s.rgAxisInfo i with
        deadband := ((inputCenterWaitBegin cfg s f axis value).rgAxisInfo i).deadband }) ∧
    (∀ i : Int, i ≠ axis →
      (inputCenterWaitBegin cfg s f axis value).rgAxisInfo i = s.rgAxisInfo i) := by
  unfold inputCenterWaitBegin
  by_cases hc : (absTimes1_1f value : Int) > intToFloat (s.rgAxisInfo axis).deadband * 2 ^ 23
      ∧ s.activeJoystick.deadband = true
  · rw [if_pos hc]
    unfold axisDeadbandChanged
    refine ⟨rfl, ?_, ?_⟩
    · intro i
      by_cases hi : i = axis
      · subst hi; simp [Function.update_same]
      · simp [Function.update_noteq hi]
    · intro i hi
      simp [Function.update_noteq hi]
  · rw [if_neg hc]
    exact ⟨rfl, fun _ => rfl, fun _ _ => rfl⟩

theorem inputCenterWaitBegin_core (cfg : Config) (s : JoystickConfigController)
    (f : AxisFunction_t) (axis value : Int) :
    SameCore s (inputCenterWaitBegin cfg s f axis value) ∧
    (inputCenterWaitBegin cfg s f axis value).currentStep = s.currentStep := by
  obtain ⟨h1, h2, -⟩ := inputCenterWaitBegin_frame cfg s f axis value
  refine ⟨⟨?_, ?_, ?_⟩, ?_⟩
  · rw [h1]
  · rw [h1]
  · intro a; rw [h2 a]
  · rw [h1]

/-- `_inputStickMin` keeps the mapping and the function of every axis; the
step stays or moves one row forward inside the table. -/
theorem inputStickMin_core (cfg : Config) (now : Int) (s s' : JoystickConfigController)
    (f : AxisFunction_t) (axis value : Int)
    (h : inputStickMin cfg now s f axis value = some s') :
    SameCore s s' ∧
    (s'.currentStep = s.currentStep ∨
      (s'.currentStep = s.currentStep + 1 ∧ s'.currentStep ≤ 10)) := by
  unfold inputStickMin at h
  obtain ⟨hc1, hc2, hc3, hc4, -⟩ := stickSettleComplete_core cfg now s axis value
  split_ifs at h <;> try (cases h; exact ⟨SameCore.refl _, Or.inl rfl⟩)
  all_goals
    rcases hsc : stickSettleComplete cfg now s axis value with ⟨b, s1⟩
    rw [hsc] at h hc1 hc2 hc3 hc4
    simp only [] at hc1 hc2 hc3 hc4
    cases b
    · simp only [] at h
      cases h
      exact ⟨⟨hc1, hc2, fun a => by rw [hc3]⟩, Or.inl hc4⟩
    · simp only [] at h
      split_ifs at h
      all_goals
        obtain ⟨hstep, -, hhi, hinfo, hmap, hcount, -⟩ := advanceState_some cfg _ _ h
        refine ⟨⟨?_, ?_, ?_⟩, Or.inr ⟨?_, hhi⟩⟩
        · rw [hcount]; exact hc1
        · rw [hmap]; exact hc2
        · intro a
          rw [hinfo]
          show (Function.update s1.rgAxisInfo axis _ a).function = _
          by_cases ha : a = axis
          · subst ha; simp [Function.update_same, hc3]
          · simp [Function.update_noteq ha, hc3]
        · rw [hstep]; show s1.currentStep + 1 = _; rw [hc4]

/-- `_inputCenterWait` keeps the mapping and the whole AxisInfo table; the
step stays or moves one row forward inside the table. -/
theorem inputCenterWait_core (cfg : Config) (now : Int) (s s' : JoystickConfigController)
    (f : AxisFunction_t) (axis value : Int)
    (h : inputCenterWait cfg now s f axis value = some s') :
    SameCore s s' ∧
    (s'.currentStep = s.currentStep ∨
      (s'.currentStep = s.currentStep + 1 ∧ s'.currentStep ≤ 10)) := by
  unfold inputCenterWait at h
  obtain ⟨hc1, hc2, hc3, hc4, -⟩ := stickSettleComplete_core cfg now s axis value
  simp only [] at h
  split_ifs at h <;> try (cases h; exact ⟨SameCore.refl _, Or.inl rfl⟩)
  all_goals
    rcases hsc : stickSettleComplete cfg now s axis value with ⟨b, s1⟩
    rw [hsc] at h hc1 hc2 hc3 hc4
    simp only [] at hc1 hc2 hc3 hc4
    cases b
    · simp only [] at h
      cases h
      exact ⟨⟨hc1, hc2, fun a => by rw [hc3]⟩, Or.inl hc4⟩
    · simp only [] at h
      obtain ⟨hstep, -, hhi, hinfo, hmap, hcount, -⟩ := advanceState_some cfg _ _ h
      refine ⟨⟨?_, ?_, ?_⟩, Or.inr ⟨?_, hhi⟩⟩
      · rw [hcount]; exact hc1
      · rw [hmap]; exact hc2
      · intro a; rw [hinfo, hc3]
      · rw [hstep, hc4]

/-- `_inputStickDetect` either keeps the mapping and the function of every
axis and stays in its step, or maps the function to the sampled axis, which
was a valid unassigned axis, and moves one row forward inside the table. -/
theorem inputStickDetect_core (cfg : Config) (now : Int) (s s' : JoystickConfigController)
    (f : AxisFunction_t) (axis value : Int)
    (h : inputStickDetect cfg now s f axis value = some s') :
    (SameCore s s' ∧ s'.currentStep = s.currentStep) ∨
    (s.validAxis axis = true ∧ (s.rgAxisInfo axis).function = maxFunction ∧
      s'.axisCount = s.axisCount ∧
      s'.rgFunctionAxisMapping = Function.update s.rgFunctionAxisMapping f axis ∧
      (∀ a : Int, (s'.rgAxisInfo a).function
        = if a = axis then f else (s.rgAxisInfo a).function) ∧
      s'.currentStep = s.currentStep + 1 ∧ s'.currentStep ≤ 10) := by
  unfold inputStickDetect at h
  obtain ⟨hc1, hc2, hc3, hc4, -⟩ := stickSettleComplete_core cfg now s axis value
  by_cases hv : s.validAxis axis = true
  swap
  · simp only [hv, Bool.not_false, if_true] at h
    cases h; exact Or.inl ⟨SameCore.refl _, rfl⟩
  simp only [hv, Bool.not_true, Bool.false_eq_true, if_false] at h
  by_cases hun : (s.rgAxisInfo axis).function = maxFunction
  swap
  · simp only [ne_eq, hun, not_false_eq_true, if_true] at h
    cases h; exact Or.inl ⟨SameCore.refl _, rfl⟩
  simp only [ne_eq, hun, not_true_eq_false, if_false] at h
  split_ifs at h <;> try (cases h; exact Or.inl ⟨SameCore.refl _, rfl⟩)
  rcases hsc : stickSettleComplete cfg now s axis value with ⟨b, s1⟩
  rw [hsc] at h hc1 hc2 hc3 hc4
  simp only [] at hc1 hc2 hc3 hc4
  cases b
  · simp only [] at h
    cases h
    exact Or.inl ⟨⟨hc1, hc2, fun a => by rw [hc3]⟩, hc4⟩
  · simp only [] at h
    right
    split_ifs at h
    all_goals
      obtain ⟨hstep, -, hhi, hinfo, hmap, hcount, -⟩ := advanceState_some cfg _ _ h
      refine ⟨hv, hun, ?_, ?_, ?_, ?_, hhi⟩
      · rw [hcount]; exact hc1
      · rw [hmap]; show Function.update s1.rgFunctionAxisMapping f axis = _; rw [hc2]
      · intro a
        rw [hinfo]
        by_cases ha : a = axis
        · subst ha; simp [Function.update_same]
        · simp [Function.update_noteq ha, ha, hc3]
      · rw [hstep]; show s1.currentStep + 1 = _; rw [hc4]

/-- A detect-axis row of the table names a function other than the sentinel,
and its index is the detect step of that function. -/
theorem getStateMachineEntry_detect (self : JoystickConfigController) (step : Int)
    (e : stateMachineEntry) (h : self.getStateMachineEntry step = some e)
    (hfn : e.rcInputFn = some inputFn.inputStickDetect) :
    detectStep e.function = step ∧ e.function ≠ maxFunction := by
  obtain ⟨h0, h1⟩ := getStateMachineEntry_rcInputFn_range self step e _ h hfn
  unfold getStateMachineEntry at h
  rw [if_pos ⟨h0, by rw [rgStateMachine_length]; omega⟩] at h
  interval_cases step <;> simp [rgStateMachine] at h <;> subst h <;> simp at hfn <;>
    exact ⟨rfl, fun hm => by cases hm⟩

/-- The invariant holds when the calibration has just been started. -/
theorem consistent_start (cfg : Config) (s0 s : JoystickConfigController)
    (hno : cfg.axisNoAxis < 0) (h : startCalibration cfg s0 = some s) : Consistent cfg s := by
  obtain ⟨t, ht, hstep, hcount, hinfo, hmap⟩ := startCalibration_spec cfg s0
  rw [h] at ht
  cases ht
  rw [resetInternalCalibrationValues_eq] at hinfo hmap
  simp only [] at hinfo hmap
  refine ⟨by omega, by omega, ?_, ?_⟩
  · intro a f ha0 ha1 hf
    rw [hinfo, hmap]
    have hr : 0 ≤ a ∧ a < s0.axisCount := ⟨ha0, by rw [← hcount]; exact ha1⟩
    simp only [hr, and_self, if_true, hf, if_false]
    constructor
    · intro hm; exact absurd hm.symm hf
    · intro hm; omega
  · intro f hf hne
    rw [hmap] at hne
    simp only [hf, if_false] at hne
    exact absurd rfl hne

/-- A detect-axis step keeps the invariant. -/
theorem consistent_inputStickDetect (cfg : Config) (now : Int)
    (s s' : JoystickConfigController) (e : stateMachineEntry) (axis value : Int)
    (hno : cfg.axisNoAxis < 0) (hcon : Consistent cfg s)
    (he : s.getStateMachineEntry s.currentStep = some e)
    (hfn : e.rcInputFn = some inputFn.inputStickDetect)
    (h : inputStickDetect cfg now s e.function axis value = some s') : Consistent cfg s' := by
  obtain ⟨hds, hfmax⟩ := getStateMachineEntry_detect s _ e he hfn
  rcases inputStickDetect_core cfg now s s' e.function axis value h with
    ⟨hcore, hstep⟩ | ⟨hv, hun, hcount, hmap, hfun, hstep, hhi⟩
  · exact hcon.of_sameCore hcore (by omega) (by rw [hstep]; exact hcon.stepHi)
  · have hvalid : 0 ≤ axis ∧ axis < s.axisCount := by
      unfold validAxis at hv
      simpa using hv
    have hunmapped : s.rgFunctionAxisMapping e.function = cfg.axisNoAxis := by
      by_contra hne
      have := (hcon.mapped e.function hfmax hne).2
      omega
    refine ⟨by have := hcon.stepLo; omega, hhi, ?_, ?_⟩
    · intro a f ha0 ha1 hf
      rw [hcount] at ha1
      rw [hfun a, hmap]
      by_cases ha : a = axis
      · subst ha
        by_cases hff : f = e.function
        · subst hff; simp
        · have h1 := hcon.inverse a f ha0 ha1 hf
          rw [hun] at h1
          have h2 : ¬ s.rgFunctionAxisMapping f = a := fun hm => hf (h1.mpr hm).symm
          have h3 : ¬ e.function = f := fun hm => hff hm.symm
          simp [Function.update_noteq hff, h2, h3]
      · by_cases hff : f = e.function
        · subst hff
          have h1 := hcon.inverse a e.function ha0 ha1 hf
          rw [hunmapped] at h1
          have h2 : ¬ (s.rgAxisInfo a).function = e.function := fun hm => by
            have := h1.mp hm
            omega
          have h3 : ¬ axis = a := fun hm => ha hm.symm
          simp [ha, h2, h3]
        · simp only [ha, if_false, Function.update_noteq hff]
          exact hcon.inverse a f ha0 ha1 hf
    · intro f hf hne
      rw [hmap] at hne ⊢
      rw [hcount]
      by_cases hff : f = e.function
      · subst hff
        rw [Function.update_same]
        exact ⟨hvalid, by omega⟩
      · rw [Function.update_noteq hff] at hne ⊢
        obtain ⟨hr, hd⟩ := hcon.mapped f hf hne
        exact ⟨hr, by omega⟩

/-- A raw sample keeps the invariant. -/
theorem consistent_axisValueChanged (cfg : Config) (now : Int)
    (s s' : JoystickConfigController) (axis value : Int)
    (hno : cfg.axisNoAxis < 0) (hcon : Consistent cfg s)
    (h : axisValueChanged cfg now s axis value = some s') : Consistent cfg s' := by
  unfold axisValueChanged at h
  by_cases hv : s.validAxis axis = true
  swap
  · simp only [hv, Bool.false_eq_true, if_false] at h
    cases h; exact hcon
  have hne : ¬ s.currentStep = -1 := by have := hcon.stepLo; omega
  simp only [hv, if_true, hne, false_and, if_false, ne_eq, not_false_eq_true] at h
  have hcon2 : Consistent cfg { s with axisRawValue := Function.update s.axisRawValue axis value } :=
    hcon.of_sameCore (SameCore.refl s) (le_refl _) hcon.stepHi
  generalize hs2 : ({ s with axisRawValue := Function.update s.axisRawValue axis value }
    : JoystickConfigController) = s2 at h hcon2
  have hstep2 : s2.currentStep = s.currentStep := by rw [← hs2]
  cases he : s2.getStateMachineEntry s.currentStep with
  | none => rw [he] at h; cases h
  | some e =>
    rw [he] at h
    simp only [] at h
    cases hfn : e.rcInputFn with
    | none => rw [hfn] at h; cases h; exact hcon2
    | some fn =>
      rw [hfn] at h
      cases fn with
      | inputCenterWaitBegin =>
        simp only [] at h
        cases h
        obtain ⟨hcore, hst⟩ := inputCenterWaitBegin_core cfg s2 e.function axis value
        exact hcon2.of_sameCore hcore (by rw [hst]) (by rw [hst]; exact hcon2.stepHi)
      | inputStickDetect =>
        simp only [] at h
        exact consistent_inputStickDetect cfg now s2 s' e axis value hno hcon2
          (by rw [hstep2]; exact he) hfn h
      | inputStickMin =>
        simp only [] at h
        obtain ⟨hcore, hst⟩ := inputStickMin_core cfg now s2 s' e.function axis value h
        rcases hst with hst | ⟨hst, hhi⟩
        · exact hcon2.of_sameCore hcore (by rw [hst]) (by rw [hst]; exact hcon2.stepHi)
        · exact hcon2.of_sameCore hcore (by omega) hhi
      | inputCenterWait =>
        simp only [] at h
        obtain ⟨hcore, hst⟩ := inputCenterWait_core cfg now s2 s' e.function axis value h
        rcases hst with hst | ⟨hst, hhi⟩
        · exact hcon2.of_sameCore hcore (by rw [hst]) (by rw [hst]; exact hcon2.stepHi)
        · exact hcon2.of_sameCore hcore (by omega) hhi

/-- When `_saveAllTrims` returns it has kept the mapping and the function of
every axis and moved one row forward inside the table. -/
theorem saveAllTrims_core (cfg : Config) (s s' : JoystickConfigController)
    (h : saveAllTrims cfg s = some s') :
    SameCore s s' ∧ s'.currentStep = s.currentStep + 1 ∧ s'.currentStep ≤ 10 := by
  have hr : 0 ≤ s.currentStep + 1 ∧ s.currentStep + 1 < 11 := by
    have h' := h
    unfold saveAllTrims at h'
    simp only [] at h'
    obtain ⟨hstep, hlo, hhi, -⟩ := advanceState_some cfg _ _ h'
    have hcs : (forLoop s.axisCount
        (fun i st =>
          { st with rgAxisInfo :=
              Function.update st.rgAxisInfo i { st.rgAxisInfo i with axisTrim := st.axisRawValue i } })
        s).currentStep = s.currentStep :=
      forLoop_proj (fun st : JoystickConfigController => st.currentStep) _ _ _ (fun _ _ => rfl)
    rw [hcs] at hstep
    omega
  obtain ⟨t, ht, hstep, hinfo, hmap, hcount, -⟩ := saveAllTrims_spec cfg s hr.1 hr.2
  rw [h] at ht
  cases ht
  refine ⟨⟨hcount, hmap, ?_⟩, hstep, by omega⟩
  intro a
  rw [hinfo]
  simp only []
  split_ifs <;> rfl

/-- A Next click before the commit keeps the invariant. -/
theorem consistent_next (cfg : Config) (s s' : JoystickConfigController)
    (hcon : Consistent cfg s) (hnc : s.atCommit = false)
    (h : nextButtonClicked cfg s = some s') : Consistent cfg s' := by
  unfold nextButtonClicked at h
  have hne : ¬ s.currentStep = -1 := by have := hcon.stepLo; omega
  rw [if_neg hne] at h
  unfold atCommit at hnc
  cases he : s.getStateMachineEntry s.currentStep with
  | none => rw [he] at h; cases h
  | some e =>
    rw [he] at h hnc
    simp only [] at h hnc
    cases hfn : e.nextFn with
    | none => rw [hfn] at h; cases h
    | some fn =>
      rw [hfn] at h hnc
      cases fn with
      | saveAllTrims =>
        simp only [] at h
        obtain ⟨hcore, hst, hhi⟩ := saveAllTrims_core cfg s s' h
        exact hcon.of_sameCore hcore (by omega) hhi
      | writeCalibration => simp at hnc

/-- The invariant holds in every state of a calibration session. -/
theorem consistent_calibrationActs (cfg : Config) (hno : cfg.axisNoAxis < 0)
    (actions : List Action) :
    ∀ s s' : JoystickConfigController, Consistent cfg s →
      calibrationActs cfg s actions = some s' → Consistent cfg s' := by
  induction actions with
  | nil =>
    intro s s' hcon h
    simp only [calibrationActs] at h
    cases h; exact hcon
  | cons a rest ih =>
    intro s s' hcon h
    simp only [calibrationActs] at h
    cases ha : calibrationAct cfg s a with
    | none => rw [ha] at h; cases h
    | some t =>
      rw [ha] at h
      simp only [] at h
      refine ih t s' ?_ h
      cases a with
      | sample now axis value =>
        exact consistent_axisValueChanged cfg now s t axis value hno hcon ha
      | next =>
        simp only [calibrationAct] at ha
        by_cases hc : s.atCommit = true
        · rw [if_pos hc] at ha; cases ha
        · rw [if_neg hc] at ha
          exact consistent_next cfg s t hcon (by simpa using hc) ha

theorem consistent_calibrationRun (cfg : Config) (hno : cfg.axisNoAxis < 0)
    (s0 s : JoystickConfigController) (actions : List Action)
    (h : calibrationRun cfg s0 actions = some s) : Consistent cfg s := by
  unfold calibrationRun at h
  cases hs : startCalibration cfg s0 with
  | none => rw [hs] at h; cases h
  | some s1 =>
    rw [hs] at h
    exact consistent_calibrationActs cfg hno actions s1 s
      (consistent_start cfg s0 s1 hno hs) h

/-- C14: in every state reachable from a start of calibration through any
sequence of axis samples and Next clicks, up to but excluding the commit, the
AxisInfo table and the function-to-axis mapping are mutual inverses: for
every axis `a` of the device and every logical function `f`,
`AxisInfo[a].function = f` if and only if `mapping[f] = a`.  The sentinel
"no axis" is a negative index. -/
theorem calibrationRun_inverse (cfg : Config) (s0 s : JoystickConfigController)
    (actions : List Action) (hno : cfg.axisNoAxis < 0)
    (h : calibrationRun cfg s0 actions = some s)
    (a : Int) (f : AxisFunction_t) (ha0 : 0 ≤ a) (ha1 : a < s.axisCount)
    (hf : f ≠ maxFunction) :
    (s.rgAxisInfo a).function = f ↔ s.rgFunctionAxisMapping f = a :=
  (consistent_calibrationRun cfg hno s0 s actions h).inverse a f ha0 ha1 hf

/-- A session that returns a state returns the state `getD` extracts. -/
theorem calibrationRun_getD (cfg : Config) (s0 d : JoystickConfigController)
    (actions : List Action) (h : (calibrationRun cfg s0 actions).isSome = true) :
    calibrationRun cfg s0 actions = some ((calibrationRun cfg s0 actions).getD d) := by
  cases hr : calibrationRun cfg s0 actions with
  | none => rw [hr] at h; cases h
  | some s => rfl

/-- Witness for C14: after `throttleSession` on a four-axis controller axis 2
carries the throttle function and the throttle mapping points at axis 2. -/
theorem calibrationRun_inverse_witness :
    sampleConfig.axisNoAxis < 0 ∧
    calibrationRun sampleConfig (sampleController 4) throttleSession
      = some throttleSessionState ∧
    (0 : Int) ≤ 2 ∧ (2 : Int) < throttleSessionState.axisCount ∧
    throttleFunction ≠ maxFunction ∧
    ((throttleSessionState.rgAxisInfo 2).function = throttleFunction ↔
      throttleSessionState.rgFunctionAxisMapping throttleFunction = 2) ∧
    (throttleSessionState.rgAxisInfo 2).function = throttleFunction ∧
    throttleSessionState.currentStep = 2 :=
  ⟨by decide,
    calibrationRun_getD sampleConfig (sampleController 4) (sampleController 4) throttleSession
      (by decide),
    by decide, by decide, by decide,
    calibrationRun_inverse sampleConfig (sampleController 4) throttleSessionState throttleSession
      (by decide)
      (calibrationRun_getD sampleConfig (sampleController 4) (sampleController 4)
        throttleSession (by decide))
      2 throttleFunction (by decide) (by decide) (by decide),
    by decide, by decide⟩

/-! ### Commit -/

/-- The loop of `_writeCalibration` over the axes, in closed form: the store
receives the record of every axis below `n`, nothing else changes. -/
theorem forLoop_setCalibration (n : Int) (s : JoystickConfigController) :
    forLoop n
        (fun axis (st : JoystickConfigController) =>
          { st with activeJoystick :=
              st.activeJoystick.setCalibration axis (calibrationOf (st.rgAxisInfo axis)) })
        s =
      { s with activeJoystick :=
          { s.activeJoystick with calibration := fun a =>
              if 0 ≤ a ∧ a < n then calibrationOf (s.rgAxisInfo a)
              else s.activeJoystick.calibration a } } := by
  have hframe := forLoop_inv
    (fun st : JoystickConfigController =>
      st = { s with activeJoystick :=
              { s.activeJoystick with calibration := st.activeJoystick.calibration } })
    n (fun axis (st : JoystickConfigController) =>
          { st with activeJoystick :=
              st.activeJoystick.setCalibration axis (calibrationOf (st.rgAxisInfo axis)) })
    s rfl (fun i st hst => by rw [hst]; rfl)
  have htable : (forLoop n
      (fun axis (st : JoystickConfigController) =>
          { st with activeJoystick :=
              st.activeJoystick.setCalibration axis (calibrationOf (st.rgAxisInfo axis)) })
      s).activeJoystick.calibration = fun a =>
        if 0 ≤ a ∧ a < n then calibrationOf (s.rgAxisInfo a)
        else s.activeJoystick.calibration a := by
    funext a
    exact forLoop_update (fun st : JoystickConfigController => st.activeJoystick.calibration)
      (fun st i => calibrationOf (st.rgAxisInfo i)) n
      (fun axis (st : JoystickConfigController) =>
          { st with activeJoystick :=
              st.activeJoystick.setCalibration axis (calibrationOf (st.rgAxisInfo axis)) })
      s (fun _ _ => rfl) (fun _ _ _ _ => rfl) a
  simp only [] at hframe
  rw [hframe, htable]

/-- The loop of `_writeCalibration` over the functions, in closed form. -/
theorem forFunctions_setFunctionAxis (s : JoystickConfigController) :
    forFunctions
        (fun function (st : JoystickConfigController) =>
          { st with activeJoystick :=
              st.activeJoystick.setFunctionAxis function (st.rgFunctionAxisMapping function) })
        s =
      { s with activeJoystick :=
          { s.activeJoystick with functionAxis := fun f =>
              if f = maxFunction then s.activeJoystick.functionAxis f
              else s.rgFunctionAxisMapping f } } := by
  rw [forFunctions_eq]
  have hfun : Function.update (Function.update (Function.update (Function.update
      (Function.update (Function.update s.activeJoystick.functionAxis
        rollFunction (s.rgFunctionAxisMapping rollFunction))
        pitchFunction (s.rgFunctionAxisMapping pitchFunction))
        yawFunction (s.rgFunctionAxisMapping yawFunction))
        throttleFunction (s.rgFunctionAxisMapping throttleFunction))
        gimbalPitchFunction (s.rgFunctionAxisMapping gimbalPitchFunction))
        gimbalYawFunction (s.rgFunctionAxisMapping gimbalYawFunction)
      = fun f => if f = maxFunction then s.activeJoystick.functionAxis f
          else s.rgFunctionAxisMapping f := by
    funext f
    cases f <;> simp [Function.update]
  simp only [Joystick.setFunctionAxis, hfun]

/-- `_writeCalibration` in closed form: the store becomes `committedStore`,
the controller is idle, and the in-memory values are those a reload from the
new store yields. -/
theorem writeCalibration_eq (cfg : Config) (s : JoystickConfigController) :
    writeCalibration cfg s =
      { s with
        currentStep := -1
        activeJoystick := committedStore cfg s
        rgAxisInfo := loadedAxisInfo
          { s with activeJoystick := committedStore cfg s
                   rgAxisInfo := (validateCalibration cfg s).rgAxisInfo }
        rgFunctionAxisMapping := loadedMapping cfg
          { s with activeJoystick := committedStore cfg s }
        transmitterMode := s.activeJoystick.txMode
        statusText := ""
        currentStickPositions := s.sticksCentered } := by
  have hstore : forLoop (validateCalibration cfg s).axisCount
      (fun axis (st : JoystickConfigController) =>
        let info := st.rgAxisInfo axis
        let calibration : Calibration_t :=
          { center := info.axisTrim
            min := info.axisMin
            max := info.axisMax
            reversed := info.reversed
            deadband := info.deadband }
        { st with activeJoystick := st.activeJoystick.setCalibration axis calibration })
      (validateCalibration cfg s)
      = _ := forLoop_setCalibration (validateCalibration cfg s).axisCount (validateCalibration cfg s)
  unfold writeCalibration
  simp only []
  rw [hstore, forFunctions_setFunctionAxis, stopCalibration_eq,
    setInternalCalibrationValuesFromSettings_eq, validateCalibration_eq]
  simp only []
  clear hstore
  have hJ : ({ s.activeJoystick with
        calibration := fun a =>
          if 0 ≤ a ∧ a < s.axisCount then
            calibrationOf
              (if 0 ≤ a ∧ a < s.axisCount then validateAxis cfg (s.rgAxisInfo a)
               else s.rgAxisInfo a)
          else s.activeJoystick.calibration a
        functionAxis := fun f =>
          if f = maxFunction then s.activeJoystick.functionAxis f
          else s.rgFunctionAxisMapping f } : Joystick).setCalibrationMode false
      = committedStore cfg s := by
    unfold committedStore Joystick.setCalibrationMode
    simp only []
    congr 1
    funext a
    by_cases ha : 0 ≤ a ∧ a < s.axisCount
    · simp only [ha, and_self, if_true]
    · simp only [ha, if_false]
  rw [hJ]
  congr 1
  · funext a
    unfold loadedAxisInfo
    simp only []
    by_cases ha : 0 ≤ a ∧ a < s.axisCount
    · simp only [ha, and_self, if_true]
    · simp only [ha, if_false]
  · funext f
    unfold loadedMapping
    simp only []
    by_cases hf : f = maxFunction
    · simp only [hf, if_true]
    · simp only [hf, if_false]

/-- The table row of the last step. -/
theorem getStateMachineEntry_ten (self : JoystickConfigController) :
    self.getStateMachineEntry 10 =
      some ⟨maxFunction, msgComplete, self.sticksCentered, none,
        some .writeCalibration, none, -1⟩ := rfl

/-- In a consistent state a reload from the committed store gives every axis
the function it holds. -/
theorem loadedFunction_committedStore (cfg : Config) (s : JoystickConfigController)
    (hcon : Consistent cfg s) (a : Int) (ha0 : 0 ≤ a) (ha1 : a < s.axisCount) :
    loadedFunction (committedStore cfg s) a = (s.rgAxisInfo a).function := by
  have h1 := hcon.inverse a rollFunction ha0 ha1 (fun h => by cases h)
  have h2 := hcon.inverse a pitchFunction ha0 ha1 (fun h => by cases h)
  have h3 := hcon.inverse a yawFunction ha0 ha1 (fun h => by cases h)
  have h4 := hcon.inverse a throttleFunction ha0 ha1 (fun h => by cases h)
  have h5 := hcon.inverse a gimbalPitchFunction ha0 ha1 (fun h => by cases h)
  have h6 := hcon.inverse a gimbalYawFunction ha0 ha1 (fun h => by cases h)
  unfold loadedFunction allFunctions committedStore
  simp only [List.foldl, Joystick.getFunctionAxis]
  generalize (s.rgAxisInfo a).function = F at h1 h2 h3 h4 h5 h6 ⊢
  cases F <;> simp at h1 h2 h3 h4 h5 h6 <;> simp [h1, h2, h3, h4, h5, h6]

/-- C11: commit round trip.  For every state at the last step reached from a
start of calibration (through samples and Next clicks), with a store whose
get returns what was last set, the Next action runs `_writeCalibration` and
ends with step = -1; the store holds for every axis index below the axis
count the validated record `center = axisTrim, min, max, reversed, deadband`
and for every function its mapped axis (an axis of the device or
"unassigned"); and the AxisInfo table and the function-to-axis mapping
reloaded from the store equal the validated in-memory values that were
written. -/
theorem writeCalibration_roundtrip (cfg : Config) (s0 s : JoystickConfigController)
    (actions : List Action) (hno : cfg.axisNoAxis < 0)
    (h : calibrationRun cfg s0 actions = some s) (hfinal : s.currentStep = 10) :
    nextButtonClicked cfg s = some (writeCalibration cfg s) ∧
    (writeCalibration cfg s).currentStep = -1 ∧
    (∀ i : Int, 0 ≤ i → i < s.axisCount →
      (writeCalibration cfg s).activeJoystick.getCalibration i
        = calibrationOf ((validateCalibration cfg s).rgAxisInfo i)) ∧
    (∀ f : AxisFunction_t, f ≠ maxFunction →
      (writeCalibration cfg s).activeJoystick.getFunctionAxis f
          = (validateCalibration cfg s).rgFunctionAxisMapping f ∧
      ((validateCalibration cfg s).rgFunctionAxisMapping f = cfg.axisNoAxis ∨
        (0 ≤ (validateCalibration cfg s).rgFunctionAxisMapping f ∧
          (validateCalibration cfg s).rgFunctionAxisMapping f < s.axisCount))) ∧
    (writeCalibration cfg s).rgAxisInfo = (validateCalibration cfg s).rgAxisInfo ∧
    (writeCalibration cfg s).rgFunctionAxisMapping
      = (validateCalibration cfg s).rgFunctionAxisMapping := by
  have hcon := consistent_calibrationRun cfg hno s0 s actions h
  have hvmap : (validateCalibration cfg s).rgFunctionAxisMapping = s.rgFunctionAxisMapping := by
    rw [validateCalibration_eq]
  have hmapped : ∀ f : AxisFunction_t, f ≠ maxFunction →
      s.rgFunctionAxisMapping f = cfg.axisNoAxis ∨
        (0 ≤ s.rgFunctionAxisMapping f ∧ s.rgFunctionAxisMapping f < s.axisCount) := by
    intro f hf
    by_cases hm : s.rgFunctionAxisMapping f = cfg.axisNoAxis
    · exact Or.inl hm
    · exact Or.inr (hcon.mapped f hf hm).1
  refine ⟨?_, ?_, ?_, ?_, ?_, ?_⟩
  · unfold nextButtonClicked
    have hne : ¬ s.currentStep = -1 := by rw [hfinal]; omega
    rw [if_neg hne, hfinal, getStateMachineEntry_ten]
  · rw [writeCalibration_eq]
  · intro i hi0 hi1
    rw [writeCalibration_eq, validateCalibration_rgAxisInfo cfg s i hi0 hi1]
    show (committedStore cfg s).calibration i = _
    unfold committedStore
    simp only [hi0, hi1, and_self, if_true]
  · intro f hf
    rw [hvmap]
    refine ⟨?_, hmapped f hf⟩
    rw [writeCalibration_eq]
    show (committedStore cfg s).functionAxis f = _
    unfold committedStore
    simp only [hf, if_false]
  · rw [writeCalibration_eq]
    funext a
    show loadedAxisInfo _ a = _
    unfold loadedAxisInfo
    simp only []
    by_cases ha : 0 ≤ a ∧ a < s.axisCount
    · rw [if_pos ha, loadedFunction_committedStore cfg s hcon a ha.1 ha.2,
        validateCalibration_rgAxisInfo cfg s a ha.1 ha.2]
      have hf := validateAxis_eq cfg (s.rgAxisInfo a)
      unfold committedStore Joystick.getCalibration calibrationOf
      simp only [ha, and_self, if_true]
      rw [hf]
    · rw [if_neg ha]
  · rw [writeCalibration_eq, hvmap]
    funext f
    show loadedMapping cfg _ f = _
    unfold loadedMapping committedStore
    simp only [Joystick.getFunctionAxis]
    by_cases hf : f = maxFunction
    · simp only [hf, if_true]
    · simp only [hf, if_false]
      rcases hmapped f hf with hm | hm
      · have : ¬ (0 ≤ s.rgFunctionAxisMapping f ∧ s.rgFunctionAxisMapping f < s.axisCount) := by
          rw [hm]; omega
        rw [if_neg this, hm]
      · rw [if_pos hm]

/-- Witness for C11: `fullSession` leads a four-axis controller to the last
step; the commit stores the record of the throttle axis 2 and gives the
in-memory table the validated entries back. -/
theorem writeCalibration_roundtrip_witness :
    sampleConfig.axisNoAxis < 0 ∧
    calibrationRun sampleConfig (sampleController 4) fullSession = some fullSessionState ∧
    fullSessionState.currentStep = 10 ∧
    (nextButtonClicked sampleConfig fullSessionState
        = some (writeCalibration sampleConfig fullSessionState) ∧
      (writeCalibration sampleConfig fullSessionState).currentStep = -1 ∧
      (∀ i : Int, 0 ≤ i → i < fullSessionState.axisCount →
        (writeCalibration sampleConfig fullSessionState).activeJoystick.getCalibration i
          = calibrationOf ((validateCalibration sampleConfig fullSessionState).rgAxisInfo i)) ∧
      (∀ f : AxisFunction_t, f ≠ maxFunction →
        (writeCalibration sampleConfig fullSessionState).activeJoystick.getFunctionAxis f
            = (validateCalibration sampleConfig fullSessionState).rgFunctionAxisMapping f ∧
        ((validateCalibration sampleConfig fullSessionState).rgFunctionAxisMapping f
            = sampleConfig.axisNoAxis ∨
          (0 ≤ (validateCalibration sampleConfig fullSessionState).rgFunctionAxisMapping f ∧
            (validateCalibration sampleConfig fullSessionState).rgFunctionAxisMapping f
              < fullSessionState.axisCount))) ∧
      (writeCalibration sampleConfig fullSessionState).rgAxisInfo
        = (validateCalibration sampleConfig fullSessionState).rgAxisInfo ∧
      (writeCalibration sampleConfig fullSessionState).rgFunctionAxisMapping
        = (validateCalibration sampleConfig fullSessionState).rgFunctionAxisMapping) ∧
    (writeCalibration sampleConfig fullSessionState).activeJoystick.getCalibration 2
      = ⟨0, -32000, 32000, false, 0⟩ ∧
    (writeCalibration sampleConfig fullSessionState).activeJoystick.getFunctionAxis throttleFunction
      = 2 ∧
    (writeCalibration sampleConfig fullSessionState).rgAxisInfo 2
      = ⟨throttleFunction, false, -32000, 32000, 0, 0⟩ :=
  ⟨by decide,
    calibrationRun_getD sampleConfig (sampleController 4) (sampleController 4) fullSession
      (by decide!),
    by decide!,
    writeCalibration_roundtrip sampleConfig (sampleController 4) fullSessionState fullSession
      (by decide)
      (calibrationRun_getD sampleConfig (sampleController 4) (sampleController 4) fullSession
        (by decide!))
      (by decide!),
    by decide!, by decide!, by decide!⟩

/-! ### The centering step -/

/-- A sample in step 0 goes to `_inputCenterWaitBegin`. -/
theorem axisValueChanged_step_zero (cfg : Config) (now : Int) (s : JoystickConfigController)
    (axis value : Int) (h0 : s.currentStep = 0) :
    axisValueChanged cfg now s axis value =
      some (if s.validAxis axis = true then
              inputCenterWaitBegin cfg
                { s with axisRawValue := Function.update s.axisRawValue axis value }
                maxFunction axis value
            else s) := by
  unfold axisValueChanged
  by_cases hv : s.validAxis axis = true
  · have hne : ¬ s.currentStep = -1 := by rw [h0]; omega
    have he : getStateMachineEntry
        { s with axisRawValue := Function.update s.axisRawValue axis value } s.currentStep
        = some ⟨maxFunction, msgBegin, s.sticksCentered, some .inputCenterWaitBegin,
            some .saveAllTrims, none, 0⟩ := by
      rw [h0]; rfl
    simp only [hv, if_true, hne, false_and, if_false, ne_eq, not_false_eq_true, he]
  · simp only [hv, if_false, Bool.false_eq_true]

/-- A sample in step 0 leaves the step, the axis count, the mapping and every
field of every AxisInfo entry but the deadband. -/
theorem axisValueChanged_step_zero_frame (cfg : Config) (now : Int)
    (s : JoystickConfigController) (axis value : Int) (h0 : s.currentStep = 0) :
    ∃ t, axisValueChanged cfg now s axis value = some t ∧
      t.currentStep = 0 ∧ t.axisCount = s.axisCount ∧
      t.rgFunctionAxisMapping = s.rgFunctionAxisMapping ∧
      (∀ i : Int, t.rgAxisInfo i = { s.rgAxisInfo i with deadband := (t.rgAxisInfo i).deadband }) := by
  rw [axisValueChanged_step_zero cfg now s axis value h0]
  by_cases hv : s.validAxis axis = true
  · rw [if_pos hv]
    obtain ⟨h1, h2, -⟩ := inputCenterWaitBegin_frame cfg
      { s with axisRawValue := Function.update s.axisRawValue axis value } maxFunction axis value
    refine ⟨_, rfl, ?_, ?_, ?_, h2⟩
    · rw [h1]; exact h0
    · rw [h1]
    · rw [h1]
  · rw [if_neg hv]
    exact ⟨s, rfl, h0, rfl, rfl, fun _ => rfl⟩

/-- Samples alone never leave step 0 and never touch a trim. -/
theorem calibrationActs_step_zero (cfg : Config) (actions : List Action) :
    ∀ s : JoystickConfigController, s.currentStep = 0 →
      (∀ a ∈ actions, a ≠ Action.next) →
      ∃ t, calibrationActs cfg s actions = some t ∧
        t.currentStep = 0 ∧ t.axisCount = s.axisCount ∧
        t.rgFunctionAxisMapping = s.rgFunctionAxisMapping ∧
        (∀ i : Int, t.rgAxisInfo i = { s.rgAxisInfo i with deadband := (t.rgAxisInfo i).deadband }) := by
  induction actions with
  | nil =>
    intro s h0 _
    exact ⟨s, rfl, h0, rfl, rfl, fun _ => rfl⟩
  | cons a rest ih =>
    intro s h0 hall
    cases a with
    | next => exact absurd rfl (hall Action.next (List.mem_cons_self _ _))
    | sample now axis value =>
      obtain ⟨t, ht, hstep, hcount, hmap, hinfo⟩ :=
        axisValueChanged_step_zero_frame cfg now s axis value h0
      obtain ⟨u, hu, hustep, hucount, humap, huinfo⟩ :=
        ih t hstep (fun b hb => hall b (List.mem_cons_of_mem _ hb))
      refine ⟨u, ?_, hustep, hucount.trans hcount, humap.trans hmap, ?_⟩
      · simp only [calibrationActs, calibrationAct, ht]
        exact hu
      · intro i
        rw [huinfo i, hinfo i]

/-- Counterexample to C19 as stated: a calibration is started with the sticks
resting at 5, -3, 7 and 0, and axis 3 stays at the centre point 0 for 1200 ms,
longer than the dwell duration of 500 ms.  The state machine is still in step
0 and the trim of axis 0 is still 0, not the last observed raw value 5. -/
theorem centering_samples_counterexample :
    calibrationRun sampleConfig restingController centeredSamples = some centeredState ∧
    centeredState.currentStep = 0 ∧
    centeredState.currentStep ≠ 1 ∧
    centeredState.axisRawValue 0 = 5 ∧
    (centeredState.rgAxisInfo 0).axisTrim = 0 ∧
    (centeredState.rgAxisInfo 0).axisTrim ≠ centeredState.axisRawValue 0 :=
  ⟨calibrationRun_getD sampleConfig restingController restingController centeredSamples
      (by decide),
    by decide, by decide, by decide, by decide, by decide⟩

/-- C19 (amended): at step 0 (centering), samples, however long an axis stays
at the centre point, leave the state machine in step 0 and the trim, min, max,
function and reversed flag of every axis and the mapping as they were; the
trims of all axes are set to their last observed raw values and the state
machine goes to step 1 (throttle-up detect) with the Next action. -/
theorem centering_step (cfg : Config) (s : JoystickConfigController)
    (actions : List Action) (h0 : s.currentStep = 0)
    (hsamples : ∀ a ∈ actions, a ≠ Action.next) :
    ∃ t, calibrationActs cfg s actions = some t ∧
      t.currentStep = 0 ∧
      t.rgFunctionAxisMapping = s.rgFunctionAxisMapping ∧
      (∀ i : Int, t.rgAxisInfo i = { s.rgAxisInfo i with deadband := (t.rgAxisInfo i).deadband }) ∧
      ∃ u, nextButtonClicked cfg t = some u ∧
        u.currentStep = 1 ∧
        (∀ e, u.getStateMachineEntry u.currentStep = some e →
          e.function = throttleFunction ∧ e.rcInputFn = some inputFn.inputStickDetect) ∧
        (∀ i : Int, 0 ≤ i → i < s.axisCount → (u.rgAxisInfo i).axisTrim = t.axisRawValue i) := by
  obtain ⟨t, ht, hstep, hcount, hmap, hinfo⟩ := calibrationActs_step_zero cfg actions s h0 hsamples
  obtain ⟨u, hu, hucs, huinfo, -⟩ := saveAllTrims_spec cfg t
    (by rw [hstep]; omega) (by rw [hstep]; omega)
  refine ⟨t, ht, hstep, hmap, hinfo, u, ?_, ?_, ?_, ?_⟩
  · unfold nextButtonClicked
    have hne : ¬ t.currentStep = -1 := by rw [hstep]; omega
    rw [if_neg hne, hstep, getStateMachineEntry_zero]
    exact hu
  · rw [hucs, hstep]; rfl
  · intro e he
    have h1 : u.currentStep = 1 := by rw [hucs, hstep]; rfl
    rw [h1] at he
    have he' : u.getStateMachineEntry 1 =
        some ⟨throttleFunction, msgThrottleUp, u.sticksThrottleUp, some .inputStickDetect,
          none, none, 0⟩ := rfl
    rw [he'] at he
    cases he
    exact ⟨rfl, rfl⟩
  · intro i hi0 hi1
    rw [huinfo]
    have hr : 0 ≤ i ∧ i < t.axisCount := ⟨hi0, by rw [hcount]; exact hi1⟩
    simp only [hr, and_self, if_true]

/-- Witness for C19 (amended): on `centerController`, which is in step 0, the
centred samples of axis 3 keep step 0 and the trims; Next then sets every
trim to the raw value of its axis and enters step 1. -/
theorem centering_step_witness :
    centerController.currentStep = 0 ∧
    (∀ a ∈ centeredSamples, a ≠ Action.next) ∧
    ∃ t, calibrationActs sampleConfig centerController centeredSamples = some t ∧
      t.currentStep = 0 ∧
      t.rgFunctionAxisMapping = centerController.rgFunctionAxisMapping ∧
      (∀ i : Int, t.rgAxisInfo i
        = { centerController.rgAxisInfo i with deadband := (t.rgAxisInfo i).deadband }) ∧
      ∃ u, nextButtonClicked sampleConfig t = some u ∧
        u.currentStep = 1 ∧
        (∀ e, u.getStateMachineEntry u.currentStep = some e →
          e.function = throttleFunction ∧ e.rcInputFn = some inputFn.inputStickDetect) ∧
        (∀ i : Int, 0 ≤ i → i < centerController.axisCount →
          (u.rgAxisInfo i).axisTrim = t.axisRawValue i) :=
  ⟨rfl, by decide,
    centering_step sampleConfig centerController centeredSamples rfl (by decide)⟩

/-! ### Deadband sensing -/

/-- Zero has no binary digits, whatever the fuel. -/
theorem bitLengthAux_zero (fuel : Nat) : bitLengthAux fuel 0 = 0 := by
  cases fuel <;> simp [bitLengthAux]

/-- With enough fuel a positive `m` lies between the powers of two that its
number of binary digits names. -/
theorem bitLengthAux_bounds : ∀ fuel m : Nat, m ≤ fuel → 0 < m →
    2 ^ (bitLengthAux fuel m - 1) ≤ m ∧ m < 2 ^ bitLengthAux fuel m := by
  intro fuel
  induction fuel with
  | zero => intro m h1 h2; omega
  | succ fuel ih =>
    intro m hm hpos
    have hne : ¬ m = 0 := by omega
    simp only [bitLengthAux, hne, if_false, Nat.add_sub_cancel]
    by_cases h2 : m / 2 = 0
    · rw [h2, bitLengthAux_zero]
      have : m = 1 := by omega
      subst this
      decide
    · obtain ⟨hlo, hhi⟩ := ih (m / 2) (by omega) (by omega)
      have hk : bitLengthAux fuel (m / 2) ≠ 0 := by
        intro h0
        rw [h0] at hhi
        simp at hhi
        exact h2 hhi
      obtain ⟨k, hk'⟩ := Nat.exists_eq_succ_of_ne_zero hk
      rw [hk'] at hlo hhi ⊢
      simp only [Nat.succ_eq_add_one, Nat.add_sub_cancel] at hlo hhi ⊢
      rw [pow_succ] at hhi ⊢
      rw [pow_succ]
      constructor <;> omega

/-- A positive `m` has `bitLength m` binary digits. -/
theorem bitLength_bounds (m : Nat) (hpos : 0 < m) :
    2 ^ (bitLength m - 1) ≤ m ∧ m < 2 ^ bitLength m :=
  bitLengthAux_bounds m m le_rfl hpos

/-- A number below `2 ^ k` has at most `k` binary digits. -/
theorem bitLength_le (m k : Nat) (h : m < 2 ^ k) : bitLength m ≤ k := by
  by_cases hpos : 0 < m
  · by_contra hc
    have h1 := (bitLength_bounds m hpos).1
    have h2 : 2 ^ k ≤ 2 ^ (bitLength m - 1) := Nat.pow_le_pow_right (by decide) (by omega)
    omega
  · have : m = 0 := by omega
    subst this
    simp [bitLength, bitLengthAux]

/-- A number below `2 ^ 24` is a binary32 value. -/
theorem roundSignificand_small (m : Nat) (h : m < 2 ^ 24) : roundSignificand m = m := by
  unfold roundSignificand
  simp only [bitLength_le m 24 h, if_true]

/-- An `int` of magnitude below `2 ^ 24` converts to `float` exactly. -/
theorem intToFloat_small (i : Int) (h : i.natAbs < 2 ^ 24) : intToFloat i = i := by
  unfold intToFloat
  rw [roundSignificand_small _ h]
  split_ifs <;> omega

set_option maxHeartbeats 1000000 in
/-- The binary32 product of a magnitude up to 32768 and `1.1f`: its integer
part is the integer part of eleven tenths of the magnitude, and it exceeds an
integer exactly when eleven tenths of the magnitude do. -/
theorem roundSignificand_product (n : Nat) (hn : n ≤ 32768) :
    roundSignificand (n * 9227469) / 2 ^ 23 = 11 * n / 10 ∧
    ∀ D : Int, ((roundSignificand (n * 9227469) : Nat) : Int) > D * 2 ^ 23 ↔ 11 * (n : Int) > 10 * D := by
  generalize hm : n * 9227469 = m
  by_cases hsmall : bitLength m ≤ 24
  · have hr : roundSignificand m = m := by
      unfold roundSignificand
      simp only [hsmall, if_true]
    have hlt : m < 2 ^ 24 := by
      by_cases hz : 0 < m
      · have h2 := (bitLength_bounds _ hz).2
        have h3 : 2 ^ bitLength m ≤ 2 ^ 24 := Nat.pow_le_pow_right (by decide) hsmall
        omega
      · have : m = 0 := by omega
        rw [this]; decide
    rw [hr]
    norm_num at hlt ⊢
    constructor
    · omega
    · intro D; omega
  · have hpos : 0 < m := by
      by_contra hz
      have : m = 0 := by omega
      rw [this] at hsmall
      exact hsmall (by decide)
    obtain ⟨hlo, hhi⟩ := bitLength_bounds _ hpos
    have hle : bitLength m ≤ 39 := bitLength_le _ 39 (by norm_num; omega)
    generalize hb : bitLength m = b at hsmall hlo hhi hle
    have hb24 : 24 < b := by omega
    unfold roundSignificand
    simp only [hb]
    interval_cases b
    · norm_num at hlo hhi ⊢
      constructor
      · split_ifs <;> omega
      · intro D; split_ifs <;> omega
    · norm_num at hlo hhi ⊢
      have h1 : 4 ≤ n := by omega
      have h2 : n ≤ 7 := by omega
      interval_cases n <;> subst hm <;>
        (constructor
         · norm_num
         · intro D; norm_num; omega)
    · norm_num at hlo hhi ⊢
      have h1 : 8 ≤ n := by omega
      have h2 : n ≤ 14 := by omega
      interval_cases n <;> subst hm <;>
        (constructor
         · norm_num
         · intro D; norm_num; omega)
    all_goals
      norm_num at hlo hhi ⊢
      constructor
      · split_ifs <;> omega
      · intro D; split_ifs <;> omega

/-- The product `abs(value) * 1.1f` for a sample of magnitude up to 32768, in
exact integer terms. -/
theorem absTimes1_1f_small (value : Int) (hv : value.natAbs ≤ 32768) :
    absTimes1_1f value / 2 ^ 23 = 11 * value.natAbs / 10 ∧
    ∀ D : Int, (absTimes1_1f value : Int) > D * 2 ^ 23 ↔ 11 * |value| > 10 * D := by
  have h0 : roundSignificand value.natAbs = value.natAbs :=
    roundSignificand_small _ (lt_of_le_of_lt hv (by norm_num))
  unfold absTimes1_1f
  rw [h0]
  obtain ⟨h1, h2⟩ := roundSignificand_product value.natAbs hv
  refine ⟨h1, fun D => ?_⟩
  rw [h2 D, Int.abs_eq_natAbs]

/-- Counterexample to C20 as stated: step 0, deadband sensing enabled.  Axis 0
has the deadband 100 and a sample of 95 arrives; 95 does not exceed 110% of
100, yet the deadband becomes 104.  Axis 1 has the deadband 0 and a sample of
32000 arrives; 110% of 32000 is 35200, yet the deadband becomes the valid
maximum 32767. -/
theorem axisValueChanged_deadband_counterexample :
    sensingController.currentStep = 0 ∧
    sensingController.activeJoystick.deadband = true ∧
    sensingController.validAxis 0 = true ∧
    (sensingController.rgAxisInfo 0).deadband = 100 ∧
    ¬ (10 * |(95 : Int)| > 11 * 100) ∧
    (axisValueChanged sampleConfig 0 sensingController 0 95).map
      (fun t => (t.rgAxisInfo 0).deadband) = some 104 ∧
    sensingController.validAxis 1 = true ∧
    (sensingController.rgAxisInfo 1).deadband = 0 ∧
    10 * |(32000 : Int)| > 11 * 0 ∧
    11 * 32000 / 10 = 35200 ∧
    (axisValueChanged sampleConfig 0 sensingController 1 32000).map
      (fun t => (t.rgAxisInfo 1).deadband) = some 32767 := by
  decide

/-- C20 (amended): at step 0, for every sample of a valid axis whose value is
an `int` other than the least one and whose product `abs(value) * 1.1f`
converts to `int` (`sampleConverts`): if deadband sensing is enabled and 110%
of |value| (the single precision product) exceeds the axis's current
deadband, the axis's deadband becomes 110% of |value| truncated to an
integer, or the valid maximum if the truncated product is not below it, a
value below `2 ^ 31`; if the product does not exceed the current deadband, or
deadband sensing is disabled, no deadband changes.  For a sample of magnitude
up to 32768 and a deadband of magnitude below 2 ^ 24 the truncated product is
the integer part of 11 * |value| / 10 and the test is
11 * |value| > 10 * deadband. -/
theorem axisValueChanged_deadband (cfg : Config) (now : Int) (s : JoystickConfigController)
    (axis value : Int) (h0 : s.currentStep = 0) (hv : s.validAxis axis = true)
    (hsample : sampleConverts value) :
    ∃ t, axisValueChanged cfg now s axis value = some t ∧
      (s.activeJoystick.deadband = true →
        (absTimes1_1f value : Int) > intToFloat (s.rgAxisInfo axis).deadband * 2 ^ 23 →
        (t.rgAxisInfo axis).deadband =
          (if ((absTimes1_1f value / 2 ^ 23 : Nat) : Int) < cfg.calValidMaxValue then
            ((absTimes1_1f value / 2 ^ 23 : Nat) : Int)
          else cfg.calValidMaxValue) ∧
        (t.rgAxisInfo axis).deadband < 2 ^ 31) ∧
      (¬ (s.activeJoystick.deadband = true ∧
          (absTimes1_1f value : Int) > intToFloat (s.rgAxisInfo axis).deadband * 2 ^ 23) →
        t.rgAxisInfo = s.rgAxisInfo) ∧
      (∀ i : Int, i ≠ axis → t.rgAxisInfo i = s.rgAxisInfo i) ∧
      (value.natAbs ≤ 32768 → ((s.rgAxisInfo axis).deadband).natAbs < 2 ^ 24 →
        absTimes1_1f value / 2 ^ 23 = 11 * value.natAbs / 10 ∧
        ((absTimes1_1f value : Int) > intToFloat (s.rgAxisInfo axis).deadband * 2 ^ 23 ↔
          11 * |value| > 10 * (s.rgAxisInfo axis).deadband)) := by
  have hfit : ((absTimes1_1f value / 2 ^ 23 : Nat) : Int) < 2 ^ 31 := by
    exact_mod_cast hsample.2.2
  rw [axisValueChanged_step_zero cfg now s axis value h0, if_pos hv]
  refine ⟨_, rfl, ?_, ?_, ?_, ?_⟩
  · intro hs hc
    simp only [inputCenterWaitBegin]
    rw [if_pos (And.intro hc hs)]
    simp only [axisDeadbandChanged, Function.update_same, Nat.abs_cast]
    refine ⟨trivial, ?_⟩
    split_ifs <;> omega
  · intro hn
    simp only [inputCenterWaitBegin]
    rw [if_neg (fun h => hn ⟨h.2, h.1⟩)]
  · intro i hi
    exact (inputCenterWaitBegin_frame cfg _ maxFunction axis value).2.2 i hi
  · intro hval hdead
    obtain ⟨h1, h2⟩ := absTimes1_1f_small value hval
    refine ⟨h1, ?_⟩
    rw [intToFloat_small _ hdead]
    exact h2 _

/-- Witness for C20 (amended): on `sensingController` the sample 95 of axis 0,
whose deadband is 100. -/
theorem axisValueChanged_deadband_witness :
    sensingController.currentStep = 0 ∧ sensingController.validAxis 0 = true ∧
    sampleConverts 95 ∧
    ∃ t, axisValueChanged sampleConfig 0 sensingController 0 95 = some t ∧
      (sensingController.activeJoystick.deadband = true →
        (absTimes1_1f 95 : Int) > intToFloat (sensingController.rgAxisInfo 0).deadband * 2 ^ 23 →
        (t.rgAxisInfo 0).deadband =
          (if ((absTimes1_1f 95 / 2 ^ 23 : Nat) : Int) < sampleConfig.calValidMaxValue then
            ((absTimes1_1f 95 / 2 ^ 23 : Nat) : Int)
          else sampleConfig.calValidMaxValue) ∧
        (t.rgAxisInfo 0).deadband < 2 ^ 31) ∧
      (¬ (sensingController.activeJoystick.deadband = true ∧
          (absTimes1_1f 95 : Int) > intToFloat (sensingController.rgAxisInfo 0).deadband * 2 ^ 23) →
        t.rgAxisInfo = sensingController.rgAxisInfo) ∧
      (∀ i : Int, i ≠ 0 → t.rgAxisInfo i = sensingController.rgAxisInfo i) ∧
      ((95 : Int).natAbs ≤ 32768 → ((sensingController.rgAxisInfo 0).deadband).natAbs < 2 ^ 24 →
        absTimes1_1f 95 / 2 ^ 23 = 11 * (95 : Int).natAbs / 10 ∧
        ((absTimes1_1f 95 : Int) > intToFloat (sensingController.rgAxisInfo 0).deadband * 2 ^ 23 ↔
          11 * |(95 : Int)| > 10 * (sensingController.rgAxisInfo 0).deadband)) :=
  ⟨rfl, by decide, by decide,
    axisValueChanged_deadband sampleConfig 0 sensingController 0 95 rfl (by decide) (by decide)⟩

/-! ### Every sample is processed -/

/-- A valid axis has a non-negative index below the axis count. -/
theorem validAxis_iff (s : JoystickConfigController) (a : Int) :
    s.validAxis a = true ↔ 0 ≤ a ∧ a < s.axisCount := by
  unfold validAxis
  simp

/-- The rows with a Next handler: row 0 saves the trims, row 10 commits. -/
theorem getStateMachineEntry_nextFn (self : JoystickConfigController) (step : Int)
    (e : stateMachineEntry) (fn : buttonFn)
    (h : self.getStateMachineEntry step = some e) (hfn : e.nextFn = some fn) :
    (fn = buttonFn.saveAllTrims ∧ step = 0) ∨ (fn = buttonFn.writeCalibration ∧ step = 10) := by
  unfold getStateMachineEntry at h
  split at h
  · rename_i hr
    rw [rgStateMachine_length] at hr
    obtain ⟨h0, h1⟩ := hr
    have h1' : step < 11 := by exact_mod_cast h1
    interval_cases step <;> simp [rgStateMachine] at h <;> subst h <;> simp at hfn <;>
      subst hfn <;> simp
  · simp at h

/-- `_advanceState` from a state that agrees with `s` on the step, the store
handle, the axis count and the deadbands. -/
theorem advanceState_total (cfg : Config) (x s : JoystickConfigController)
    (hstep : x.currentStep = s.currentStep) (hjoy : x.activeJoystick = s.activeJoystick)
    (hcount : x.axisCount = s.axisCount)
    (hdead : ∀ i : Int, (x.rgAxisInfo i).deadband = (s.rgAxisInfo i).deadband)
    (h0 : -1 ≤ s.currentStep) (h1 : s.currentStep < 10) :
    ∃ t, advanceState cfg x = some t ∧
      t.activeJoystick = s.activeJoystick ∧
      t.axisCount = s.axisCount ∧
      (t.currentStep = s.currentStep ∨ t.currentStep = s.currentStep + 1) ∧
      (∀ i : Int, (t.rgAxisInfo i).deadband = (s.rgAxisInfo i).deadband) := by
  obtain ⟨t, ht, hs, hinfo, -, hc, -, hj, -⟩ := advanceState_spec cfg x
    (by omega) (by omega)
  exact ⟨t, ht, by rw [hj, hjoy], by rw [hc, hcount], Or.inr (by rw [hs, hstep]),
    fun i => by rw [hinfo, hdead i]⟩

/-- `_inputStickDetect` in a step before the last returns; it leaves the store
handle, the axis count and every deadband alone, and the step stays or grows
by one. -/
theorem inputStickDetect_total (cfg : Config) (now : Int) (s : JoystickConfigController)
    (f : AxisFunction_t) (axis value : Int)
    (h0 : -1 ≤ s.currentStep) (h1 : s.currentStep < 10) :
    ∃ t, inputStickDetect cfg now s f axis value = some t ∧
      t.activeJoystick = s.activeJoystick ∧
      t.axisCount = s.axisCount ∧
      (t.currentStep = s.currentStep ∨ t.currentStep = s.currentStep + 1) ∧
      (∀ i : Int, (t.rgAxisInfo i).deadband = (s.rgAxisInfo i).deadband) := by
  unfold inputStickDetect
  obtain ⟨hc1, -, hc3, hc4, -, -, hc7⟩ := stickSettleComplete_core cfg now s axis value
  split_ifs <;> try exact ⟨_, rfl, rfl, rfl, Or.inl rfl, fun _ => rfl⟩
  rcases hsc : stickSettleComplete cfg now s axis value with ⟨b, s1⟩
  rw [hsc] at hc1 hc3 hc4 hc7
  simp only [] at hc1 hc3 hc4 hc7
  cases b
  · exact ⟨s1, rfl, hc7, hc1, Or.inl hc4, fun i => by rw [hc3]⟩
  · simp only []
    split_ifs
    all_goals
      refine advanceState_total cfg _ s hc4 hc7 hc1 ?_ h0 h1
      intro i
      by_cases hi : i = axis
      · subst hi; simp [Function.update_same, hc3]
      · simp [Function.update_noteq hi, hc3]

/-- `_inputStickMin` in a step before the last returns; it leaves the store
handle, the axis count and every deadband alone, and the step stays or grows
by one. -/
theorem inputStickMin_total (cfg : Config) (now : Int) (s : JoystickConfigController)
    (f : AxisFunction_t) (axis value : Int)
    (h0 : -1 ≤ s.currentStep) (h1 : s.currentStep < 10) :
    ∃ t, inputStickMin cfg now s f axis value = some t ∧
      t.activeJoystick = s.activeJoystick ∧
      t.axisCount = s.axisCount ∧
      (t.currentStep = s.currentStep ∨ t.currentStep = s.currentStep + 1) ∧
      (∀ i : Int, (t.rgAxisInfo i).deadband = (s.rgAxisInfo i).deadband) := by
  unfold inputStickMin
  obtain ⟨hc1, -, hc3, hc4, -, -, hc7⟩ := stickSettleComplete_core cfg now s axis value
  split_ifs <;> try exact ⟨_, rfl, rfl, rfl, Or.inl rfl, fun _ => rfl⟩
  all_goals
    rcases hsc : stickSettleComplete cfg now s axis value with ⟨b, s1⟩
    rw [hsc] at hc1 hc3 hc4 hc7
    simp only [] at hc1 hc3 hc4 hc7
    cases b
    · exact ⟨s1, rfl, hc7, hc1, Or.inl hc4, fun i => by rw [hc3]⟩
    · simp only []
      split_ifs
      all_goals
        refine advanceState_total cfg _ s hc4 hc7 hc1 ?_ h0 h1
        intro i
        by_cases hi : i = axis
        · subst hi; simp [Function.update_same, hc3]
        · simp [Function.update_noteq hi, hc3]

/-- `_inputCenterWait` in a step before the last returns; it leaves the store
handle, the axis count and the AxisInfo table alone, and the step stays or
grows by one. -/
theorem inputCenterWait_total (cfg : Config) (now : Int) (s : JoystickConfigController)
    (f : AxisFunction_t) (axis value : Int)
    (h0 : -1 ≤ s.currentStep) (h1 : s.currentStep < 10) :
    ∃ t, inputCenterWait cfg now s f axis value = some t ∧
      t.activeJoystick = s.activeJoystick ∧
      t.axisCount = s.axisCount ∧
      (t.currentStep = s.currentStep ∨ t.currentStep = s.currentStep + 1) ∧
      (∀ i : Int, (t.rgAxisInfo i).deadband = (s.rgAxisInfo i).deadband) := by
  unfold inputCenterWait
  obtain ⟨hc1, -, hc3, hc4, -, -, hc7⟩ := stickSettleComplete_core cfg now s axis value
  simp only []
  split_ifs <;> try exact ⟨_, rfl, rfl, rfl, Or.inl rfl, fun _ => rfl⟩
  all_goals
    rcases hsc : stickSettleComplete cfg now s axis value with ⟨b, s1⟩
    rw [hsc] at hc1 hc3 hc4 hc7
    simp only [] at hc1 hc3 hc4 hc7
    cases b
    · exact ⟨s1, rfl, hc7, hc1, Or.inl hc4, fun i => by rw [hc3]⟩
    · simp only []
      exact advanceState_total cfg s1 s hc4 hc7 hc1 (fun i => by rw [hc3]) h0 h1

/-- A raw sample while idle: the raw value is stored and the axis count
tracks the highest axis seen. -/
theorem axisValueChanged_idle (cfg : Config) (now : Int) (s : JoystickConfigController)
    (axis value : Int) (hidle : s.currentStep = -1) :
    axisValueChanged cfg now s axis value =
      some (if s.validAxis axis = true then
              { s with axisRawValue := Function.update s.axisRawValue axis value
                       axisCount := if axis + 1 > s.axisCount then axis + 1 else s.axisCount }
            else s) := by
  unfold axisValueChanged
  by_cases hv : s.validAxis axis = true
  · by_cases hg : axis + 1 > s.axisCount
    · simp [hv, hidle, hg]
    · simp [hv, hidle, hg]
  · simp [hv]

/-- A raw sample in any step of the controller, idle included, is processed
without a failed assertion.  The store handle is left alone; the step stays,
or grows by one inside the table; outside step 0 every deadband is kept, and
during a calibration the axis count is kept. -/
theorem axisValueChanged_total (cfg : Config) (now : Int) (s : JoystickConfigController)
    (axis value : Int) (h0 : -1 ≤ s.currentStep) (h1 : s.currentStep ≤ 10) :
    ∃ t, axisValueChanged cfg now s axis value = some t ∧
      t.activeJoystick = s.activeJoystick ∧
      (t.currentStep = s.currentStep ∨
        (0 < s.currentStep ∧ t.currentStep = s.currentStep + 1 ∧ t.currentStep ≤ 10)) ∧
      (s.currentStep ≠ 0 → ∀ i : Int, (t.rgAxisInfo i).deadband = (s.rgAxisInfo i).deadband) ∧
      (s.currentStep ≠ -1 → t.axisCount = s.axisCount) := by
  by_cases hidle : s.currentStep = -1
  · rw [axisValueChanged_idle cfg now s axis value hidle]
    refine ⟨_, rfl, ?_, Or.inl ?_, ?_, fun h => absurd hidle h⟩
    · split_ifs <;> rfl
    · split_ifs <;> rfl
    · intro _ i
      split_ifs <;> rfl
  unfold axisValueChanged
  by_cases hv : s.validAxis axis = true
  swap
  · simp only [hv, Bool.false_eq_true, if_false]
    exact ⟨s, rfl, rfl, Or.inl rfl, fun _ _ => rfl, fun _ => rfl⟩
  simp only [hv, if_true, hidle, false_and, if_false, ne_eq, not_false_eq_true]
  obtain ⟨e, he⟩ := getStateMachineEntry_isSome s s.currentStep (by omega) (by omega)
  have he2 : getStateMachineEntry
      { s with axisRawValue := Function.update s.axisRawValue axis value } s.currentStep
      = some e := he
  rw [he2]
  simp only []
  cases hfn : e.rcInputFn with
  | none => exact ⟨_, rfl, rfl, Or.inl rfl, fun _ _ => rfl, fun _ => rfl⟩
  | some fn =>
    obtain ⟨hr0, hr1⟩ := getStateMachineEntry_rcInputFn_range s _ e fn he hfn
    have hstep0 : fn = inputFn.inputCenterWaitBegin ↔ s.currentStep = 0 := by
      have he' := he
      unfold getStateMachineEntry at he'
      rw [if_pos ⟨hr0, by rw [rgStateMachine_length]; omega⟩] at he'
      generalize s.currentStep = k at he' hr0 hr1
      interval_cases k <;> simp [rgStateMachine] at he' <;> subst he' <;> simp at hfn <;>
        subst hfn <;> simp
    cases fn with
    | inputCenterWaitBegin =>
      simp only []
      obtain ⟨hf1, hf2, -⟩ := inputCenterWaitBegin_frame cfg
        { s with axisRawValue := Function.update s.axisRawValue axis value } e.function axis value
      refine ⟨_, rfl, ?_, Or.inl ?_, ?_, ?_⟩
      · rw [hf1]
      · rw [hf1]
      · intro hne; exact absurd (hstep0.mp rfl) hne
      · intro _; rw [hf1]
    | inputStickDetect =>
      simp only []
      have hpos : 0 < s.currentStep := by
        by_contra hc
        have hz : s.currentStep = 0 := by omega
        exact absurd (hstep0.mpr hz) (by simp)
      obtain ⟨t, ht, hjoy, hcount, hstep, hdead⟩ := inputStickDetect_total cfg now
        { s with axisRawValue := Function.update s.axisRawValue axis value } e.function axis value
        h0 hr1
      refine ⟨t, ht, hjoy, ?_, fun _ => hdead, fun _ => hcount⟩
      rcases hstep with h | h
      · exact Or.inl h
      · exact Or.inr ⟨hpos, h, by rw [h]; show s.currentStep + 1 ≤ 10; omega⟩
    | inputStickMin =>
      simp only []
      have hpos : 0 < s.currentStep := by
        by_contra hc
        have hz : s.currentStep = 0 := by omega
        exact absurd (hstep0.mpr hz) (by simp)
      obtain ⟨t, ht, hjoy, hcount, hstep, hdead⟩ := inputStickMin_total cfg now
        { s with axisRawValue := Function.update s.axisRawValue axis value } e.function axis value
        h0 hr1
      refine ⟨t, ht, hjoy, ?_, fun _ => hdead, fun _ => hcount⟩
      rcases hstep with h | h
      · exact Or.inl h
      · exact Or.inr ⟨hpos, h, by rw [h]; show s.currentStep + 1 ≤ 10; omega⟩
    | inputCenterWait =>
      simp only []
      have hpos : 0 < s.currentStep := by
        by_contra hc
        have hz : s.currentStep = 0 := by omega
        exact absurd (hstep0.mpr hz) (by simp)
      obtain ⟨t, ht, hjoy, hcount, hstep, hdead⟩ := inputCenterWait_total cfg now
        { s with axisRawValue := Function.update s.axisRawValue axis value } e.function axis value
        h0 hr1
      refine ⟨t, ht, hjoy, ?_, fun _ => hdead, fun _ => hcount⟩
      rcases hstep with h | h
      · exact Or.inl h
      · exact Or.inr ⟨hpos, h, by rw [h]; show s.currentStep + 1 ≤ 10; omega⟩

/-! ### Who writes the store -/

/-- `_startCalibration` returns and touches the calibration-mode flag of the
device only, not the store. -/
theorem startCalibration_activeJoystick (cfg : Config) (self : JoystickConfigController) :
    ∃ s, startCalibration cfg self = some s ∧
      s.activeJoystick = self.activeJoystick.setCalibrationMode true := by
  unfold startCalibration
  obtain ⟨s, hs, -, -, -, -, -, hjoy, -⟩ := setupCurrentState_spec cfg
    { resetInternalCalibrationValues cfg
        { self with activeJoystick := self.activeJoystick.setCalibrationMode true } with
      currentStep := 0 }
    (by show (0 : Int) ≤ 0; omega) (by show (0 : Int) < 11; omega)
  refine ⟨s, hs, ?_⟩
  rw [hjoy]
  show (resetInternalCalibrationValues cfg _).activeJoystick = _
  rw [resetInternalCalibrationValues_eq]

/-- Counterexample to C21 as stated: on the idle four-axis controller, whose
store holds the deadband 0 for axis 0 and the transmitter mode 2,
`setDeadbandValue(0, 50)` leaves the deadband 50 in the stored record of axis
0, and `setTransmitterMode(3)` leaves the transmitter mode 3 in the store. -/
theorem store_frame_counterexample :
    ((sampleController 4).activeJoystick.getCalibration 0).deadband = 0 ∧
    ((setDeadbandValue sampleConfig (sampleController 4) 0 50).activeJoystick.getCalibration
      0).deadband = 50 ∧
    (sampleController 4).activeJoystick.getTXMode = 2 ∧
    (setTransmitterMode sampleConfig (sampleController 4) 3).map
      (fun t => t.activeJoystick.getTXMode) = some 3 := by
  decide

/-- C21 (amended): the persisted store (calibration records, function
assignments, transmitter mode) is written by a successful commit, by
`setDeadbandValue` and by an accepted `setTransmitterMode` only.  In every
step of the controller, processing an axis sample, starting the calibration,
the step-0 Next action, cancel and a refused `setTransmitterMode` leave the
store unchanged; an accepted `setTransmitterMode` (idle, mode in 1..4) writes
the transmitter mode and nothing else; `setDeadbandValue` writes the deadband
of the stored record of its axis and nothing else. -/
theorem store_frame (cfg : Config) (s : JoystickConfigController)
    (h0 : -1 ≤ s.currentStep) (h1 : s.currentStep ≤ 10) :
    (∀ now axis value : Int, ∃ t, axisValueChanged cfg now s axis value = some t ∧
      sameStore s.activeJoystick t.activeJoystick) ∧
    (∃ t, startCalibration cfg s = some t ∧ sameStore s.activeJoystick t.activeJoystick) ∧
    (s.currentStep = 0 →
      ∃ t, nextButtonClicked cfg s = some t ∧ sameStore s.activeJoystick t.activeJoystick) ∧
    sameStore s.activeJoystick (cancelButtonClicked cfg s).activeJoystick ∧
    (∀ mode : Int, ∃ t, setTransmitterMode cfg s mode = some t ∧
      t.activeJoystick.calibration = s.activeJoystick.calibration ∧
      t.activeJoystick.functionAxis = s.activeJoystick.functionAxis ∧
      t.activeJoystick.txMode =
        if 1 ≤ mode ∧ mode ≤ 4 ∧ s.currentStep = -1 then mode else s.activeJoystick.txMode) ∧
    (∀ axis value : Int,
      (setDeadbandValue cfg s axis value).activeJoystick.calibration =
        Function.update s.activeJoystick.calibration axis
          { s.activeJoystick.calibration axis with deadband := value } ∧
      (setDeadbandValue cfg s axis value).activeJoystick.functionAxis
        = s.activeJoystick.functionAxis ∧
      (setDeadbandValue cfg s axis value).activeJoystick.txMode = s.activeJoystick.txMode) := by
  refine ⟨?_, ?_, ?_, ?_, ?_, ?_⟩
  · intro now axis value
    obtain ⟨t, ht, hjoy, -⟩ := axisValueChanged_total cfg now s axis value h0 h1
    exact ⟨t, ht, by rw [hjoy]; exact ⟨rfl, rfl, rfl⟩⟩
  · obtain ⟨t, ht, hjoy⟩ := startCalibration_activeJoystick cfg s
    exact ⟨t, ht, by rw [hjoy]; exact ⟨rfl, rfl, rfl⟩⟩
  · intro hz
    obtain ⟨t, ht, -, -, -, -, -, hjoy⟩ := saveAllTrims_spec cfg s (by omega) (by omega)
    refine ⟨t, ?_, by rw [hjoy]; exact ⟨rfl, rfl, rfl⟩⟩
    unfold nextButtonClicked
    have hne : ¬ s.currentStep = -1 := by omega
    rw [if_neg hne, hz, getStateMachineEntry_zero]
    exact ht
  · unfold cancelButtonClicked
    rw [stopCalibration_eq]
    exact ⟨rfl, rfl, rfl⟩
  · intro mode
    by_cases hc : 1 ≤ mode ∧ mode ≤ 4 ∧ s.currentStep = -1
    · obtain ⟨s1, hs1, hjoy, -⟩ := setStickPositions_spec
        { s with transmitterMode := mode } hc.1 hc.2.1
      unfold setTransmitterMode
      have hc' : mode > 0 ∧ mode ≤ 4 ∧ s.currentStep = -1 := ⟨by omega, hc.2.1, hc.2.2⟩
      rw [if_pos hc', if_pos hc]
      simp only [hs1]
      rw [setInternalCalibrationValuesFromSettings_eq]
      refine ⟨_, rfl, ?_, ?_, ?_⟩
      · show (s1.activeJoystick.setTXMode mode).calibration = _
        rw [hjoy]; rfl
      · show (s1.activeJoystick.setTXMode mode).functionAxis = _
        rw [hjoy]; rfl
      · rfl
    · unfold setTransmitterMode
      have hc' : ¬ (mode > 0 ∧ mode ≤ 4 ∧ s.currentStep = -1) := by
        rintro ⟨a1, a2, a3⟩
        exact hc ⟨by omega, a2, a3⟩
      rw [if_neg hc', if_neg hc]
      exact ⟨s, rfl, rfl, rfl, rfl⟩
  · intro axis value
    exact ⟨rfl, rfl, rfl⟩

/-- Witness for C21 (amended): `centerController`, which is in step 0. -/
theorem store_frame_witness :
    (∀ now axis value : Int, ∃ t, axisValueChanged sampleConfig now centerController axis value
        = some t ∧
      sameStore centerController.activeJoystick t.activeJoystick) ∧
    (∃ t, startCalibration sampleConfig centerController = some t ∧
      sameStore centerController.activeJoystick t.activeJoystick) ∧
    (∃ t, nextButtonClicked sampleConfig centerController = some t ∧
      sameStore centerController.activeJoystick t.activeJoystick) ∧
    sameStore centerController.activeJoystick
      (cancelButtonClicked sampleConfig centerController).activeJoystick :=
  ⟨(store_frame sampleConfig centerController (by decide) (by decide)).1,
    (store_frame sampleConfig centerController (by decide) (by decide)).2.1,
    (store_frame sampleConfig centerController (by decide) (by decide)).2.2.1 rfl,
    (store_frame sampleConfig centerController (by decide) (by decide)).2.2.2.1⟩

/-! ### Step entry -/

/-- `_calSaveCurrentValues` gives every axis below the axis count its raw value
as baseline and leaves the other baselines alone. -/
theorem calSaveCurrentValues_axisValueSave (self : JoystickConfigController) (j : Int) :
    self.calSaveCurrentValues.axisValueSave j =
      if 0 ≤ j ∧ j < self.axisCount then self.axisRawValue j else self.axisValueSave j :=
  forLoop_update (fun st : JoystickConfigController => st.axisValueSave)
    (fun st i => st.axisRawValue i) self.axisCount
    (fun i st => { st with axisValueSave := Function.update st.axisValueSave i (st.axisRawValue i) })
    self (fun _ _ => rfl) (fun _ _ _ _ => rfl) j

/-- `_setupCurrentState` in a step of the table returns, keeps the step and
leaves the state of a step entry. -/
theorem setupCurrentState_entered (cfg : Config) (self : JoystickConfigController)
    (h0 : 0 ≤ self.currentStep) (h1 : self.currentStep < 11) :
    ∃ s, setupCurrentState cfg self = some s ∧
      s.currentStep = self.currentStep ∧ stepEntered cfg s := by
  obtain ⟨e, he⟩ := getStateMachineEntry_isSome self self.currentStep h0 h1
  unfold setupCurrentState
  simp only [he]
  refine ⟨_, rfl, ?_, ?_, ?_, ?_⟩
  · simp only [calSaveCurrentValues_currentStep]
  · simp only [calSaveCurrentValues_stickDetectAxis]
  · simp only [calSaveCurrentValues_stickDetectSettleStarted]
  · intro i hi0 hi1
    simp only [calSaveCurrentValues_axisCount] at hi1
    simp only [calSaveCurrentValues_axisValueSave, calSaveCurrentValues_axisRawValue]
    rw [if_pos ⟨hi0, hi1⟩]

/-- C22: immediately after every step entry, that is after
`_setupCurrentState` in a step of the table, after `_startCalibration`, and
after every `_advanceState` that stays inside the table, no axis is locked
for detection (the detect axis is "none"), the settle dwell timer is marked
not started, and for every axis index below the axis count the baseline value
equals the current raw value of the axis. -/
theorem stepEntry_resets (cfg : Config) (self : JoystickConfigController) :
    (0 ≤ self.currentStep → self.currentStep ≤ 10 →
      ∃ s, setupCurrentState cfg self = some s ∧
        s.currentStep = self.currentStep ∧ stepEntered cfg s) ∧
    (∃ s, startCalibration cfg self = some s ∧ s.currentStep = 0 ∧ stepEntered cfg s) ∧
    (-1 ≤ self.currentStep → self.currentStep < 10 →
      ∃ s, advanceState cfg self = some s ∧
        s.currentStep = self.currentStep + 1 ∧ stepEntered cfg s) ∧
    (∀ s, advanceState cfg self = some s → stepEntered cfg s) := by
  have hadv : ∀ st : JoystickConfigController, -1 ≤ st.currentStep → st.currentStep < 10 →
      ∃ s, advanceState cfg st = some s ∧
        s.currentStep = st.currentStep + 1 ∧ stepEntered cfg s := by
    intro st hlo hhi
    unfold advanceState
    exact setupCurrentState_entered cfg { st with currentStep := st.currentStep + 1 }
      (by show 0 ≤ st.currentStep + 1; omega) (by show st.currentStep + 1 < 11; omega)
  refine ⟨?_, ?_, hadv self, ?_⟩
  · intro h0 h1
    exact setupCurrentState_entered cfg self h0 (by omega)
  · unfold startCalibration
    exact setupCurrentState_entered cfg
      { resetInternalCalibrationValues cfg
          { self with activeJoystick := self.activeJoystick.setCalibrationMode true } with
        currentStep := 0 }
      (by show (0 : Int) ≤ 0; omega) (by show (0 : Int) < 11; omega)
  · intro s hs
    obtain ⟨hstep, hlo, hhi, -⟩ := advanceState_some cfg self s hs
    obtain ⟨t, ht, -, hent⟩ := hadv self (by omega) (by omega)
    rw [hs] at ht
    cases ht
    exact hent

/-- Witness for C22: the step entries of `detectController`, which is in step
1 with axis 2 locked and the dwell timer started. -/
theorem stepEntry_resets_witness :
    (∃ s, setupCurrentState sampleConfig detectController = some s ∧
      s.currentStep = detectController.currentStep ∧ stepEntered sampleConfig s) ∧
    (∃ s, startCalibration sampleConfig detectController = some s ∧ s.currentStep = 0 ∧
      stepEntered sampleConfig s) ∧
    (∃ s, advanceState sampleConfig detectController = some s ∧
      s.currentStep = detectController.currentStep + 1 ∧ stepEntered sampleConfig s) :=
  ⟨(stepEntry_resets sampleConfig detectController).1 (by decide) (by decide),
    (stepEntry_resets sampleConfig detectController).2.1,
    (stepEntry_resets sampleConfig detectController).2.2.1 (by decide) (by decide)⟩

/-! ### The axis classifier before and after the lock -/

/-- `_inputStickDetect` on a valid unassigned axis while no axis is locked:
the axis is locked exactly when it moved more than the move delta away from
its baseline. -/
theorem inputStickDetect_unlocked (cfg : Config) (now : Int) (s : JoystickConfigController)
    (f : AxisFunction_t) (a v : Int) (hv : s.validAxis a = true)
    (hun : (s.rgAxisInfo a).function = maxFunction)
    (hnone : s.stickDetectAxis = cfg.axisNoAxis) :
    inputStickDetect cfg now s f a v =
      some (if |s.axisValueSave a - v| > cfg.calMoveDelta then
              { s with stickDetectAxis := a
                       stickDetectInitialValue := v
                       stickDetectValue := v }
            else s) := by
  unfold inputStickDetect
  rw [if_neg (by rw [hv]; decide), if_neg (by rw [hun]; exact fun h => h rfl), if_pos hnone]
  split_ifs <;> rfl

/-- `_inputStickDetect` on an axis other than the locked one does nothing. -/
theorem inputStickDetect_other (cfg : Config) (now : Int) (s : JoystickConfigController)
    (f : AxisFunction_t) (a v : Int) (hlocked : s.stickDetectAxis ≠ cfg.axisNoAxis)
    (hother : a ≠ s.stickDetectAxis) :
    inputStickDetect cfg now s f a v = some s := by
  unfold inputStickDetect
  split_ifs <;> rfl

/-- Above 24 binary digits the rounded value is at least the value with the
surplus digits cleared. -/
theorem roundSignificand_ge_floor (m : Nat) (h : 24 < bitLength m) :
    m / 2 ^ (bitLength m - 24) * 2 ^ (bitLength m - 24) ≤ roundSignificand m := by
  unfold roundSignificand
  simp only [Nat.not_le.mpr h, if_false]
  split_ifs
  · exact Nat.mul_le_mul_right _ (Nat.le_succ _)
  · exact le_rfl

/-- A rounded value is a significand of at most 24 binary digits (or `2 ^ 24`)
times a power of two. -/
theorem roundSignificand_representable (x : Nat) :
    ∃ q e : Nat, roundSignificand x = q * 2 ^ e ∧ q ≤ 2 ^ 24 := by
  by_cases h : bitLength x ≤ 24
  · refine ⟨x, 0, ?_, ?_⟩
    · unfold roundSignificand
      simp only [h, if_true, pow_zero, mul_one]
    · by_cases hx : 0 < x
      · have h2 := (bitLength_bounds x hx).2
        have h3 : 2 ^ bitLength x ≤ 2 ^ 24 := Nat.pow_le_pow_right (by decide) h
        omega
      · have : x = 0 := by omega
        subst this
        exact Nat.zero_le _
  · have hx : 0 < x := by
      by_contra hz
      have : x = 0 := by omega
      subst this
      exact h (by decide)
    have hhi := (bitLength_bounds x hx).2
    have hq : x / 2 ^ (bitLength x - 24) < 2 ^ 24 := by
      rw [Nat.div_lt_iff_lt_mul (Nat.pos_pow_of_pos _ (by decide))]
      rw [← pow_add]
      have : 24 + (bitLength x - 24) = bitLength x := by omega
      rw [this]
      exact hhi
    unfold roundSignificand
    simp only [h, if_false]
    split_ifs
    · exact ⟨_, _, rfl, hq⟩
    · exact ⟨_, _, rfl, le_of_lt hq⟩

/-- A binary32 value below `y` is at most `y` with its digits below position
`c` cleared, when `y` has more than `23 + c` binary digits. -/
theorem representable_le_floor (q e y c : Nat) (hq : q ≤ 2 ^ 24)
    (hy : 2 ^ (23 + c) ≤ y) (hlt : q * 2 ^ e < y) :
    q * 2 ^ e ≤ y / 2 ^ c * 2 ^ c := by
  have hpos : 0 < 2 ^ c := Nat.pos_pow_of_pos _ (by decide)
  by_cases hec : c ≤ e
  · obtain ⟨k, hk⟩ : ∃ k, e = c + k := ⟨e - c, by omega⟩
    subst hk
    rw [pow_add, ← mul_assoc, mul_right_comm] at hlt ⊢
    apply Nat.mul_le_mul_right
    rw [Nat.le_div_iff_mul_le hpos]
    exact le_of_lt hlt
  · have h1 : q * 2 ^ e ≤ 2 ^ 24 * 2 ^ e := Nat.mul_le_mul_right _ hq
    have h2 : 2 ^ 24 * 2 ^ e ≤ 2 ^ (23 + c) := by
      rw [← pow_add]
      exact Nat.pow_le_pow_right (by decide) (by omega)
    have h3 : 2 ^ 23 ≤ y / 2 ^ c := by
      rw [Nat.le_div_iff_mul_le hpos, ← pow_add]
      exact hy
    have h4 : 2 ^ 23 * 2 ^ c ≤ y / 2 ^ c * 2 ^ c := Nat.mul_le_mul_right _ h3
    rw [← pow_add] at h4
    omega

/-- A binary32 value above the binary32 value of `d * 2 ^ 23` is not below
`d * 2 ^ 23` itself: no binary32 value lies between a number and its rounding. -/
theorem roundSignificand_gt (x d : Nat)
    (h : roundSignificand d * 2 ^ 23 < roundSignificand x) :
    d * 2 ^ 23 ≤ roundSignificand x := by
  by_cases hd : bitLength d ≤ 24
  · have hr : roundSignificand d = d := by
      unfold roundSignificand
      simp only [hd, if_true]
    rw [hr] at h
    exact le_of_lt h
  · by_contra hlt
    have hlt' : roundSignificand x < d * 2 ^ 23 := by omega
    have hdpos : 0 < d := by
      by_contra hz
      have : d = 0 := by omega
      subst this
      exact hd (by decide)
    have hlo := (bitLength_bounds d hdpos).1
    obtain ⟨q, e, hqe, hq⟩ := roundSignificand_representable x
    have hfloor := roundSignificand_ge_floor d (by omega)
    have hy : 2 ^ (23 + (bitLength d - 24 + 23)) ≤ d * 2 ^ 23 := by
      have : 23 + (bitLength d - 24 + 23) = (bitLength d - 1) + 23 := by omega
      rw [this, pow_add]
      exact Nat.mul_le_mul_right _ hlo
    have hkey := representable_le_floor q e (d * 2 ^ 23) (bitLength d - 24 + 23) hq hy
      (by rw [← hqe]; exact hlt')
    rw [← hqe] at hkey
    have hdiv : d * 2 ^ 23 / 2 ^ (bitLength d - 24 + 23) = d / 2 ^ (bitLength d - 24) := by
      rw [pow_add]
      exact Nat.mul_div_mul_right _ _ (Nat.pos_pow_of_pos _ (by decide))
    rw [hdiv, pow_add, ← mul_assoc] at hkey
    have h5 : d / 2 ^ (bitLength d - 24) * 2 ^ (bitLength d - 24) * 2 ^ 23
        ≤ roundSignificand d * 2 ^ 23 := Nat.mul_le_mul_right _ hfloor
    omega

/-! ### Deadband widening -/

/-- `_inputCenterWaitBegin` on an axis whose deadband lies in
`[0, valid maximum]`, for a sample of `sampleConverts`: the deadband does not
shrink and stays in the range; it is kept, or it becomes a value below
`2 ^ 31`. -/
theorem inputCenterWaitBegin_widens (cfg : Config) (s : JoystickConfigController)
    (f : AxisFunction_t) (axis value : Int) (hsample : sampleConverts value)
    (hlo : 0 ≤ (s.rgAxisInfo axis).deadband)
    (hhi : (s.rgAxisInfo axis).deadband ≤ cfg.calValidMaxValue) :
    (s.rgAxisInfo axis).deadband
      ≤ ((inputCenterWaitBegin cfg s f axis value).rgAxisInfo axis).deadband ∧
    ((inputCenterWaitBegin cfg s f axis value).rgAxisInfo axis).deadband
      ≤ cfg.calValidMaxValue ∧
    (((inputCenterWaitBegin cfg s f axis value).rgAxisInfo axis).deadband
        = (s.rgAxisInfo axis).deadband ∨
      ((inputCenterWaitBegin cfg s f axis value).rgAxisInfo axis).deadband < 2 ^ 31) := by
  have hfit : ((absTimes1_1f value / 2 ^ 23 : Nat) : Int) < 2 ^ 31 := by
    exact_mod_cast hsample.2.2
  unfold inputCenterWaitBegin
  by_cases hc : (absTimes1_1f value : Int) > intToFloat (s.rgAxisInfo axis).deadband * 2 ^ 23
      ∧ s.activeJoystick.deadband = true
  · rw [if_pos hc]
    simp only [axisDeadbandChanged, Function.update_same, Nat.abs_cast]
    obtain ⟨d, hd⟩ : ∃ d : Nat, (s.rgAxisInfo axis).deadband = (d : Int) :=
      ⟨((s.rgAxisInfo axis).deadband).toNat, by omega⟩
    have hcond := hc.1
    rw [hd] at hcond ⊢
    have hfl : intToFloat (d : Int) = (roundSignificand d : Int) := by
      unfold intToFloat
      have hnn : ¬ ((d : Int) < 0) := by omega
      rw [if_neg hnn, Int.natAbs_ofNat]
    rw [hfl] at hcond
    have hnat : roundSignificand d * 2 ^ 23 < absTimes1_1f value := by exact_mod_cast hcond
    have hge : d * 2 ^ 23 ≤ absTimes1_1f value := roundSignificand_gt _ d hnat
    have hdiv : d ≤ absTimes1_1f value / 2 ^ 23 :=
      (Nat.le_div_iff_mul_le (Nat.pos_pow_of_pos _ (by decide))).mpr hge
    have hdiv' : (d : Int) ≤ ((absTimes1_1f value / 2 ^ 23 : Nat) : Int) := by exact_mod_cast hdiv
    rw [hd] at hhi
    split_ifs <;> refine ⟨?_, ?_, Or.inr ?_⟩ <;> omega
  · rw [if_neg hc]
    exact ⟨le_rfl, hhi, Or.inl rfl⟩

/-- A raw sample of `sampleConverts` in step 0 widens or keeps every deadband,
a widened one being below `2 ^ 31`, and keeps the deadbands of the device in
`[0, valid maximum]`. -/
theorem axisValueChanged_widens (cfg : Config) (now : Int) (s : JoystickConfigController)
    (axis value : Int) (hsample : sampleConverts value) (h0 : s.currentStep = 0)
    (hin : DeadbandInRange cfg s) :
    ∃ t, axisValueChanged cfg now s axis value = some t ∧
      t.currentStep = 0 ∧ t.axisCount = s.axisCount ∧
      (∀ i : Int, (s.rgAxisInfo i).deadband ≤ (t.rgAxisInfo i).deadband) ∧
      (∀ i : Int, (t.rgAxisInfo i).deadband = (s.rgAxisInfo i).deadband ∨
        (t.rgAxisInfo i).deadband < 2 ^ 31) ∧
      DeadbandInRange cfg t := by
  rw [axisValueChanged_step_zero cfg now s axis value h0]
  by_cases hv : s.validAxis axis = true
  · rw [if_pos hv]
    obtain ⟨ha0, ha1⟩ := (validAxis_iff s axis).mp hv
    obtain ⟨hd0, hd1⟩ := hin axis ha0 ha1
    obtain ⟨hf1, -, hf3⟩ := inputCenterWaitBegin_frame cfg
      { s with axisRawValue := Function.update s.axisRawValue axis value } maxFunction axis value
    obtain ⟨hw1, hw2, hw3⟩ := inputCenterWaitBegin_widens cfg
      { s with axisRawValue := Function.update s.axisRawValue axis value } maxFunction axis value
      hsample hd0 hd1
    have hcount : (inputCenterWaitBegin cfg
        { s with axisRawValue := Function.update s.axisRawValue axis value }
        maxFunction axis value).axisCount = s.axisCount := by rw [hf1]
    refine ⟨_, rfl, ?_, hcount, ?_, ?_, ?_⟩
    · rw [hf1]; exact h0
    · intro i
      by_cases hi : i = axis
      · subst hi; exact hw1
      · rw [hf3 i hi]
    · intro i
      by_cases hi : i = axis
      · subst hi; exact hw3
      · rw [hf3 i hi]; exact Or.inl rfl
    · intro i hi0 hi1
      rw [hcount] at hi1
      by_cases hi : i = axis
      · subst hi; exact ⟨le_trans hd0 hw1, hw2⟩
      · rw [hf3 i hi]; exact hin i hi0 hi1
  · rw [if_neg hv]
    exact ⟨s, rfl, h0, rfl, fun _ => le_rfl, fun _ => Or.inl rfl, hin⟩

/-- The deadbands of the device are 0 when the calibration has just been
started. -/
theorem deadbandInRange_start (cfg : Config) (s0 s : JoystickConfigController)
    (hvmax : 0 ≤ cfg.calValidMaxValue) (h : startCalibration cfg s0 = some s) :
    s.currentStep = 0 ∧ DeadbandInRange cfg s := by
  obtain ⟨t, ht, hstep, hcount, hinfo, -⟩ := startCalibration_spec cfg s0
  rw [h] at ht
  cases ht
  refine ⟨hstep, ?_⟩
  intro i hi0 hi1
  rw [hcount] at hi1
  rw [hinfo, resetInternalCalibrationValues_eq]
  have hr : 0 ≤ i ∧ i < s0.axisCount := ⟨hi0, hi1⟩
  simp only [hr, and_self, if_true]
  exact ⟨le_rfl, hvmax⟩

/-- One event of a session, its sample being one of `sampleConverts`, keeps
the step inside the table and the deadbands of the device in
`[0, valid maximum]`. -/
theorem deadbandInRange_calibrationAct (cfg : Config) (s s' : JoystickConfigController)
    (a : Action) (hca : a.converts = true) (h0 : 0 ≤ s.currentStep) (h1 : s.currentStep ≤ 10)
    (hin : DeadbandInRange cfg s) (h : calibrationAct cfg s a = some s') :
    0 ≤ s'.currentStep ∧ s'.currentStep ≤ 10 ∧ DeadbandInRange cfg s' := by
  cases a with
  | sample now axis value =>
    simp only [calibrationAct] at h
    have hsample : sampleConverts value := by
      simpa [Action.converts] using hca
    by_cases hz : s.currentStep = 0
    · obtain ⟨t, ht, hstep, -, -, -, hin'⟩ :=
        axisValueChanged_widens cfg now s axis value hsample hz hin
      rw [h] at ht
      cases ht
      exact ⟨by omega, by omega, hin'⟩
    · obtain ⟨t, ht, -, hstep, hdead, hcount⟩ :=
        axisValueChanged_total cfg now s axis value (by omega) h1
      rw [h] at ht
      cases ht
      refine ⟨?_, ?_, ?_⟩
      · rcases hstep with hs | ⟨-, hs, -⟩ <;> omega
      · rcases hstep with hs | ⟨-, -, hs⟩ <;> omega
      · intro i hi0 hi1
        rw [hcount (by omega)] at hi1
        rw [hdead hz i]
        exact hin i hi0 hi1
  | next =>
    simp only [calibrationAct] at h
    by_cases hc : s.atCommit = true
    · rw [if_pos hc] at h; cases h
    · rw [if_neg hc] at h
      unfold nextButtonClicked at h
      have hne : ¬ s.currentStep = -1 := by omega
      rw [if_neg hne] at h
      cases he : s.getStateMachineEntry s.currentStep with
      | none => rw [he] at h; cases h
      | some e =>
        rw [he] at h
        simp only [] at h
        cases hfn : e.nextFn with
        | none => rw [hfn] at h; cases h
        | some fn =>
          rw [hfn] at h
          cases fn with
          | saveAllTrims =>
            simp only [] at h
            rcases getStateMachineEntry_nextFn s _ e _ he hfn with ⟨-, hk⟩ | ⟨hf, -⟩
            · obtain ⟨t, ht, hstep, hinfo, -, hcount, -⟩ :=
                saveAllTrims_spec cfg s (by omega) (by omega)
              rw [h] at ht
              cases ht
              refine ⟨by omega, by omega, ?_⟩
              intro i hi0 hi1
              rw [hcount] at hi1
              rw [hinfo]
              have hr : 0 ≤ i ∧ i < s.axisCount := ⟨hi0, hi1⟩
              simp only [hr, and_self, if_true]
              exact hin i hi0 hi1
            · cases hf
          | writeCalibration =>
            unfold atCommit at hc
            rw [he] at hc
            simp only [hfn] at hc
            exact absurd rfl hc

/-- The deadbands of the device lie in `[0, valid maximum]` in every state of
a calibration session. -/
theorem deadbandInRange_calibrationActs (cfg : Config) (actions : List Action) :
    (∀ a ∈ actions, a.converts = true) →
    ∀ s s' : JoystickConfigController, 0 ≤ s.currentStep → s.currentStep ≤ 10 →
      DeadbandInRange cfg s → calibrationActs cfg s actions = some s' →
      DeadbandInRange cfg s' := by
  induction actions with
  | nil =>
    intro _ s s' _ _ hin h
    simp only [calibrationActs] at h
    cases h; exact hin
  | cons a rest ih =>
    intro hconv s s' h0 h1 hin h
    simp only [calibrationActs] at h
    cases ha : calibrationAct cfg s a with
    | none => rw [ha] at h; cases h
    | some t =>
      rw [ha] at h
      simp only [] at h
      obtain ⟨ht0, ht1, hint⟩ := deadbandInRange_calibrationAct cfg s t a
        (hconv a (List.mem_cons_self _ _)) h0 h1 hin ha
      exact ih (fun b hb => hconv b (List.mem_cons_of_mem _ hb)) t s' ht0 ht1 hint h

/-- A permitted Next click is processed without a failed assertion and leaves
the step inside `-1 .. 10`. -/
theorem nextButtonClicked_total (cfg : Config) (s : JoystickConfigController)
    (h0 : -1 ≤ s.currentStep) (h1 : s.currentStep ≤ 10) (hp : nextPermitted s = true) :
    ∃ t, nextButtonClicked cfg s = some t ∧ -1 ≤ t.currentStep ∧ t.currentStep ≤ 10 := by
  unfold nextButtonClicked
  by_cases hidle : s.currentStep = -1
  · rw [if_pos hidle]
    split_ifs
    · exact ⟨s, rfl, h0, h1⟩
    · obtain ⟨t, ht, hstep, -⟩ := startCalibration_spec cfg s
      exact ⟨t, ht, by omega, by omega⟩
  · rw [if_neg hidle]
    have hge : s.currentStep ≥ 0 := by omega
    obtain ⟨e, he⟩ := getStateMachineEntry_isSome s s.currentStep (by omega) (by omega)
    unfold nextPermitted nextEnabled at hp
    rw [if_pos hge, he] at hp
    rw [he]
    simp only [hidle, decide_False, Bool.false_or] at hp
    cases hfn : e.nextFn with
    | none => rw [hfn] at hp; simp at hp
    | some fn =>
      rcases getStateMachineEntry_nextFn s _ e fn he hfn with ⟨hf, hk⟩ | ⟨hf, hk⟩
      · subst hf
        simp only [hfn]
        obtain ⟨t, ht, hstep, -⟩ := saveAllTrims_spec cfg s (by omega) (by omega)
        exact ⟨t, ht, by omega, by omega⟩
      · subst hf
        simp only [hfn]
        have hw : (writeCalibration cfg s).currentStep = -1 := by rw [writeCalibration_eq]
        exact ⟨_, rfl, by omega, by omega⟩

/-- From any step inside `-1 .. 10`, events whose Next clicks are permitted
are all processed and leave the step inside `-1 .. 10`. -/
theorem controllerActs_total (cfg : Config) (events : List Event) :
    ∀ s : JoystickConfigController, -1 ≤ s.currentStep → s.currentStep ≤ 10 →
      nextOnlyWhenPermitted cfg s events = true →
      ∃ t, controllerActs cfg s events = some t ∧ -1 ≤ t.currentStep ∧ t.currentStep ≤ 10 := by
  induction events with
  | nil =>
    intro s h0 h1 _
    exact ⟨s, rfl, h0, h1⟩
  | cons e rest ih =>
    intro s h0 h1 hp
    have hact : ∃ t, controllerAct cfg s e = some t ∧ -1 ≤ t.currentStep ∧ t.currentStep ≤ 10 := by
      cases e with
      | sample now axis value =>
        obtain ⟨t, ht, -, hstep, -⟩ := axisValueChanged_total cfg now s axis value h0 h1
        refine ⟨t, ht, ?_, ?_⟩
        · rcases hstep with h | ⟨-, h, -⟩ <;> omega
        · rcases hstep with h | ⟨-, -, h⟩ <;> omega
      | next =>
        have hperm : nextPermitted s = true := by
          simp only [nextOnlyWhenPermitted, if_true, Bool.and_eq_true] at hp
          exact hp.1
        exact nextButtonClicked_total cfg s h0 h1 hperm
      | cancel =>
        have hc : (cancelButtonClicked cfg s).currentStep = -1 := by
          unfold cancelButtonClicked; rw [stopCalibration_eq]
        exact ⟨_, rfl, by omega, by omega⟩
    obtain ⟨t, ht, ht0, ht1⟩ := hact
    have hrest : nextOnlyWhenPermitted cfg t rest = true := by
      simp only [nextOnlyWhenPermitted, ht, Bool.and_eq_true] at hp
      exact hp.2
    obtain ⟨u, hu, hu0, hu1⟩ := ih t ht0 ht1 hrest
    exact ⟨u, by simp only [controllerActs, ht]; exact hu, hu0, hu1⟩

/-- C25: from the idle state, any sequence of axis samples (on valid or invalid
axes), Cancel clicks and Next clicks, the Next clicks being issued only while
the controller is idle or `nextEnabled()` is true, is processed without a
failed assertion and ends in a state whose step index lies in `-1 .. 10`.  In
that state the table has a row for the step (the bounds assertion of
`_getStateMachineEntry` holds), a further sample is processed and leaves the
step at most 10, and a further permitted Next click finds its `nextFn` and
leaves the step inside `-1 .. 10`. -/
theorem controllerActs_step_range (cfg : Config) (s0 : JoystickConfigController)
    (events : List Event) (hidle : s0.currentStep = -1)
    (hnext : nextOnlyWhenPermitted cfg s0 events = true) :
    ∃ s, controllerActs cfg s0 events = some s ∧
      -1 ≤ s.currentStep ∧ s.currentStep ≤ 10 ∧
      (s.currentStep ≠ -1 → ∃ e, s.getStateMachineEntry s.currentStep = some e) ∧
      (∀ now axis value : Int, ∃ t, axisValueChanged cfg now s axis value = some t ∧
        -1 ≤ t.currentStep ∧ t.currentStep ≤ 10) ∧
      (nextPermitted s = true →
        ∃ t, nextButtonClicked cfg s = some t ∧ -1 ≤ t.currentStep ∧ t.currentStep ≤ 10) := by
  obtain ⟨s, hs, h0, h1⟩ := controllerActs_total cfg events s0 (by omega) (by omega) hnext
  refine ⟨s, hs, h0, h1, ?_, ?_, ?_⟩
  · intro hne
    exact getStateMachineEntry_isSome s s.currentStep (by omega) (by omega)
  · intro now axis value
    obtain ⟨t, ht, -, hstep, -⟩ := axisValueChanged_total cfg now s axis value h0 h1
    refine ⟨t, ht, ?_, ?_⟩
    · rcases hstep with h | ⟨-, h, -⟩ <;> omega
    · rcases hstep with h | ⟨-, -, h⟩ <;> omega
  · intro hp
    exact nextButtonClicked_total cfg s h0 h1 hp

/-- Witness for C25: `eventSession` and `commitSession` on the idle four-axis
controller. -/
theorem controllerActs_step_range_witness :
    (sampleController 4).currentStep = -1 ∧
    nextOnlyWhenPermitted sampleConfig (sampleController 4) eventSession = true ∧
    nextOnlyWhenPermitted sampleConfig (sampleController 4) commitSession = true ∧
    (∃ s, controllerActs sampleConfig (sampleController 4) eventSession = some s ∧
      -1 ≤ s.currentStep ∧ s.currentStep ≤ 10 ∧
      (s.currentStep ≠ -1 → ∃ e, s.getStateMachineEntry s.currentStep = some e) ∧
      (∀ now axis value : Int, ∃ t, axisValueChanged sampleConfig now s axis value = some t ∧
        -1 ≤ t.currentStep ∧ t.currentStep ≤ 10) ∧
      (nextPermitted s = true →
        ∃ t, nextButtonClicked sampleConfig s = some t ∧
          -1 ≤ t.currentStep ∧ t.currentStep ≤ 10)) ∧
    (∃ s, controllerActs sampleConfig (sampleController 4) commitSession = some s ∧
      -1 ≤ s.currentStep ∧ s.currentStep ≤ 10 ∧
      (s.currentStep ≠ -1 → ∃ e, s.getStateMachineEntry s.currentStep = some e) ∧
      (∀ now axis value : Int, ∃ t, axisValueChanged sampleConfig now s axis value = some t ∧
        -1 ≤ t.currentStep ∧ t.currentStep ≤ 10) ∧
      (nextPermitted s = true →
        ∃ t, nextButtonClicked sampleConfig s = some t ∧
          -1 ≤ t.currentStep ∧ t.currentStep ≤ 10)) :=
  ⟨rfl, by decide!, by decide!,
    controllerActs_step_range sampleConfig (sampleController 4) eventSession rfl (by decide!),
    controllerActs_step_range sampleConfig (sampleController 4) commitSession rfl (by decide!)⟩

/-! ### Which functions are mapped in which step -/

/-- A step whose sample handler is not `_inputStickDetect` is the detect step
of no function. -/
theorem getStateMachineEntry_not_detect (self : JoystickConfigController) (step : Int)
    (e : stateMachineEntry) (fn : inputFn)
    (h : self.getStateMachineEntry step = some e) (hfn : e.rcInputFn = some fn)
    (hnd : fn ≠ inputFn.inputStickDetect) (f : AxisFunction_t) : detectStep f ≠ step := by
  obtain ⟨h0, h1⟩ := getStateMachineEntry_rcInputFn_range self step e _ h hfn
  unfold getStateMachineEntry at h
  rw [if_pos ⟨h0, by rw [rgStateMachine_length]; omega⟩] at h
  interval_cases step <;> simp [rgStateMachine] at h <;> subst h <;> simp at hfn <;>
    subst hfn <;> first | exact absurd rfl hnd | (cases f <;> simp [detectStep])

/-- Two functions with the same detect step, a step of the table before the
last, are the same function. -/
theorem detectStep_injective (f g : AxisFunction_t) (h : detectStep f = detectStep g)
    (hlt : detectStep f < 10) : f = g := by
  cases f <;> cases g <;> simp [detectStep] at h hlt ⊢

/-- No function is detected in step 0 or before. -/
theorem detectStep_pos (f : AxisFunction_t) : 1 ≤ detectStep f := by
  cases f <;> simp [detectStep]

/-- A step forward that keeps the mapping keeps `Progress` when the step left
is the detect step of no function. -/
theorem progress_of_sameCore {cfg : Config} {s s' : JoystickConfigController}
    (hp : Progress cfg s) (hc : SameCore s s')
    (hstep : s'.currentStep = s.currentStep ∨
      (s'.currentStep = s.currentStep + 1 ∧ ∀ f, detectStep f ≠ s.currentStep)) :
    Progress cfg s' := by
  intro f hf
  rw [hc.2.1]
  apply hp f
  rcases hstep with h | ⟨h, hnd⟩
  · omega
  · have := hnd f
    omega

/-- A raw sample keeps `Progress`. -/
theorem progress_axisValueChanged (cfg : Config) (now : Int)
    (s s' : JoystickConfigController) (axis value : Int)
    (hno : cfg.axisNoAxis < 0) (hcon : Consistent cfg s) (hp : Progress cfg s)
    (h : axisValueChanged cfg now s axis value = some s') : Progress cfg s' := by
  unfold axisValueChanged at h
  by_cases hv : s.validAxis axis = true
  swap
  · simp only [hv, Bool.false_eq_true, if_false] at h
    cases h; exact hp
  have hne : ¬ s.currentStep = -1 := by have := hcon.stepLo; omega
  simp only [hv, if_true, hne, false_and, if_false, ne_eq, not_false_eq_true] at h
  have hp2 : Progress cfg { s with axisRawValue := Function.update s.axisRawValue axis value } :=
    hp
  generalize hs2 : ({ s with axisRawValue := Function.update s.axisRawValue axis value }
    : JoystickConfigController) = s2 at h hp2
  have hstep2 : s2.currentStep = s.currentStep := by rw [← hs2]
  cases he : s2.getStateMachineEntry s.currentStep with
  | none => rw [he] at h; cases h
  | some e =>
    rw [he] at h
    simp only [] at h
    have he' : s2.getStateMachineEntry s2.currentStep = some e := by rw [hstep2]; exact he
    cases hfn : e.rcInputFn with
    | none => rw [hfn] at h; cases h; exact hp2
    | some fn =>
      rw [hfn] at h
      cases fn with
      | inputCenterWaitBegin =>
        simp only [] at h
        cases h
        obtain ⟨hcore, hst⟩ := inputCenterWaitBegin_core cfg s2 e.function axis value
        exact progress_of_sameCore hp2 hcore (Or.inl hst)
      | inputStickDetect =>
        simp only [] at h
        obtain ⟨hds, hfmax⟩ := getStateMachineEntry_detect s2 _ e he' hfn
        rcases inputStickDetect_core cfg now s2 s' e.function axis value h with
          ⟨hcore, hst⟩ | ⟨hva, hun, hcount, hmap, hfun, hst, hhi⟩
        · exact progress_of_sameCore hp2 hcore (Or.inl hst)
        · have hvalid := (validAxis_iff s2 axis).mp hva
          intro f hf
          rw [hmap]
          by_cases hff : f = e.function
          · subst hff
            rw [Function.update_same]
            omega
          · rw [Function.update_noteq hff]
            apply hp2 f
            have hne' : detectStep f ≠ detectStep e.function := fun heq =>
              hff (detectStep_injective f e.function heq (by omega))
            omega
      | inputStickMin =>
        simp only [] at h
        obtain ⟨hcore, hst⟩ := inputStickMin_core cfg now s2 s' e.function axis value h
        refine progress_of_sameCore hp2 hcore ?_
        rcases hst with hst | ⟨hst, -⟩
        · exact Or.inl hst
        · exact Or.inr ⟨hst, getStateMachineEntry_not_detect s2 _ e _ he' hfn (by simp)⟩
      | inputCenterWait =>
        simp only [] at h
        obtain ⟨hcore, hst⟩ := inputCenterWait_core cfg now s2 s' e.function axis value h
        refine progress_of_sameCore hp2 hcore ?_
        rcases hst with hst | ⟨hst, -⟩
        · exact Or.inl hst
        · exact Or.inr ⟨hst, getStateMachineEntry_not_detect s2 _ e _ he' hfn (by simp)⟩

/-- A Next click before the commit keeps `Progress`. -/
theorem progress_next (cfg : Config) (s s' : JoystickConfigController)
    (hcon : Consistent cfg s) (hnc : s.atCommit = false)
    (h : nextButtonClicked cfg s = some s') : Progress cfg s' := by
  unfold nextButtonClicked at h
  have hne : ¬ s.currentStep = -1 := by have := hcon.stepLo; omega
  rw [if_neg hne] at h
  unfold atCommit at hnc
  cases he : s.getStateMachineEntry s.currentStep with
  | none => rw [he] at h; cases h
  | some e =>
    rw [he] at h hnc
    simp only [] at h hnc
    cases hfn : e.nextFn with
    | none => rw [hfn] at h; cases h
    | some fn =>
      rw [hfn] at h hnc
      cases fn with
      | saveAllTrims =>
        simp only [] at h
        obtain ⟨hcore, hst, -⟩ := saveAllTrims_core cfg s s' h
        rcases getStateMachineEntry_nextFn s _ e _ he hfn with ⟨-, hk⟩ | ⟨hf, -⟩
        · intro f hf
          have := detectStep_pos f
          omega
        · cases hf
      | writeCalibration => simp at hnc

/-- `Progress` holds in every state of a calibration session. -/
theorem progress_calibrationActs (cfg : Config) (hno : cfg.axisNoAxis < 0)
    (actions : List Action) :
    ∀ s s' : JoystickConfigController, Consistent cfg s → Progress cfg s →
      calibrationActs cfg s actions = some s' → Progress cfg s' := by
  induction actions with
  | nil =>
    intro s s' _ hp h
    simp only [calibrationActs] at h
    cases h; exact hp
  | cons a rest ih =>
    intro s s' hcon hp h
    simp only [calibrationActs] at h
    cases ha : calibrationAct cfg s a with
    | none => rw [ha] at h; cases h
    | some t =>
      rw [ha] at h
      simp only [] at h
      have hcont : Consistent cfg t :=
        consistent_calibrationActs cfg hno [a] s t hcon (by simp only [calibrationActs, ha])
      refine ih t s' hcont ?_ h
      cases a with
      | sample now axis value =>
        exact progress_axisValueChanged cfg now s t axis value hno hcon hp ha
      | next =>
        simp only [calibrationAct] at ha
        by_cases hc : s.atCommit = true
        · rw [if_pos hc] at ha; cases ha
        · rw [if_neg hc] at ha
          exact progress_next cfg s t hcon (by simpa using hc) ha

/-- `Progress` holds in every state reachable from a start of calibration. -/
theorem progress_calibrationRun (cfg : Config) (hno : cfg.axisNoAxis < 0)
    (s0 s : JoystickConfigController) (actions : List Action)
    (h : calibrationRun cfg s0 actions = some s) : Progress cfg s := by
  unfold calibrationRun at h
  cases hs : startCalibration cfg s0 with
  | none => rw [hs] at h; cases h
  | some t =>
    rw [hs] at h
    simp only [] at h
    have hcon := consistent_start cfg s0 t hno hs
    obtain ⟨t', ht', hstep, -⟩ := startCalibration_spec cfg s0
    rw [hs] at ht'
    cases ht'
    refine progress_calibrationActs cfg hno actions t s hcon ?_ h
    intro f hf
    have := detectStep_pos f
    omega

/-- C26: in every state reachable from a start of calibration by axis samples
and Next clicks (its step index `k` is then at least 0), throttle is mapped
iff `k >= 2`, yaw iff `k >= 4`, roll iff `k >= 6`, pitch iff `k >= 8`, the
gimbal functions are not mapped, and the mapped functions point to pairwise
distinct axis indices, each non-negative and below the axis count; in
particular at the final step throttle, yaw, roll and pitch are mapped to four
different valid axes. -/
theorem calibrationRun_mapped (cfg : Config) (s0 s : JoystickConfigController)
    (actions : List Action) (hno : cfg.axisNoAxis < 0)
    (h : calibrationRun cfg s0 actions = some s) :
    0 ≤ s.currentStep ∧ s.currentStep ≤ 10 ∧
    (s.rgFunctionAxisMapping throttleFunction ≠ cfg.axisNoAxis ↔ 2 ≤ s.currentStep) ∧
    (s.rgFunctionAxisMapping yawFunction ≠ cfg.axisNoAxis ↔ 4 ≤ s.currentStep) ∧
    (s.rgFunctionAxisMapping rollFunction ≠ cfg.axisNoAxis ↔ 6 ≤ s.currentStep) ∧
    (s.rgFunctionAxisMapping pitchFunction ≠ cfg.axisNoAxis ↔ 8 ≤ s.currentStep) ∧
    s.rgFunctionAxisMapping gimbalPitchFunction = cfg.axisNoAxis ∧
    s.rgFunctionAxisMapping gimbalYawFunction = cfg.axisNoAxis ∧
    (∀ f : AxisFunction_t, f ≠ maxFunction → s.rgFunctionAxisMapping f ≠ cfg.axisNoAxis →
      0 ≤ s.rgFunctionAxisMapping f ∧ s.rgFunctionAxisMapping f < s.axisCount) ∧
    (∀ f g : AxisFunction_t, f ≠ maxFunction → g ≠ maxFunction →
      s.rgFunctionAxisMapping f ≠ cfg.axisNoAxis →
      s.rgFunctionAxisMapping f = s.rgFunctionAxisMapping g → f = g) ∧
    (s.currentStep = 10 →
      ∀ f ∈ [throttleFunction, yawFunction, rollFunction, pitchFunction],
        (0 ≤ s.rgFunctionAxisMapping f ∧ s.rgFunctionAxisMapping f < s.axisCount) ∧
        ∀ g ∈ [throttleFunction, yawFunction, rollFunction, pitchFunction],
          s.rgFunctionAxisMapping f = s.rgFunctionAxisMapping g → f = g) := by
  have hcon := consistent_calibrationRun cfg hno s0 s actions h
  have hp := progress_calibrationRun cfg hno s0 s actions h
  have hiff : ∀ f : AxisFunction_t, f ≠ maxFunction →
      (s.rgFunctionAxisMapping f ≠ cfg.axisNoAxis ↔ detectStep f < s.currentStep) :=
    fun f hf => ⟨fun hm => (hcon.mapped f hf hm).2, fun hlt => hp f hlt⟩
  have hrange : ∀ f : AxisFunction_t, f ≠ maxFunction →
      s.rgFunctionAxisMapping f ≠ cfg.axisNoAxis →
      0 ≤ s.rgFunctionAxisMapping f ∧ s.rgFunctionAxisMapping f < s.axisCount :=
    fun f hf hm => (hcon.mapped f hf hm).1
  have hdist : ∀ f g : AxisFunction_t, f ≠ maxFunction → g ≠ maxFunction →
      s.rgFunctionAxisMapping f ≠ cfg.axisNoAxis →
      s.rgFunctionAxisMapping f = s.rgFunctionAxisMapping g → f = g := by
    intro f g hf hg hm heq
    obtain ⟨hr0, hr1⟩ := hrange f hf hm
    have h1 := (hcon.inverse (s.rgFunctionAxisMapping f) f hr0 hr1 hf).mpr rfl
    have h2 := (hcon.inverse (s.rgFunctionAxisMapping f) g hr0 hr1 hg).mpr heq.symm
    rw [h1] at h2
    exact h2
  have hlo := hcon.stepLo
  have hhi := hcon.stepHi
  refine ⟨hlo, hhi, ?_, ?_, ?_, ?_, ?_, ?_, hrange, hdist, ?_⟩
  · rw [hiff throttleFunction (by decide)]; simp only [detectStep]; omega
  · rw [hiff yawFunction (by decide)]; simp only [detectStep]; omega
  · rw [hiff rollFunction (by decide)]; simp only [detectStep]; omega
  · rw [hiff pitchFunction (by decide)]; simp only [detectStep]; omega
  · by_contra hm
    have := (hiff gimbalPitchFunction (by decide)).mp hm
    simp only [detectStep] at this
    omega
  · by_contra hm
    have := (hiff gimbalYawFunction (by decide)).mp hm
    simp only [detectStep] at this
    omega
  · intro hten f hf
    have hfm : f ≠ maxFunction ∧ detectStep f < s.currentStep := by
      simp only [List.mem_cons, List.mem_singleton, List.not_mem_nil, or_false] at hf
      rcases hf with rfl | rfl | rfl | rfl <;> simp [detectStep, hten]
    have hm := (hiff f hfm.1).mpr hfm.2
    refine ⟨hrange f hfm.1 hm, ?_⟩
    intro g hg heq
    have hgm : g ≠ maxFunction := by
      simp only [List.mem_cons, List.mem_singleton, List.not_mem_nil, or_false] at hg
      rcases hg with rfl | rfl | rfl | rfl <;> simp
    exact hdist f g hfm.1 hgm hm heq

/-- Witness for C26: the state `fullSession` leads to, which is at the final
step. -/
theorem calibrationRun_mapped_witness :
    sampleConfig.axisNoAxis < 0 ∧
    calibrationRun sampleConfig (sampleController 4) fullSession = some fullSessionState ∧
    fullSessionState.currentStep = 10 ∧
    (fullSessionState.rgFunctionAxisMapping throttleFunction ≠ sampleConfig.axisNoAxis
      ↔ 2 ≤ fullSessionState.currentStep) ∧
    (∀ f ∈ [throttleFunction, yawFunction, rollFunction, pitchFunction],
      (0 ≤ fullSessionState.rgFunctionAxisMapping f ∧
        fullSessionState.rgFunctionAxisMapping f < fullSessionState.axisCount) ∧
      ∀ g ∈ [throttleFunction, yawFunction, rollFunction, pitchFunction],
        fullSessionState.rgFunctionAxisMapping f = fullSessionState.rgFunctionAxisMapping g →
          f = g) :=
  ⟨by decide,
    calibrationRun_getD sampleConfig (sampleController 4) (sampleController 4) fullSession
      (by decide!),
    by decide!,
    (calibrationRun_mapped sampleConfig (sampleController 4) fullSessionState fullSession
      (by decide)
      (calibrationRun_getD sampleConfig (sampleController 4) (sampleController 4) fullSession
        (by decide!))).2.2.1,
    (calibrationRun_mapped sampleConfig (sampleController 4) fullSessionState fullSession
      (by decide)
      (calibrationRun_getD sampleConfig (sampleController 4) (sampleController 4) fullSession
        (by decide!))).2.2.2.2.2.2.2.2.2.2 (by decide!)⟩

end JoystickConfigController
